import Mathlib

/-!
# Coordinate transform and navigation core of the GIS workbench

A shallow embedding of the geographic/scene coordinate code of
`src/mainwindow.cpp`: the conversions (`jumpToLocation`,
`geographicToSceneCoords`, `sceneToGeographicCoords`), the marker removal
(`removeCoordinateMarker`), the extent computations (`updateExtentsDisplay`,
`getCurrentExtentsString`), and the operations that change the raster registry
and the primary raster (`loadRasterFile`, `onOpenGeoTIFF`, `clearAllImages`,
`clearCurrentImage`).

Numbers. The C++ code computes with IEEE doubles. A finite double is carried
as the rational it denotes, and the geographic-to-pixel computation is given
twice. `geoToPixel` evaluates the formulas of the code in exact arithmetic: a
division by zero is the one operation that leaves the finite values, and its
outcome is the non-finite value `none` of `Dbl`. `Binary64.geoToPixel` evaluates
the same formulas as the code runs them, every operation rounded to the
nearest double, with overflow to an infinity and with NaN. The functions that
contain the computation inline take it as an argument (`jumpToLocationWith`,
`geographicToSceneCoordsWith`), so that what is proved for every such argument
holds for the code's arithmetic; `jumpToLocation` and `geographicToSceneCoords`
are the instances at `geoToPixel`, used where the values are exact in doubles
as well. Elsewhere overflow is modelled only where the code itself computes
with the largest double (`toDbl`, in the fallback of
`geographicToSceneCoords`).

State. A constructed `MainWindow` always has its scene and view
(`setupCentralWidget`, lines 1157-1158, called from the constructor); the
statements about `jumpToLocation` assume them set, as the guard at 4151 does.
Graphics items are values: an item stored in several members (the registry
entry, `geoTIFFItem`, `currentImageItem`, a layer) is the same value in each.
The marker items are deleted by the code itself, so the state records whether
the items behind the marker members were already deleted with the scene
(`markerDeleted`, `crosshairDeleted`); deleting them once more is undefined
behaviour (`useAfterFree`, and the outcome `undefinedBehaviour` of a jump).
What the file system, GDAL and the GUI library return to a load operation is
an argument of that operation (`RasterFile`, `GeoTIFFFile`).

City search. The namespace `CitySearch` embeds `loadCitiesFromCSV` and
`findCity` of `src/citysearch.cpp` with `CityData::getSearchString` of
`src/citysearch.h`. A `QString` is the list of its code units; the case folding
behind `Qt::CaseInsensitive` and the number parser `QString::toDouble` are
arguments, and the `QMap` is the list of its entries in key order.
-/

namespace GeoCore

/-! ## Numbers -/

/-- A double as the embedding sees it: `some q` is a finite value, carried
exactly; `none` is a non-finite value (an infinity or a NaN). -/
abbrev Dbl := Option ℚ

/-- Double division `a / b` of two finite values: finite when `b` is not zero,
non-finite (`±inf` or NaN) when it is. -/
def fdiv (a b : ℚ) : Dbl :=
  if b = 0 then none else some (a / b)

/-- Adding a finite constant to a double: a non-finite value stays non-finite. -/
def Dbl.addConst (a : Dbl) (q : ℚ) : Dbl :=
  a.map (fun v => v + q)

/-- The test `p >= 0 && p < n` of the code, for an `int` bound `n`. On a
non-finite `p` the conjunction is false: a NaN fails both comparisons, `+inf`
fails `p < n`, and `-inf` fails `p >= 0`. -/
def Dbl.inPixelRange (p : Dbl) (n : ℤ) : Bool :=
  match p with
  | some q => decide (0 ≤ q) && decide (q < (n : ℚ))
  | none => false

/-- The literal `1e-10` that the code compares `fabs` values against. -/
def eps : ℚ := 1 / 10000000000

/-- Qt `qBound(min, val, max)`, which is `qMax(min, qMin(max, val))`. -/
def qBound {α : Type} [LinearOrder α] (lo val hi : α) : α :=
  max lo (min hi val)

/-- Qt `qRound(double)`: the nearest integer, halves rounded away from zero. -/
def qRound (d : ℚ) : ℤ :=
  if 0 ≤ d then ⌊d + 1 / 2⌋ else ⌈d - 1 / 2⌉

/-! ## Geometry values of the GUI library -/

/-- Qt `QPointF` with finite coordinates. -/
structure PointF where
  x : ℚ
  y : ℚ
deriving DecidableEq, Repr

/-- Qt `QPointF` as a function result: each coordinate is a double. The
default-constructed `QPointF()` is `(0, 0)`; the "not geographic" sentinel is
`(NaN, NaN)`. -/
structure QPointF where
  x : Dbl
  y : Dbl
deriving DecidableEq, Repr

/-- The default-constructed `QPointF()`, the "empty" point. -/
def QPointF.null : QPointF := ⟨some 0, some 0⟩

/-- The sentinel `QPointF(qQNaN(), qQNaN())`. -/
def QPointF.nan : QPointF := ⟨none, none⟩

/-- Qt `QSize`: integer width and height. `QSize()` is `(-1, -1)`. -/
structure QSize where
  width : ℤ
  height : ℤ
deriving DecidableEq, Repr

/-- Qt `QRectF`, stored as left, top, width, height. -/
structure QRectF where
  left : ℚ
  top : ℚ
  width : ℚ
  height : ℚ
deriving DecidableEq, Repr

/-- Qt `QRectF::right()`. -/
def QRectF.right (r : QRectF) : ℚ := r.left + r.width

/-- Qt `QRectF::bottom()`. -/
def QRectF.bottom (r : QRectF) : ℚ := r.top + r.height

/-- A `QGraphicsItem` as the coordinate code uses it. The four members are
values of the GUI library (the item's shape test, its scene placement in both
directions, its bounding rectangle); they are parameters of the embedding. -/
structure GraphicsItem where
  /-- Library value `QGraphicsItem::contains(point)`. -/
  contains : PointF → Bool
  /-- Library value `QGraphicsItem::mapFromScene(point)`. -/
  mapFromScene : PointF → PointF
  /-- Library value `QGraphicsItem::mapToScene(point)`; the argument may be non-finite. -/
  mapToScene : QPointF → QPointF
  /-- Library value `QGraphicsItem::boundingRect()`. -/
  boundingRect : QRectF

/-! ## The affine geotransform -/

/-- The six coefficients `gdalGeoTransform[0..5]` / `geoTransform[0..5]`. -/
structure GeoTransform where
  c0 : ℚ
  c1 : ℚ
  c2 : ℚ
  c3 : ℚ
  c4 : ℚ
  c5 : ℚ
deriving DecidableEq, Repr

/-- The forward formula of `sceneToGeographicCoords` (lines 4586-4592):
`geoX = c0 + x*c1 + y*c2`, `geoY = c3 + x*c4 + y*c5`. -/
def forward (g : GeoTransform) (x y : ℚ) : ℚ × ℚ :=
  (g.c0 + x * g.c1 + y * g.c2, g.c3 + x * g.c4 + y * g.c5)

/-- The determinant `c1*c5 - c2*c4` of the linear part. -/
def det (g : GeoTransform) : ℚ :=
  g.c1 * g.c5 - g.c2 * g.c4

/-- Outcome of the inline geographic-to-pixel computation: either the
singular-transform exit was taken, or a pixel coordinate was computed. -/
inductive PixelResult where
  | singular : PixelResult
  | pixel (x y : Dbl) : PixelResult
deriving DecidableEq, Repr

/-- The "simple case" branch (lines 4180-4181, 4483-4484, 4513-4514):
`pixelX = (lon - c0) / c1`, `pixelY = (lat - c3) / c5`. No determinant is
computed on this branch. -/
def fastPath (g : GeoTransform) (lon lat : ℚ) : PixelResult :=
  .pixel (fdiv (lon - g.c0) g.c1) (fdiv (lat - g.c3) g.c5)

/-- The "complex case" branch (lines 4186-4198, 4487-4495, 4517-4525): the
determinant test `fabs(det) < 1e-10`, then the two quotients. -/
def generalPath (g : GeoTransform) (lon lat : ℚ) : PixelResult :=
  if |det g| < eps then .singular
  else .pixel (fdiv (g.c5 * (lon - g.c0) - g.c2 * (lat - g.c3)) (det g))
              (fdiv (g.c1 * (lat - g.c3) - g.c4 * (lon - g.c0)) (det g))

/-- The branch test `fabs(c2) < 1e-10 && fabs(c4) < 1e-10`. -/
def isAxisAligned (g : GeoTransform) : Bool :=
  decide (|g.c2| < eps) && decide (|g.c4| < eps)

/-- The geographic-to-pixel computation written inline, identically, in
`jumpToLocation` (4178-4201) and twice in `geographicToSceneCoords`
(4481-4496, 4510-4526). -/
def geoToPixel (g : GeoTransform) (lon lat : ℚ) : PixelResult :=
  if isAxisAligned g then fastPath g lon lat else generalPath g lon lat

/-! ## The same computation in double arithmetic -/

namespace Binary64

/-- A value of the IEEE 754 binary64 format (`double`), as far as the
computations of the code tell values apart: a finite value, carried as the
rational number it denotes (the two zeros are one value), an infinity with its
sign, or a NaN. -/
inductive Value where
  | finite (q : ℚ) : Value
  | inf (negative : Bool) : Value
  | nan : Value
deriving DecidableEq, Repr

/-- The number of binary digits of `n`, for `fuel` at least that number. -/
def bitLengthAux : ℕ → ℕ → ℕ
  | 0, _ => 0
  | fuel + 1, n => if n = 0 then 0 else bitLengthAux fuel (n / 2) + 1

/-- The number of binary digits of `n`. -/
def bitLength (n : ℕ) : ℕ := bitLengthAux n n

/-- The binary exponent of the positive rational `n / d`: the `e` with
`2^e <= n/d < 2^(e+1)`. -/
def exponent (n d : ℕ) : ℤ :=
  let e : ℤ := (bitLength n : ℤ) - (bitLength d : ℤ)
  if d * 2 ^ e.toNat ≤ n * 2 ^ (-e).toNat then e else e - 1

/-- Rounding of an exact result to binary64, round-to-nearest with ties to
even, the default rounding mode: the result is a multiple `m * 2^t` of the
spacing `2^t` of the doubles around it (`t = e - 52` for a normal value with
exponent `e`, `t = -1074` in the subnormal range), and an infinity when the
rounded value reaches `2^1024`. -/
def roundNearestEven (q : ℚ) : Value :=
  if q = 0 then .finite 0
  else
    let n := q.num.natAbs
    let d := q.den
    let t : ℤ := max (exponent n d - 52) (-1074)
    let scaledNum := n * 2 ^ (-t).toNat
    let scaledDen := d * 2 ^ t.toNat
    let k := scaledNum / scaledDen
    let r := scaledNum % scaledDen
    let m := if scaledDen < 2 * r ∨ (2 * r = scaledDen ∧ k % 2 = 1) then k + 1 else k
    if 2 ^ 1024 * 2 ^ (-t).toNat ≤ m * 2 ^ t.toNat then .inf (decide (q < 0))
    else .finite ((if q < 0 then -1 else 1) * (m : ℚ) * 2 ^ t)

/-- Double addition `a + b`. -/
def add : Value → Value → Value
  | .finite a, .finite b => roundNearestEven (a + b)
  | .finite _, .inf s => .inf s
  | .inf s, .finite _ => .inf s
  | .inf s, .inf t => if s = t then .inf s else .nan
  | _, _ => .nan

/-- Double negation `-a`. -/
def neg : Value → Value
  | .finite a => .finite (-a)
  | .inf s => .inf (!s)
  | .nan => .nan

/-- Double subtraction `a - b`. -/
def sub (a b : Value) : Value := add a (neg b)

/-- Double multiplication `a * b`. -/
def mul : Value → Value → Value
  | .finite a, .finite b => roundNearestEven (a * b)
  | .finite a, .inf s => if a = 0 then .nan else .inf (xor s (decide (a < 0)))
  | .inf s, .finite b => if b = 0 then .nan else .inf (xor s (decide (b < 0)))
  | .inf s, .inf t => .inf (xor s t)
  | _, _ => .nan

/-- Double division `a / b`. A zero divisor gives a NaN for `0 / 0` and an
infinity otherwise; the sign of that infinity depends on the sign of the zero,
which is not carried, and is given here as for `+0`. No computation of the
code uses the result of a division again. -/
def div : Value → Value → Value
  | .finite a, .finite b =>
    if b = 0 then (if a = 0 then .nan else .inf (decide (a < 0)))
    else roundNearestEven (a / b)
  | .finite _, .inf _ => .finite 0
  | .inf s, .finite b => .inf (xor s (decide (b < 0)))
  | _, _ => .nan

/-- The C function `fabs`. -/
def abs : Value → Value
  | .finite a => .finite |a|
  | .inf _ => .inf false
  | .nan => .nan

/-- The comparison `a < b` of two doubles; false when one of them is a NaN. -/
def lt : Value → Value → Bool
  | .finite a, .finite b => decide (a < b)
  | .finite _, .inf s => !s
  | .inf s, .finite _ => s
  | .inf s, .inf t => s && !t
  | _, _ => false

/-- The double that a decimal literal or a decimal input denotes: the nearest
double to the rational `q`, as a rational (`0` beyond the double range). -/
def lit (q : ℚ) : ℚ :=
  match roundNearestEven q with
  | .finite v => v
  | _ => 0

/-- A double as a `Dbl`: the finite values, and one non-finite value. -/
def Value.toDbl : Value → Dbl
  | .finite q => some q
  | _ => none

/-- The literal `1e-10` of the code, as the double it denotes. -/
def eps : Value := roundNearestEven (1 / 10000000000)

/-- The forward formula (4586-4592) in double arithmetic, evaluated from left
to right, every operation rounded on its own. The coefficients and the
arguments are taken as doubles. -/
def forward (g : GeoTransform) (x y : ℚ) : Dbl × Dbl :=
  ((add (add (.finite g.c0) (mul (.finite x) (.finite g.c1)))
      (mul (.finite y) (.finite g.c2))).toDbl,
   (add (add (.finite g.c3) (mul (.finite x) (.finite g.c4)))
      (mul (.finite y) (.finite g.c5))).toDbl)

/-- The determinant `c1*c5 - c2*c4` as the code computes it (4186-4187): two
rounded products and their rounded difference. -/
def det (g : GeoTransform) : Value :=
  sub (mul (.finite g.c1) (.finite g.c5)) (mul (.finite g.c2) (.finite g.c4))

/-- The "simple case" branch (4180-4181) in double arithmetic. -/
def fastPath (g : GeoTransform) (lon lat : ℚ) : PixelResult :=
  .pixel (div (sub (.finite lon) (.finite g.c0)) (.finite g.c1)).toDbl
         (div (sub (.finite lat) (.finite g.c3)) (.finite g.c5)).toDbl

/-- The "complex case" branch (4186-4198) in double arithmetic: the test
`fabs(det) < 1e-10` on the computed determinant, then the two quotients. -/
def generalPath (g : GeoTransform) (lon lat : ℚ) : PixelResult :=
  if lt (abs (det g)) eps then .singular
  else
    .pixel
      (div (sub (mul (.finite g.c5) (sub (.finite lon) (.finite g.c0)))
                (mul (.finite g.c2) (sub (.finite lat) (.finite g.c3)))) (det g)).toDbl
      (div (sub (mul (.finite g.c1) (sub (.finite lat) (.finite g.c3)))
                (mul (.finite g.c4) (sub (.finite lon) (.finite g.c0)))) (det g)).toDbl

/-- The branch test `fabs(c2) < 1e-10 && fabs(c4) < 1e-10` on doubles. -/
def isAxisAligned (g : GeoTransform) : Bool :=
  lt (abs (.finite g.c2)) eps && lt (abs (.finite g.c4)) eps

/-- The inline geographic-to-pixel computation (4178-4201, 4481-4496,
4510-4526) as the code runs it: in double arithmetic, without fused
operations and without extended precision. -/
def geoToPixel (g : GeoTransform) (lon lat : ℚ) : PixelResult :=
  if isAxisAligned g then fastPath g lon lat else generalPath g lon lat

end Binary64

/-! ## The window state -/

/-- One element of `georeferencedImagesInfo` (the fields the coordinate code
reads). `imageItem` is `none` for a null pointer. -/
structure GeoreferenceInfo where
  imageItem : Option GraphicsItem
  hasTransform : Bool
  imageSize : QSize
  geoTransform : GeoTransform

/-- An item that the marker code adds to the scene, with the geometry it is
created with. Coordinates derived from the target point are doubles. -/
inductive SceneItem where
  | ellipse (x y : Dbl) (w h : ℚ) : SceneItem
  | line (x1 y1 x2 y2 : Dbl) : SceneItem
  | rect (x y : Dbl) (w h : ℚ) : SceneItem
  | text (x y : Dbl) : SceneItem
deriving DecidableEq, Repr

/-- The values that the code assigns to `LayerInfo::type`. -/
inductive LayerType where
  | vector : LayerType
  | geotiff : LayerType
  | georeferenced : LayerType
  | raster : LayerType
  | vectorDb : LayerType
  | imageDb : LayerType
deriving DecidableEq, Repr

/-- The test `type.startsWith("georef")` of `loadRasterFile` (2390): of the
type strings, only "georeferenced" starts so ("geotiff" does not). -/
def LayerType.startsWithGeoref : LayerType → Bool
  | .georeferenced => true
  | _ => false

/-- One element of `loadedLayers` (the fields the embedded code reads). -/
structure LayerInfo where
  name : String
  type : LayerType
  graphicsItem : Option GraphicsItem

/-- The members of `MainWindow` that the coordinate code reads or writes.
Pointers are options (`none` is `nullptr`); `mapView` and `mapScene` record
only whether the pointer is set; `sceneRect` is the value of
`mapScene->sceneRect()`. Defaults are the constructor's initial values. -/
structure MainWindow where
  mapView : Bool := false
  mapScene : Bool := false
  sceneRect : QRectF := ⟨0, 0, 0, 0⟩
  isGeoTIFFLoaded : Bool := false
  hasGeoTransform : Bool := false
  gdalDataset : Option ℕ := none
  geoTIFFItem : Option GraphicsItem := none
  gdalGeoTransform : GeoTransform := ⟨0, 0, 0, 0, 0, 0⟩
  geoTIFFSize : QSize := ⟨-1, -1⟩
  currentImageItem : Option GraphicsItem := none
  georeferencedImagesInfo : List GeoreferenceInfo := []
  coordinateMarker : Option SceneItem := none
  coordinateTextItem : Option SceneItem := none
  currentCrosshairItems : List SceneItem := []
  loadedLayers : List LayerInfo := []
  /-- The items that `coordinateMarker` and `coordinateTextItem` point to have
  been deleted with the other items of the scene (`mapScene->clear()`), and the
  members, which that call does not reset, still point to them. -/
  markerDeleted : Bool := false
  /-- The items listed in `currentCrosshairItems` have been deleted in the
  same way, and the list still holds them. -/
  crosshairDeleted : Bool := false
  /-- An item that was already deleted has been passed to `removeItem` and
  `delete`: from then on the behaviour of the program is undefined, and the
  other members say nothing about it. -/
  useAfterFree : Bool := false

/-- The guard `isGeoTIFFLoaded && hasGeoTransform && gdalDataset && geoTIFFItem`
of `jumpToLocation` (4165) and `sceneToGeographicCoords` (4599). -/
def MainWindow.primaryUsable (s : MainWindow) : Bool :=
  s.isGeoTIFFLoaded && s.hasGeoTransform && s.gdalDataset.isSome && s.geoTIFFItem.isSome

/-! ## Markers -/

/-- What `mapScene->clear()` (3658, 4724, 5059) does to the marker items: it
deletes every item of the scene, the marker items among them, and resets none
of the members that point to them. -/
def MainWindow.sceneCleared (s : MainWindow) : MainWindow :=
  { s with
    markerDeleted := s.markerDeleted || s.coordinateMarker.isSome || s.coordinateTextItem.isSome
    crosshairDeleted := s.crosshairDeleted || !s.currentCrosshairItems.isEmpty }

/-- A marker member points to an item that has been deleted: removing the
marker would pass a dangling pointer to `removeItem` and `delete`. -/
def MainWindow.staleMarker (s : MainWindow) : Bool :=
  (s.markerDeleted && (s.coordinateMarker.isSome || s.coordinateTextItem.isSome))
    || (s.crosshairDeleted && !s.currentCrosshairItems.isEmpty)

/-- The marker members can be used: no undefined behaviour has occurred and
none of them points to a deleted item. -/
def MainWindow.markersLive (s : MainWindow) : Bool :=
  !s.useAfterFree && !s.staleMarker

/-- Member `MainWindow::removeCoordinateMarker` (4822-4848): the outer circle, the
text label and every crosshair item are removed from the scene and deleted, and
the members reset. When one of them has been deleted before, the call frees it
a second time: undefined behaviour. -/
def removeCoordinateMarker (s : MainWindow) : MainWindow :=
  if s.staleMarker then { s with useAfterFree := true }
  else
    { s with
      coordinateMarker := none, coordinateTextItem := none, currentCrosshairItems := []
      markerDeleted := false, crosshairDeleted := false }

/-- The marker-building part of `jumpToLocation` (4244-4326) for the target
`(sceneX, sceneY)`: the outer circle becomes `coordinateMarker`, six more items
are appended to `currentCrosshairItems`, the label becomes `coordinateTextItem`. -/
def placeJumpMarker (s : MainWindow) (sceneX sceneY : Dbl) : MainWindow :=
  let innerCircle := SceneItem.ellipse (sceneX.addConst (-8)) (sceneY.addConst (-8)) 16 16
  let verticalLine := SceneItem.line sceneX (sceneY.addConst (-15)) sceneX (sceneY.addConst 15)
  let horizontalLine := SceneItem.line (sceneX.addConst (-15)) sceneY (sceneX.addConst 15) sceneY
  let vLine := SceneItem.line sceneX (some s.sceneRect.top) sceneX (some s.sceneRect.bottom)
  let hLine := SceneItem.line (some s.sceneRect.left) sceneY (some s.sceneRect.right) sceneY
  let highlightRect := SceneItem.rect (sceneX.addConst (-30)) (sceneY.addConst (-30)) 60 60
  { s with
    coordinateMarker := some (.ellipse (sceneX.addConst (-20)) (sceneY.addConst (-20)) 40 40)
    currentCrosshairItems :=
      s.currentCrosshairItems ++
        [innerCircle, verticalLine, horizontalLine, vLine, hLine, highlightRect]
    coordinateTextItem := some (.text (sceneX.addConst 25) (sceneY.addConst (-40))) }

/-! ## jumpToLocation -/

/-- How a call of `jumpToLocation` ends: one of its three early returns, or
the marker was placed at `(sceneX, sceneY)` with the flags `withinBounds` and
`isGeographic` as the code computed them, or the call ran into undefined
behaviour. -/
inductive JumpOutcome where
  /-- Early return "Map view not initialized" (4151-4154). -/
  | viewNotInitialized : JumpOutcome
  /-- The call `removeCoordinateMarker()` at 4157 freed an item that was already
  deleted; nothing is known about the rest of the call. -/
  | undefinedBehaviour : JumpOutcome
  /-- Early return "Geotransform is singular (determinant near zero)" (4189-4193). -/
  | singularTransform : JumpOutcome
  /-- Early return "No image loaded to jump to" (4239-4242). -/
  | noImageLoaded : JumpOutcome
  | jumped (sceneX sceneY : Dbl) (withinBounds isGeographic : Bool) : JumpOutcome
deriving DecidableEq, Repr

/-- Member `MainWindow::jumpToLocation(lon, lat)` (4149-4416): the state after the
call and how the call ended. Message boxes, the status text, the deferred
view animation and the beep are not part of the embedding. The inline
geographic-to-pixel computation (4178-4201) is the argument `inverse`: the
control flow around it is the same whatever arithmetic computes the pixel. -/
def jumpToLocationWith (inverse : GeoTransform → ℚ → ℚ → PixelResult)
    (s : MainWindow) (lon lat : ℚ) : MainWindow × JumpOutcome :=
  if !s.mapView || !s.mapScene then (s, .viewNotInitialized)
  else
    let s1 := removeCoordinateMarker s
    if s1.useAfterFree then (s1, .undefinedBehaviour)
    else if s1.primaryUsable then
      match inverse s1.gdalGeoTransform lon lat with
      | .singular => (s1, .singularTransform)
      | .pixel pixelX pixelY =>
        let withinBounds :=
          pixelX.inPixelRange s1.geoTIFFSize.width && pixelY.inPixelRange s1.geoTIFFSize.height
        (placeJumpMarker s1 pixelX pixelY, .jumped pixelX pixelY withinBounds true)
    else
      match s1.currentImageItem with
      | some item =>
        let bounds := item.boundingRect
        let withinBounds :=
          decide (lon ≥ bounds.left) && decide (lon ≤ bounds.right) &&
            decide (lat ≥ bounds.top) && decide (lat ≤ bounds.bottom)
        (placeJumpMarker s1 (some lon) (some lat), .jumped (some lon) (some lat) withinBounds false)
      | none => (s1, .noImageLoaded)

/-- `jumpToLocation` with the inverse computed in exact arithmetic. -/
def jumpToLocation (s : MainWindow) (lon lat : ℚ) : MainWindow × JumpOutcome :=
  jumpToLocationWith geoToPixel s lon lat

/-! ## geographicToSceneCoords -/

/-- The constant `std::numeric_limits<double>::max()`. -/
def dblMax : ℚ := 2 ^ 1024 - 2 ^ 971

/-- A computed value as a double: finite values beyond the double range
overflow to an infinity. Used where the code computes with `dblMax`. -/
def toDbl (q : ℚ) : Dbl :=
  if |q| ≤ dblMax then some q else none

/-- The body of the loop of `geographicToSceneCoords` (4506-4536) for one
entry: the mapped pixel when the entry has a transform, is not singular on the
general path, its pixel is inside its image and its item is set; `none` when
the loop goes on to the next entry. -/
def tryEntry (lon lat : ℚ) (georefInfo : GeoreferenceInfo) : Option QPointF :=
  if georefInfo.hasTransform then
    match geoToPixel georefInfo.geoTransform lon lat with
    | .singular => none
    | .pixel pixelX pixelY =>
      if pixelX.inPixelRange georefInfo.imageSize.width
          && pixelY.inPixelRange georefInfo.imageSize.height then
        match georefInfo.imageItem with
        | some item => some (item.mapToScene ⟨pixelX, pixelY⟩)
        | none => none
      else none
  else none

/-- The loop of `geographicToSceneCoords` over `georeferencedImagesInfo`
(4505-4537): the first entry, in list order, for which the loop body returns
gives the result; `none` when the loop runs to its end. -/
def scanRegistry (lon lat : ℚ) : List GeoreferenceInfo → Option QPointF
  | [] => none
  | georefInfo :: rest =>
    match tryEntry lon lat georefInfo with
    | some r => some r
    | none => scanRegistry lon lat rest

/-- The running bounds `(minLon, maxLon, minLat, maxLat)` of the second loop
of `geographicToSceneCoords` (4547-4559). -/
def geoBounds : List GeoreferenceInfo → ℚ × ℚ × ℚ × ℚ → ℚ × ℚ × ℚ × ℚ
  | [], acc => acc
  | georefInfo :: rest, (minLon, maxLon, minLat, maxLat) =>
    if georefInfo.hasTransform then
      let topLeftX := georefInfo.geoTransform.c0
      let topLeftY := georefInfo.geoTransform.c3
      let bottomRightX := topLeftX + (georefInfo.imageSize.width : ℚ) * georefInfo.geoTransform.c1
      let bottomRightY := topLeftY + (georefInfo.imageSize.height : ℚ) * georefInfo.geoTransform.c5
      geoBounds rest
        (min minLon (min topLeftX bottomRightX), max maxLon (max topLeftX bottomRightX),
         min minLat (min topLeftY bottomRightY), max maxLat (max topLeftY bottomRightY))
    else geoBounds rest (minLon, maxLon, minLat, maxLat)

/-- Member `MainWindow::geographicToSceneCoords(lon, lat)` (4474-4570). The
primary step returns the empty point on the singular exit, the mapped pixel
when `geoTIFFItem` is set, and falls through to the registry loop otherwise. -/
def geographicToSceneCoords (s : MainWindow) (lon lat : ℚ) : QPointF :=
  let afterPrimary : Option QPointF :=
    if s.isGeoTIFFLoaded && s.hasGeoTransform && s.gdalDataset.isSome then
      match geoToPixel s.gdalGeoTransform lon lat with
      | .singular => some QPointF.null
      | .pixel pixelX pixelY =>
        match s.geoTIFFItem with
        | some item => some (item.mapToScene ⟨pixelX, pixelY⟩)
        | none => none
    else none
  match afterPrimary with
  | some r => r
  | none =>
    match scanRegistry lon lat s.georeferencedImagesInfo with
    | some r => r
    | none =>
      if !s.georeferencedImagesInfo.isEmpty then
        match geoBounds s.georeferencedImagesInfo (dblMax, -dblMax, dblMax, -dblMax) with
        | (minLon, _, _, maxLat) =>
          let scale : ℚ := 1000
          ⟨toDbl ((lon - minLon) * scale), toDbl ((maxLat - lat) * scale)⟩
      else QPointF.null

/-- The loop body `tryEntry` with the inline inverse as an argument. -/
def tryEntryWith (inverse : GeoTransform → ℚ → ℚ → PixelResult) (lon lat : ℚ)
    (georefInfo : GeoreferenceInfo) : Option QPointF :=
  if georefInfo.hasTransform then
    match inverse georefInfo.geoTransform lon lat with
    | .singular => none
    | .pixel pixelX pixelY =>
      if pixelX.inPixelRange georefInfo.imageSize.width
          && pixelY.inPixelRange georefInfo.imageSize.height then
        match georefInfo.imageItem with
        | some item => some (item.mapToScene ⟨pixelX, pixelY⟩)
        | none => none
      else none
  else none

/-- The loop `scanRegistry` with the inline inverse as an argument. -/
def scanRegistryWith (inverse : GeoTransform → ℚ → ℚ → PixelResult) (lon lat : ℚ) :
    List GeoreferenceInfo → Option QPointF
  | [] => none
  | georefInfo :: rest =>
    match tryEntryWith inverse lon lat georefInfo with
    | some r => some r
    | none => scanRegistryWith inverse lon lat rest

/-- Member `MainWindow::geographicToSceneCoords(lon, lat)` (4474-4570) with the
inline geographic-to-pixel computation (4481-4496, 4510-4526) as the argument
`inverse`; `geographicToSceneCoords` is the instance at the exact-arithmetic
`geoToPixel`. The arithmetic of the last fallback (4539-4569) is not an
argument. -/
def geographicToSceneCoordsWith (inverse : GeoTransform → ℚ → ℚ → PixelResult)
    (s : MainWindow) (lon lat : ℚ) : QPointF :=
  let afterPrimary : Option QPointF :=
    if s.isGeoTIFFLoaded && s.hasGeoTransform && s.gdalDataset.isSome then
      match inverse s.gdalGeoTransform lon lat with
      | .singular => some QPointF.null
      | .pixel pixelX pixelY =>
        match s.geoTIFFItem with
        | some item => some (item.mapToScene ⟨pixelX, pixelY⟩)
        | none => none
    else none
  match afterPrimary with
  | some r => r
  | none =>
    match scanRegistryWith inverse lon lat s.georeferencedImagesInfo with
    | some r => r
    | none =>
      if !s.georeferencedImagesInfo.isEmpty then
        match geoBounds s.georeferencedImagesInfo (dblMax, -dblMax, dblMax, -dblMax) with
        | (minLon, _, _, maxLat) =>
          let scale : ℚ := 1000
          ⟨toDbl ((lon - minLon) * scale), toDbl ((maxLat - lat) * scale)⟩
      else QPointF.null

/-! ## sceneToGeographicCoords -/

/-- The body of the registry loop of `sceneToGeographicCoords` (4581-4594):
the item-relative point is clamped to `[0, width-1] x [0, height-1]` as doubles
and the forward formula applied. -/
def clampedForward (g : GeoTransform) (size : QSize) (itemPos : PointF) : QPointF :=
  let imgX := qBound (0 : ℚ) itemPos.x ((size.width : ℚ) - 1)
  let imgY := qBound (0 : ℚ) itemPos.y ((size.height : ℚ) - 1)
  ⟨some (forward g imgX imgY).1, some (forward g imgX imgY).2⟩

/-- The loop of `sceneToGeographicCoords` over `georeferencedImagesInfo`
(4575-4596): the first entry, in list order, whose item is set, that has a
transform and whose item contains the point gives the result. -/
def scanContaining (scenePoint : PointF) : List GeoreferenceInfo → Option QPointF
  | [] => none
  | georefInfo :: rest =>
    match georefInfo.imageItem with
    | some item =>
      if georefInfo.hasTransform && item.contains scenePoint then
        some (clampedForward georefInfo.geoTransform georefInfo.imageSize
          (item.mapFromScene scenePoint))
      else scanContaining scenePoint rest
    | none => scanContaining scenePoint rest

/-- The primary fallback of `sceneToGeographicCoords` (4601-4618): the
item-relative point is rounded to `int`, clamped as `int`, and the forward
formula applied. -/
def roundedClampedForward (g : GeoTransform) (size : QSize) (itemPos : PointF) : QPointF :=
  let imgX : ℤ := qBound 0 (qRound itemPos.x) (size.width - 1)
  let imgY : ℤ := qBound 0 (qRound itemPos.y) (size.height - 1)
  ⟨some (forward g imgX imgY).1, some (forward g imgX imgY).2⟩

/-- Member `MainWindow::sceneToGeographicCoords(scenePoint)` (4572-4623). -/
def sceneToGeographicCoords (s : MainWindow) (scenePoint : PointF) : QPointF :=
  match scanContaining scenePoint s.georeferencedImagesInfo with
  | some r => r
  | none =>
    if s.isGeoTIFFLoaded && s.hasGeoTransform && s.gdalDataset.isSome then
      match s.geoTIFFItem with
      | some item =>
        if item.contains scenePoint then
          roundedClampedForward s.gdalGeoTransform s.geoTIFFSize (item.mapFromScene scenePoint)
        else QPointF.nan
      | none => QPointF.nan
    else QPointF.nan

/-! ## Extents -/

/-- Qt `QRectF::isNull()`: width and height are both zero. -/
def QRectF.isNull (r : QRectF) : Bool :=
  decide (r.width = 0) && decide (r.height = 0)

/-- Qt `QRectF::isEmpty()`: width or height is not positive. -/
def QRectF.isEmpty (r : QRectF) : Bool :=
  decide (r.width ≤ 0) || decide (r.height ≤ 0)

/-- Qt `QRectF::united(r)`: the other rectangle when one is null, else the
bounding rectangle of the two (each taken with its edges in order). -/
def QRectF.united (a b : QRectF) : QRectF :=
  if a.isNull then b
  else if b.isNull then a
  else
    let left := min (min a.left (a.left + a.width)) (min b.left (b.left + b.width))
    let right := max (max a.left (a.left + a.width)) (max b.left (b.left + b.width))
    let top := min (min a.top (a.top + a.height)) (min b.top (b.top + b.height))
    let bottom := max (max a.top (a.top + a.height)) (max b.top (b.top + b.height))
    ⟨left, top, right - left, bottom - top⟩

/-- What an extent computation reports, before formatting: the numbers that
are written into the text, by branch. -/
inductive Extent where
  /-- Branch 1: `TL(topLeftX, topLeftY) BR(bottomRightX, bottomRightY)` in
  geographic coordinates. -/
  | geographic (topLeftX topLeftY bottomRightX bottomRightY : ℚ) : Extent
  /-- Branch 2: `TL(0, 0) BR(width, height)` of the current image. -/
  | scene (width height : ℚ) : Extent
  /-- Branch 3: the corners of the united bounding rectangle of the layers. -/
  | layers (combinedBounds : QRectF) : Extent
  /-- Branch 3 with an empty united rectangle: "No bounds". -/
  | noBounds : Extent
  /-- Branch 4: "No data loaded" (an empty string in `getCurrentExtentsString`). -/
  | noData : Extent
deriving DecidableEq, Repr

/-- The loop of `updateExtentsDisplay` over `loadedLayers` (4016-4026), with
its running values `combinedBounds` and `first`. -/
def combineLayerBounds : List LayerInfo → QRectF × Bool → QRectF × Bool
  | [], acc => acc
  | layer :: rest, (combinedBounds, first) =>
    match layer.graphicsItem with
    | some item =>
      if first then combineLayerBounds rest (item.boundingRect, false)
      else combineLayerBounds rest (combinedBounds.united item.boundingRect, false)
    | none => combineLayerBounds rest (combinedBounds, first)

/-- Member `MainWindow::updateExtentsDisplay` (3976-4047), for a window whose
`extentsLabel` is set: the extent written into the label. -/
def updateExtentsDisplay (s : MainWindow) : Extent :=
  if s.isGeoTIFFLoaded && s.gdalDataset.isSome && s.hasGeoTransform && s.geoTIFFItem.isSome then
    let topLeftX := s.gdalGeoTransform.c0
    let topLeftY := s.gdalGeoTransform.c3
    let bottomRightX := s.gdalGeoTransform.c0 +
      (s.geoTIFFSize.width : ℚ) * s.gdalGeoTransform.c1 +
      (s.geoTIFFSize.height : ℚ) * s.gdalGeoTransform.c2
    let bottomRightY := s.gdalGeoTransform.c3 +
      (s.geoTIFFSize.width : ℚ) * s.gdalGeoTransform.c4 +
      (s.geoTIFFSize.height : ℚ) * s.gdalGeoTransform.c5
    .geographic topLeftX topLeftY bottomRightX bottomRightY
  else
    match s.currentImageItem with
    | some item => .scene item.boundingRect.width item.boundingRect.height
    | none =>
      if !s.loadedLayers.isEmpty then
        let combinedBounds := (combineLayerBounds s.loadedLayers (⟨0, 0, 0, 0⟩, true)).1
        if !combinedBounds.isEmpty then .layers combinedBounds else .noBounds
      else .noData

/-- Member `MainWindow::getCurrentExtentsString` (4973-4995): the extent
written into the returned string (`noData` for the empty string). -/
def getCurrentExtentsString (s : MainWindow) : Extent :=
  if s.isGeoTIFFLoaded && s.hasGeoTransform then
    let topLeftX := s.gdalGeoTransform.c0
    let topLeftY := s.gdalGeoTransform.c3
    let bottomRightX := s.gdalGeoTransform.c0 + (s.geoTIFFSize.width : ℚ) * s.gdalGeoTransform.c1
    let bottomRightY := s.gdalGeoTransform.c3 + (s.geoTIFFSize.height : ℚ) * s.gdalGeoTransform.c5
    .geographic topLeftX topLeftY bottomRightX bottomRightY
  else
    match s.currentImageItem with
    | some item => .scene item.boundingRect.width item.boundingRect.height
    | none => .noData

/-! ## Clearing -/

/-- Member `MainWindow::clearAllImages` (4704-4767). `mapScene->clear()` deletes
every scene item; the members `coordinateMarker` and `coordinateTextItem` are
not reset by the code and are left as they are, pointing to deleted items;
`currentCrosshairItems` is emptied (4732). -/
def clearAllImages (s : MainWindow) : MainWindow :=
  { s with
    gdalDataset := none
    hasGeoTransform := false
    isGeoTIFFLoaded := false
    geoTIFFItem := none
    geoTIFFSize := ⟨-1, -1⟩
    georeferencedImagesInfo := []
    currentImageItem := if s.mapScene then none else s.currentImageItem
    loadedLayers := []
    currentCrosshairItems := []
    markerDeleted := if s.mapScene then s.sceneCleared.markerDeleted else s.markerDeleted
    crosshairDeleted := false }

/-- Member `MainWindow::clearCurrentImage` (5043-5076), the clear operation
called by "new project" (2108), "clear image" (3159) and the database load
(6665). It does not touch `georeferencedImagesInfo`, and its
`mapScene->clear()` (5059) deletes the marker items without resetting the
marker members. -/
def clearCurrentImage (s : MainWindow) : MainWindow :=
  { s with
    gdalDataset := none
    hasGeoTransform := false
    isGeoTIFFLoaded := false
    geoTIFFItem := none
    geoTIFFSize := ⟨-1, -1⟩
    currentImageItem := if s.mapScene then none else s.currentImageItem
    markerDeleted := if s.mapScene then s.sceneCleared.markerDeleted else s.markerDeleted
    crosshairDeleted :=
      if s.mapScene then s.sceneCleared.crosshairDeleted else s.crosshairDeleted }

/-! ## Loading rasters -/

/-- Qt `QPointF::isNull()`: both coordinates are zero. -/
def QPointF.isNull (p : QPointF) : Bool :=
  decide (p.x = some 0) && decide (p.y = some 0)

/-- What the image reader, GDAL and the GUI library give `loadRasterFile` for
one file: the size of the loaded pixmap (`none` when `pixmap.isNull()`), the
base name, whether the suffix is `tif`/`tiff`, the `GDALOpen` result (`none` for
a null dataset), whether `GetGeoTransform` returned `CE_None` and the six
coefficients it wrote, the new `QGraphicsPixmapItem` as constructed, and that
item after `setPos(scenePos)`. -/
structure RasterFile where
  pixmap : Option QSize
  layerName : String
  isGeoTIFF : Bool
  dataset : Option ℕ
  transformOk : Bool
  transform : GeoTransform
  pixmapItem : GraphicsItem
  itemAt : QPointF → GraphicsItem

/-- How a call of `loadRasterFile` ends. -/
inductive LoadOutcome where
  /-- Early return "Cannot load raster file" (2380-2383). -/
  | cannotLoad : LoadOutcome
  /-- Early return "Layer already loaded" (2389-2394). -/
  | layerExists : LoadOutcome
  | loaded : LoadOutcome
deriving DecidableEq, Repr

/-- Member `MainWindow::loadRasterFile` (2370-2563), the state part. With
`hasGeoInfo` and `isMainGeoTIFF` as in the code: the primary members are written
only when `hasGeoInfo && !isGeoTIFFLoaded` (2417-2424); the item is positioned,
and for the main GeoTIFF stored in `geoTIFFItem` and `currentImageItem`, only
when `hasGeoInfo` and `geographicToSceneCoords(c0, c3)` is not the null point
(2442-2463); the registry entry and the layer are appended in every case. The
`geoTransform` of an entry without geo information is not written by the code
and not read by it either; the embedding puts zeros there. -/
def loadRasterFile (s : MainWindow) (f : RasterFile) : MainWindow × LoadOutcome :=
  match f.pixmap with
  | none => (s, .cannotLoad)
  | some size =>
    if s.loadedLayers.any
        (fun layer => decide (layer.name = f.layerName) && layer.type.startsWithGeoref) then
      (s, .layerExists)
    else
      let hasGeoInfo := f.isGeoTIFF && f.dataset.isSome && f.transformOk
      let isMainGeoTIFF := hasGeoInfo && !s.isGeoTIFFLoaded
      let s1 : MainWindow :=
        if isMainGeoTIFF then
          { s with
            isGeoTIFFLoaded := true
            hasGeoTransform := true
            gdalGeoTransform := f.transform
            geoTIFFSize := size
            gdalDataset := f.dataset }
        else s
      let scenePos := geographicToSceneCoords s1 f.transform.c0 f.transform.c3
      let placed := hasGeoInfo && !scenePos.isNull
      let pixmapItem := if placed then f.itemAt scenePos else f.pixmapItem
      let s2 : MainWindow :=
        if placed && isMainGeoTIFF then
          { s1 with geoTIFFItem := some pixmapItem, currentImageItem := some pixmapItem }
        else s1
      let georefInfo : GeoreferenceInfo :=
        { imageItem := some pixmapItem
          hasTransform := hasGeoInfo
          imageSize := size
          geoTransform := if hasGeoInfo then f.transform else ⟨0, 0, 0, 0, 0, 0⟩ }
      let layer : LayerInfo :=
        { name := f.layerName
          type := if isMainGeoTIFF then .geotiff else if hasGeoInfo then .georeferenced else .raster
          graphicsItem := some pixmapItem }
      ({ s2 with
          georeferencedImagesInfo := s2.georeferencedImagesInfo ++ [georefInfo]
          loadedLayers := s2.loadedLayers ++ [layer] }, .loaded)

/-- What the file dialog, GDAL and the GUI library give `onOpenGeoTIFF`:
whether a file was chosen, its base name, the `GDALOpen` result, whether
`GetGeoTransform` returned `CE_None` and the coefficients it wrote into
`gdalGeoTransform`, the raster size, the band count, whether `geoTIFFImage` and
the pixmap made from it are non-null, and the item that `addPixmap` returns. -/
structure GeoTIFFFile where
  chosen : Bool
  layerName : String
  dataset : Option ℕ
  transformOk : Bool
  transform : GeoTransform
  size : QSize
  bandCount : ℤ
  imageOk : Bool
  pixmapOk : Bool
  item : GraphicsItem

/-- How a call of `onOpenGeoTIFF` ends. -/
inductive OpenOutcome where
  | cancelled : OpenOutcome
  /-- Early return "Failed to open GeoTIFF file" (3518-3521). -/
  | openFailed : OpenOutcome
  /-- Early return "No raster bands found in file" (3642-3647). -/
  | noBands : OpenOutcome
  /-- Early return "Failed to create image from GeoTIFF" (3649-3654). -/
  | imageFailed : OpenOutcome
  /-- Early return "Failed to create pixmap from image" (3666-3671). -/
  | pixmapFailed : OpenOutcome
  /-- The function ran to its end without a scene (`mapScene` null). -/
  | noScene : OpenOutcome
  | opened : OpenOutcome
deriving DecidableEq, Repr

/-- Member `MainWindow::onOpenGeoTIFF` (3499-3757), the state part. The previous
dataset is closed and the members `gdalDataset`, `hasGeoTransform`,
`gdalGeoTransform` and `geoTIFFSize` are overwritten without any test of
`isGeoTIFFLoaded` (3509-3535). The `mapScene->clear()` at 3658 deletes the
marker items without resetting the marker members. -/
def onOpenGeoTIFF (s : MainWindow) (f : GeoTIFFFile) : MainWindow × OpenOutcome :=
  if !f.chosen then (s, .cancelled)
  else
    match f.dataset with
    | none => ({ s with gdalDataset := none }, .openFailed)
    | some ds =>
      let s1 : MainWindow :=
        { s with
          gdalDataset := some ds
          hasGeoTransform := f.transformOk
          gdalGeoTransform := f.transform
          geoTIFFSize := f.size }
      if f.bandCount < 1 then ({ s1 with gdalDataset := none }, .noBands)
      else if !f.imageOk then ({ s1 with gdalDataset := none }, .imageFailed)
      else if s1.mapScene then
        let s2 : MainWindow :=
          { s1.sceneCleared with currentImageItem := none, geoTIFFItem := none }
        if !f.pixmapOk then ({ s2 with gdalDataset := none }, .pixmapFailed)
        else
          let s3 : MainWindow :=
            { s2 with
              geoTIFFItem := some f.item
              currentImageItem := some f.item
              isGeoTIFFLoaded := true }
          let alreadyLoaded := s3.loadedLayers.any
            (fun layer => decide (layer.name = f.layerName) && decide (layer.type = .geotiff))
          if alreadyLoaded then (s3, .opened)
          else
            ({ s3 with loadedLayers := s3.loadedLayers ++ [⟨f.layerName, .geotiff, some f.item⟩] },
              .opened)
      else (s1, .noScene)

/-! ## Removing a layer -/

/-- The loop of `removeLayer` (2640-2678) on the layer list: the first layer
with the given name is taken out of the list, the others stay in order. -/
def removeFirstNamed (layerName : String) : List LayerInfo → List LayerInfo
  | [] => []
  | layer :: rest =>
    if layer.name = layerName then rest else layer :: removeFirstNamed layerName rest

/-- Member `MainWindow::removeLayer(layerName)` (2638-2679): the graphics item
of the first layer with that name is removed from the scene and deleted, and the
layer is taken out of `loadedLayers`. No other member is written; in
particular `georeferencedImagesInfo`, `geoTIFFItem` and `currentImageItem` keep
their (item) values. -/
def removeLayer (s : MainWindow) (layerName : String) : MainWindow :=
  { s with loadedLayers := removeFirstNamed layerName s.loadedLayers }

/-! ## The click marker and its expiry -/

/-- Member `MainWindow::addCoordinateMarker(scenePos, lon, lat)` (3927-3961),
the state part: the previous outer circle and text label are removed, deleted
and replaced; `currentCrosshairItems` is not touched. Deleting a previous
circle or label that has been deleted before is undefined behaviour. -/
def addCoordinateMarker (s : MainWindow) (scenePos : PointF) : MainWindow :=
  if !s.mapScene then s
  else if s.markerDeleted && (s.coordinateMarker.isSome || s.coordinateTextItem.isSome) then
    { s with useAfterFree := true }
  else
    { s with
      coordinateMarker := some (.ellipse (some (scenePos.x - 8)) (some (scenePos.y - 8)) 16 16)
      coordinateTextItem := some (.text (some (scenePos.x + 10)) (some (scenePos.y - 20)))
      markerDeleted := false }

/-- The callback that `addCoordinateMarker` hands to `QTimer::singleShot(5000, ...)`
(3963-3974): whatever outer circle and text label the members hold when it runs
are removed and deleted, and the members reset. Deleting one that has been
deleted before is undefined behaviour. -/
def expiryCallback (s : MainWindow) : MainWindow :=
  if s.markerDeleted && (s.coordinateMarker.isSome || s.coordinateTextItem.isSome) then
    { s with useAfterFree := true }
  else { s with coordinateMarker := none, coordinateTextItem := none, markerDeleted := false }

/-- The window on its single-threaded event loop: the window state, the
current time in milliseconds, and the due times of the pending single-shot
expiry callbacks, in the order they were scheduled. No operation of the code
cancels a pending callback. -/
structure EventLoop where
  window : MainWindow
  now : ℕ := 0
  pending : List ℕ := []

/-- A click with the coordinates tool handled at the current time (3885):
`addCoordinateMarker` runs and schedules its expiry 5000 ms later. A null
`mapScene` returns before anything is scheduled (3929). -/
def EventLoop.addMarker (e : EventLoop) (scenePos : PointF) : EventLoop :=
  if !e.window.mapScene then e
  else
    { e with
      window := addCoordinateMarker e.window scenePos
      pending := e.pending ++ [e.now + 5000] }

/-- A jump handled at the current time: `jumpToLocation` runs; it schedules no
expiry and cancels none. -/
def EventLoop.jump (e : EventLoop) (lon lat : ℚ) : EventLoop :=
  { e with window := (jumpToLocation e.window lon lat).1 }

/-- Time passes until `t`: every pending expiry callback that is due by then
runs, in scheduling order, and leaves the pending list. -/
def EventLoop.advanceTo (e : EventLoop) (t : ℕ) : EventLoop :=
  { window := (e.pending.filter (fun due => decide (due ≤ t))).foldl
      (fun w _ => expiryCallback w) e.window
    now := max e.now t
    pending := e.pending.filter (fun due => !decide (due ≤ t)) }

/-! ## Predicates and sample data used by the statements -/

/-- The relative tolerance `1e-9` of the round-trip property. -/
def relTol : ℚ := 1 / 1000000000

/-- The round-trip property at one transform and one pixel coordinate: the
inverse of the forward image is a finite pixel within `relTol`, relative to the
larger of `1`, `|px|` and `|py|`, of `(px, py)` in each coordinate. -/
def RoundTripWithin (g : GeoTransform) (px py : ℚ) : Prop :=
  ∃ x y : ℚ,
    geoToPixel g (forward g px py).1 (forward g px py).2 = .pixel (some x) (some y) ∧
    |x - px| ≤ relTol * max 1 (max |px| |py|) ∧
    |y - py| ≤ relTol * max 1 (max |px| |py|)

/-- An item placed at the scene origin whose shape and bounding rectangle are
the `w x h` rectangle: the scene placement is the identity. -/
def originItem (w h : ℚ) : GraphicsItem where
  contains := fun p => decide (0 ≤ p.x) && decide (p.x ≤ w) && decide (0 ≤ p.y) && decide (p.y ≤ h)
  mapFromScene := fun p => p
  mapToScene := fun p => p
  boundingRect := ⟨0, 0, w, h⟩

/-- A window whose view is set up and whose primary raster has transform `g`
and size `w x h`, its item placed at the scene origin. -/
def primaryWindow (g : GeoTransform) (w h : ℤ) : MainWindow :=
  { mapView := true, mapScene := true, isGeoTIFFLoaded := true, hasGeoTransform := true,
    gdalDataset := some 1, geoTIFFItem := some (originItem w h), gdalGeoTransform := g,
    geoTIFFSize := ⟨w, h⟩, currentImageItem := some (originItem w h) }

/-- A non-singular transform with a tiny non-zero `c2 = 5e-11`: it takes the
fast path. -/
def gSkew : GeoTransform := ⟨0, 1 / 1000, 1 / 20000000000, 0, 0, 1000⟩

/-- An axis-aligned transform with pixel size `1e-6`: its determinant `1e-12`
is below `1e-10`. -/
def gFine : GeoTransform := ⟨0, 1 / 1000000, 0, 0, 0, 1 / 1000000⟩

/-- The rotated scenario `c = (0, 1, 0.5, 0, 0.5, 1)` of the specification. -/
def gRot : GeoTransform := ⟨0, 1, 1 / 2, 0, 1 / 2, 1⟩

/-- A general-path transform with determinant `0`: `c1=2, c2=4, c4=1, c5=2`. -/
def gSing (c0 c3 : ℚ) : GeoTransform := ⟨c0, 2, 4, c3, 1, 2⟩

/-- The axis-aligned scenario `c = (10.0, 0.5, 0.0, 50.0, 0.0, -0.5)` of the
specification. -/
def gAxis : GeoTransform := ⟨10, 1 / 2, 0, 50, 0, -1 / 2⟩

/-- A window whose view is set up and that has nothing loaded. -/
def freshWindow : MainWindow :=
  { mapView := true, mapScene := true }

/-- A window whose view is set up and that holds one plain image of size
`w x h` (bounding rectangle `(0, 0, w, h)`), and no georeferenced raster. -/
def plainWindow (w h : ℚ) : MainWindow :=
  { mapView := true, mapScene := true, currentImageItem := some (originItem w h) }

/-- A registry entry with a transform, of size `w x h`, whose item covers the
scene rectangle `[ox, ox + w] x [oy, oy + h]` and is placed at `(ox, oy)`. -/
def entryAt (g : GeoTransform) (ox oy : ℚ) (w h : ℤ) : GeoreferenceInfo where
  imageItem := some
    { contains := fun p =>
        decide (ox ≤ p.x) && decide (p.x ≤ ox + w) && decide (oy ≤ p.y) && decide (p.y ≤ oy + h)
      mapFromScene := fun p => ⟨p.x - ox, p.y - oy⟩
      mapToScene := fun p => ⟨p.x.addConst ox, p.y.addConst oy⟩
      boundingRect := ⟨0, 0, w, h⟩ }
  hasTransform := true
  imageSize := ⟨w, h⟩
  geoTransform := g

/-- A pixmap item of size `w x h` placed at `(ox, oy)` by `setPos`: its shape
is its rectangle, in item coordinates. -/
def translatedItem (ox oy w h : ℚ) : GraphicsItem where
  contains := fun p => decide (0 ≤ p.x) && decide (p.x ≤ w) && decide (0 ≤ p.y) && decide (p.y ≤ h)
  mapFromScene := fun p => ⟨p.x - ox, p.y - oy⟩
  mapToScene := fun p => ⟨p.x.addConst ox, p.y.addConst oy⟩
  boundingRect := ⟨0, 0, w, h⟩

/-- A readable GeoTIFF file named `name` with geotransform `g` and a `w x h`
pixmap, as `loadRasterFile` receives it. -/
def geoRasterFile (name : String) (g : GeoTransform) (w h : ℤ) : RasterFile where
  pixmap := some ⟨w, h⟩
  layerName := name
  isGeoTIFF := true
  dataset := some 7
  transformOk := true
  transform := g
  pixmapItem := originItem w h
  itemAt := fun p =>
    match p.x, p.y with
    | some ox, some oy => translatedItem ox oy w h
    | _, _ => originItem w h

/-- A readable image file named `name` without geo information (not a TIFF),
of size `w x h`. -/
def plainRasterFile (name : String) (w h : ℤ) : RasterFile where
  pixmap := some ⟨w, h⟩
  layerName := name
  isGeoTIFF := false
  dataset := none
  transformOk := false
  transform := ⟨0, 1, 0, 0, 0, -1⟩
  pixmapItem := originItem w h
  itemAt := fun _ => originItem w h

/-- A GeoTIFF named `name` with geotransform `g` and size `w x h` that
`onOpenGeoTIFF` opens without failure. -/
def geoTIFFFile (name : String) (g : GeoTransform) (w h : ℤ) : GeoTIFFFile where
  chosen := true
  layerName := name
  dataset := some 8
  transformOk := true
  transform := g
  size := ⟨w, h⟩
  bandCount := 3
  imageOk := true
  pixmapOk := true
  item := originItem w h

/-- A transform with rotation terms of opposite sign: `c = (0, 1, -0.5, 0, 0.5, 1)`. -/
def gShear : GeoTransform := ⟨0, 1, -1 / 2, 0, 1 / 2, 1⟩

/-- The point `p` lies in the axis-parallel rectangle spanned by the two
corners `(x1, y1)` and `(x2, y2)`, whichever way round they are. -/
def inSpan (x1 y1 x2 y2 : ℚ) (p : ℚ × ℚ) : Prop :=
  min x1 x2 ≤ p.1 ∧ p.1 ≤ max x1 x2 ∧ min y1 y2 ≤ p.2 ∧ p.2 ≤ max y1 y2

/-- A registry entry without geo information, as `loadRasterFile` appends for
a plain image of size `w x h`. -/
def plainEntry (w h : ℤ) : GeoreferenceInfo where
  imageItem := some (originItem w h)
  hasTransform := false
  imageSize := ⟨w, h⟩
  geoTransform := ⟨0, 0, 0, 0, 0, 0⟩

/-- The bounding rectangles of the layers that have a graphics item, in
list order. -/
def layerRects (layers : List LayerInfo) : List QRectF :=
  layers.filterMap (fun layer => layer.graphicsItem.map (fun item => item.boundingRect))

/-- The union of a list of rectangles, in the words of the specification: the
first rectangle united with each of the others in turn; the default rectangle
for the empty list. -/
def unionOfRects : List QRectF → QRectF
  | [] => ⟨0, 0, 0, 0⟩
  | r :: rest => rest.foldl QRectF.united r

/-- A vector layer whose graphics item has bounding rectangle `r`. -/
def vectorLayer (name : String) (r : QRectF) : LayerInfo where
  name := name
  type := .vector
  graphicsItem := some
    { contains := fun _ => false
      mapFromScene := fun p => p
      mapToScene := fun p => p
      boundingRect := r }

/-- A window with a plain 100 x 100 image and one vector layer. -/
def imageAndLayerWindow : MainWindow :=
  { plainWindow 100 100 with loadedLayers := [vectorLayer "roads" ⟨5, 5, 10, 10⟩] }

/-- A window with two vector layers and no image. -/
def twoLayerWindow : MainWindow :=
  { freshWindow with
    loadedLayers := [vectorLayer "roads" ⟨5, 5, 10, 10⟩, vectorLayer "lakes" ⟨0, 10, 10, 10⟩] }

/-- The file of `loadRasterFile` is readable, is a GeoTIFF whose dataset opens
and has a geotransform, and its name clashes with no loaded layer: the load
succeeds and the raster is georeferenced. The pixmap has size `size`. -/
def RasterFile.georeferencedFor (f : RasterFile) (s : MainWindow) (size : QSize) : Prop :=
  f.pixmap = some size ∧
  s.loadedLayers.any
    (fun layer => decide (layer.name = f.layerName) && layer.type.startsWithGeoref) = false ∧
  f.isGeoTIFF = true ∧ f.dataset.isSome = true ∧ f.transformOk = true

/-- A sequence of `loadRasterFile` calls, in order. -/
def loadAll (s : MainWindow) (files : List RasterFile) : MainWindow :=
  files.foldl (fun st f => (loadRasterFile st f).1) s

/-- The file of `onOpenGeoTIFF` was chosen, its dataset opens, it has at least
one band, and the image and the pixmap are built: the open succeeds. -/
def GeoTIFFFile.opens (f : GeoTIFFFile) : Prop :=
  f.chosen = true ∧ f.dataset.isSome = true ∧ 1 ≤ f.bandCount ∧
  f.imageOk = true ∧ f.pixmapOk = true

/-- The session after `loadRasterFile` has loaded the 100 x 100 GeoTIFF "a"
with the scenario transform `gAxis` into a fresh window. -/
def firstLoadWindow : MainWindow :=
  (loadRasterFile freshWindow (geoRasterFile "a" gAxis 100 100)).1

/-- The session after `onOpenGeoTIFF` has opened the 100 x 100 GeoTIFF "a"
with the scenario transform `gAxis` in a fresh window. -/
def openedWindow : MainWindow :=
  (onOpenGeoTIFF freshWindow (geoTIFFFile "a" gAxis 100 100)).1

/-- A chosen GeoTIFF "b" (transform `gRot`, 50 x 50) whose dataset opens but
has no raster band. -/
def noBandsFile : GeoTIFFFile :=
  { geoTIFFFile "b" gRot 50 50 with bandCount := 0 }

/-- A chosen file "b" that GDAL cannot open. -/
def unopenableFile : GeoTIFFFile :=
  { geoTIFFFile "b" gRot 50 50 with dataset := none }

/-- A file that the image reader cannot load. -/
def unreadableFile : RasterFile :=
  { plainRasterFile "broken" 0 0 with pixmap := none }

/-- The window after `jumpToLocation(35, 25)` on the scenario raster: the jump
marker stands at the pixel `(50, 50)`. -/
def jumpedWindow : MainWindow :=
  (jumpToLocation (primaryWindow gAxis 100 100) 35 25).1

/-- Two clicks on the event loop: a marker is requested at time 0 at
`(10, 10)`, and a second one at time 4000 at `(20, 20)`. -/
def twoClicks : EventLoop :=
  (((({ window := freshWindow } : EventLoop).addMarker ⟨10, 10⟩).advanceTo 4000).addMarker ⟨20, 20⟩)

/-- A window without a primary raster whose registry holds one raster identical
to the scenario primary: transform `gAxis`, 100 x 100, placed at the scene
origin. -/
def registryOnlyWindow : MainWindow :=
  { freshWindow with georeferencedImagesInfo := [entryAt gAxis 0 0 100 100] }

/-- The round-trip property in the double arithmetic of the code, at one
transform and one pixel coordinate: the forward image is finite, its inverse is
a finite pixel, and that pixel is within `relTol`, relative to the larger of
`1`, `|px|` and `|py|`, of `(px, py)` in each coordinate. -/
def Binary64.RoundTripWithin (g : GeoTransform) (px py : ℚ) : Prop :=
  ∃ geoX geoY x y : ℚ,
    Binary64.forward g px py = (some geoX, some geoY) ∧
    Binary64.geoToPixel g geoX geoY = .pixel (some x) (some y) ∧
    |x - px| ≤ relTol * max 1 (max |px| |py|) ∧
    |y - py| ≤ relTol * max 1 (max |px| |py|)

/-- The axis-aligned transform `c = (500000.3, 0.1, 0, 5000000.7, 0, -0.1)`,
each coefficient the double that its decimal denotes. -/
def gLarge : GeoTransform :=
  ⟨Binary64.lit (5000003 / 10), Binary64.lit (1 / 10), 0,
   Binary64.lit (50000007 / 10), 0, Binary64.lit (-1 / 10)⟩

/-- The axis-aligned transform `c = (0, 0.1, 0, 50, 0, -0.5)`, with the double
`0.1`. -/
def gEdge : GeoTransform :=
  ⟨0, Binary64.lit (1 / 10), 0, 50, 0, -1 / 2⟩

/-- A general-path transform `c = (0, 9, 1, 0, 0, c5)` whose `c5` is the double
quotient `1e-10 / 9`: the exact determinant `9 * c5` is below `1e-10`, and its
nearest double is the double `1e-10` itself. -/
def gNearSingular : GeoTransform :=
  ⟨0, 9, 1, 0, 0, Binary64.lit (Binary64.lit (1 / 10000000000) / 9)⟩

/-- The session after `loadRasterFile` has loaded, into a fresh window, the
100 x 100 GeoTIFF "a" whose transform has `c1=2, c2=4, c4=1, c5=2`. -/
def firstLoadSingularWindow : MainWindow :=
  (loadRasterFile freshWindow (geoRasterFile "a" (gSing 0 0) 100 100)).1

/-- The session in which a marker was placed by `jumpToLocation(10, 10)` on a
plain 100 x 100 image and the image was then cleared by `clearCurrentImage`. -/
def clearedAfterJumpWindow : MainWindow :=
  clearCurrentImage (jumpToLocation (plainWindow 100 100) 10 10).1

/-- The session in which a marker was placed by `jumpToLocation(35, 25)` on the
scenario raster and `onOpenGeoTIFF` then opened the GeoTIFF "b" whose transform
has `c1=2, c2=4, c4=1, c5=2`. -/
def reopenedSingularWindow : MainWindow :=
  (onOpenGeoTIFF jumpedWindow (geoTIFFFile "b" (gSing 0 0) 100 100)).1

/-- A pixmap item of size `w x h` placed at `(ox, oy)` by `setPos`, as
`translatedItem`, with the addition of the offset in `mapToScene` carried out
in double arithmetic. -/
def Binary64.translatedItem (ox oy w h : ℚ) : GraphicsItem where
  contains := fun p => decide (0 ≤ p.x) && decide (p.x ≤ w) && decide (0 ≤ p.y) && decide (p.y ≤ h)
  mapFromScene := fun p => ⟨p.x - ox, p.y - oy⟩
  mapToScene := fun p =>
    ⟨p.x.bind (fun v => (Binary64.add (.finite v) (.finite ox)).toDbl),
     p.y.bind (fun v => (Binary64.add (.finite v) (.finite oy)).toDbl)⟩
  boundingRect := ⟨0, 0, w, h⟩

end GeoCore

/-!
# City search

A shallow embedding of `src/citysearch.cpp` and `src/citysearch.h`: the CSV
splitter and the city store of `loadCitiesFromCSV`, and the lookup `findCity`.

Strings. A `QString` is carried as the list of its UTF-16 code units, so that
trimming, splitting and the key order of `QMap` are those of Qt. The number
parser `QString::toDouble` and the case folding behind
`compare(..., Qt::CaseInsensitive)` are library functions and are arguments of
the operations that use them.
-/

namespace CitySearch

/-! ## Strings -/

/-- A `QString`: the list of its UTF-16 code units. -/
abbrev QString := List ℕ

/-- The code units of a string literal (for characters below U+10000). -/
def qs (s : String) : QString := s.toList.map Char.toNat

/-- The double-quote character. -/
def quoteChar : ℕ := 34

/-- The comma character. -/
def commaChar : ℕ := 44

/-- Qt `QChar::isSpace()`: the space, the controls U+0009..U+000D, U+0085,
U+00A0 and the characters of the Unicode separator categories. -/
def isSpace (c : ℕ) : Bool :=
  c == 32 || (decide (9 ≤ c) && decide (c ≤ 13)) || c == 133 || c == 160 || c == 5760 ||
    (decide (8192 ≤ c) && decide (c ≤ 8202)) || c == 8232 || c == 8233 || c == 8239 ||
    c == 8287 || c == 12288

/-- Qt `QString::trimmed()`: whitespace removed from the start and the end. -/
def trimmed (s : QString) : QString :=
  ((s.dropWhile isSpace).reverse.dropWhile isSpace).reverse

/-- Qt `QString::remove(QChar)`: every occurrence of the character removed. -/
def removeChar (c : ℕ) (s : QString) : QString :=
  s.filter (fun x => x != c)

/-- Qt `QString::operator<`: lexicographic comparison of the code units, the
order in which `QMap<QString, ...>` keeps and iterates its keys. -/
def keyLt : QString → QString → Bool
  | [], [] => false
  | [], _ :: _ => true
  | _ :: _, [] => false
  | a :: as, b :: bs => if a < b then true else if b < a then false else keyLt as bs

/-- The test `a.compare(b, Qt::CaseInsensitive) == 0`, for the case folding
`fold` of the library: the two strings have the same folded code units. -/
def equalsIgnoreCase (fold : ℕ → ℕ) (a b : QString) : Bool :=
  decide (a.map fold = b.map fold)

/-! ## Cities -/

/-- The struct `CityData` of `citysearch.h`. -/
structure CityData where
  name : QString
  country : QString
  latitude : ℚ
  longitude : ℚ
deriving DecidableEq, Repr

/-- The value-initialised `CityData()`: empty strings and zero coordinates. -/
def CityData.empty : CityData := ⟨[], [], 0, 0⟩

/-- Member `CityData::getSearchString()`: `QString("%1, %2").arg(name).arg(country)`,
that is the name, a comma, a space and the country. (For a name and a country
that contain no place marker `%n` themselves; the substitution of `QString::arg`
is not modelled beyond that.) -/
def CityData.getSearchString (c : CityData) : QString :=
  c.name ++ qs ", " ++ c.country

/-- The members `cities` (a `QVector`, in load order), `cityMap` (a `QMap`, kept
here as the list of its entries in key order) and the string list handed to the
completer. -/
structure CitySearchWidget where
  cities : List CityData := []
  cityMap : List (QString × CityData) := []
  cityNames : List QString := []

/-- The assignment `map[key] = value` on a `QMap`: the value of an existing key
is replaced, a new key is inserted at its place in key order. -/
def mapInsert (key : QString) (value : CityData) :
    List (QString × CityData) → List (QString × CityData)
  | [] => [(key, value)]
  | (k, v) :: rest =>
    if key = k then (k, value) :: rest
    else if keyLt key k then (key, value) :: (k, v) :: rest
    else (k, v) :: mapInsert key value rest

/-- The lookup behind `map.contains(key)` and `map[key]`. -/
def mapLookup (key : QString) : List (QString × CityData) → Option CityData
  | [] => none
  | (k, v) :: rest => if key = k then some v else mapLookup key rest

/-! ## loadCitiesFromCSV -/

/-- The character loop of the CSV splitter (140-150), with its running values
`inQuotes`, `currentField` and `fields`; the last field is appended after the
loop (151). -/
def splitLoop : List ℕ → Bool → QString → List QString → List QString
  | [], _, currentField, fields => fields ++ [trimmed currentField]
  | c :: rest, inQuotes, currentField, fields =>
    if c = quoteChar then splitLoop rest (!inQuotes) currentField fields
    else if c = commaChar ∧ inQuotes = false then
      splitLoop rest inQuotes [] (fields ++ [trimmed currentField])
    else splitLoop rest inQuotes (currentField ++ [c]) fields

/-- The CSV splitter of `loadCitiesFromCSV` (136-151) on one line. -/
def splitFields (line : QString) : List QString :=
  splitLoop line false [] []

/-- The part of the line loop that turns the fields into a city (153-160) and
decides whether it is stored (162): at least four fields, both numbers parse,
and the name is not empty. `toDouble` is `QString::toDouble`, `none` when its
`ok` flag is false. -/
def cityOfFields (toDouble : QString → Option ℚ) (fields : List QString) : Option CityData :=
  match fields with
  | f0 :: f1 :: f2 :: f3 :: _ =>
    let name := trimmed (removeChar quoteChar f0)
    let country := trimmed (removeChar quoteChar f1)
    match toDouble f2, toDouble f3 with
    | some latitude, some longitude =>
      if name ≠ [] then some ⟨name, country, latitude, longitude⟩ else none
    | _, _ => none
  | _ => none

/-- The stores of one accepted city (163-166): appended to `cities`, assigned in
`cityMap` under its search string, and its search string appended to the
completer list. -/
def storeCity (w : CitySearchWidget) (city : CityData) : CitySearchWidget :=
  { cities := w.cities ++ [city]
    cityMap := mapInsert city.getSearchString city w.cityMap
    cityNames := w.cityNames ++ [city.getSearchString] }

/-- The body of the line loop (129-169) for one line as read: the line is
trimmed, an empty line is skipped, the line is split and the city, if any,
stored. -/
def processLine (toDouble : QString → Option ℚ) (w : CitySearchWidget) (rawLine : QString) :
    CitySearchWidget :=
  let line := trimmed rawLine
  if line = [] then w
  else
    match cityOfFields toDouble (splitFields line) with
    | some city => storeCity w city
    | none => w

/-- Member `CitySearchWidget::loadCitiesFromCSV` (104-185): `file` is the list of
the lines of the file, `none` when it cannot be opened. The stores are cleared,
the first line is skipped as header, and the result tells whether any city was
stored. -/
def loadCitiesFromCSV (toDouble : QString → Option ℚ) (w : CitySearchWidget)
    (file : Option (List QString)) : CitySearchWidget × Bool :=
  match file with
  | none => (w, false)
  | some lines =>
    let loaded := (lines.drop 1).foldl (processLine toDouble) {}
    (loaded, decide (0 < loaded.cities.length))

/-! ## findCity -/

/-- Member `CitySearchWidget::findCity` (187-212): exact match of the trimmed
text among the keys of `cityMap`; else the first key, in key order, equal to it
ignoring case; else the first city, in load order, whose name equals it ignoring
case; else the empty city. -/
def findCity (fold : ℕ → ℕ) (w : CitySearchWidget) (searchText : QString) : CityData :=
  let search := trimmed searchText
  match mapLookup search w.cityMap with
  | some city => city
  | none =>
    match w.cityMap.find? (fun kv => equalsIgnoreCase fold kv.1 search) with
    | some kv => kv.2
    | none =>
      match w.cities.find? (fun city => equalsIgnoreCase fold city.name search) with
      | some city => city
      | none => CityData.empty

/-! ## Predicates and sample data used by the statements -/

/-- The number of commas of a line that occur outside double quotes, starting
inside quotes or not as `inQuotes` says: each double quote switches between
inside and outside. -/
def commasOutsideQuotes : List ℕ → Bool → ℕ
  | [], _ => 0
  | c :: rest, inQuotes =>
    if c = quoteChar then commasOutsideQuotes rest (!inQuotes)
    else if c = commaChar ∧ inQuotes = false then commasOutsideQuotes rest inQuotes + 1
    else commasOutsideQuotes rest inQuotes

/-- The cut of a line at its commas outside double quotes, in the words of the
claim: the first piece and the list of the further pieces. A piece holds the
characters, double quotes and commas inside quotes included, that stand between
two commas outside quotes; `inQuotes` tells whether the line starts inside
quotes, and every double quote switches between inside and outside. -/
def cutAtCommas : List ℕ → Bool → QString × List QString
  | [], _ => ([], [])
  | c :: rest, inQuotes =>
    if c = commaChar ∧ inQuotes = false then
      ([], (cutAtCommas rest inQuotes).1 :: (cutAtCommas rest inQuotes).2)
    else
      (c :: (cutAtCommas rest (if c = quoteChar then !inQuotes else inQuotes)).1,
        (cutAtCommas rest (if c = quoteChar then !inQuotes else inQuotes)).2)

/-- The pieces of a line between its commas outside double quotes, in order. -/
def pieces (line : QString) : List QString :=
  (cutAtCommas line false).1 :: (cutAtCommas line false).2

/-- The pieces joined again, with one comma between neighbours. -/
def joinWithCommas : List QString → QString
  | [] => []
  | [piece] => piece
  | piece :: next :: rest => piece ++ commaChar :: joinWithCommas (next :: rest)

/-- The field that a piece gives, in the words of the claim: the piece
without its double quotes, whitespace-trimmed. -/
def fieldOfPiece (piece : QString) : QString :=
  trimmed (removeChar quoteChar piece)

/-- The string has no whitespace at its start and none at its end. -/
def IsTrimmed (s : QString) : Prop :=
  (∀ c, s.head? = some c → isSpace c = false) ∧ (∀ c, s.getLast? = some c → isSpace c = false)

/-- A number parser that knows the two numbers of the sample file. -/
def sampleToDouble (s : QString) : Option ℚ :=
  if s = qs "48.85" then some (977 / 20)
  else if s = qs "2.35" then some (47 / 20)
  else none

/-- A CSV file with its header and one city line without a country. -/
def parisFile : List QString :=
  [qs "city,country,lat,lng", qs "Paris,,48.85,2.35"]

/-- The city of the sample file: Paris with an empty country. -/
def paris : CityData := ⟨qs "Paris", [], 977 / 20, 47 / 20⟩

/-- A city line with a country and a quoted name: `"Paris",FR,48.85,2.35`. -/
def parisLine : QString :=
  [quoteChar] ++ qs "Paris" ++ [quoteChar] ++ qs ",FR,48.85,2.35"

/-- The city of that line. -/
def parisFR : CityData := ⟨qs "Paris", qs "FR", 977 / 20, 47 / 20⟩

/-- The widget after loading the sample file into a fresh widget. -/
def parisWidget : CitySearchWidget :=
  (loadCitiesFromCSV sampleToDouble {} (some parisFile)).1

/-- A line with a quoted first field that contains a comma:
`"Washington, D.C." , USA,38.9,-77.0`. -/
def quotedLine : QString :=
  [quoteChar] ++ qs "Washington, D.C." ++ [quoteChar] ++ qs " , USA,38.9,-77.0"

/-- The stores hold only what the load puts there: the names of the cities are
not empty, names and countries are trimmed, every city of the list has its
search string among the keys of the map, and every entry of the map is a city
with a non-empty name under its own search string. -/
def WellFormed (w : CitySearchWidget) : Prop :=
  (∀ c ∈ w.cities, c.name ≠ [] ∧ IsTrimmed c.name ∧ IsTrimmed c.country
      ∧ ∃ v, mapLookup c.getSearchString w.cityMap = some v)
  ∧ (∀ kv ∈ w.cityMap, kv.2.getSearchString = kv.1 ∧ kv.2.name ≠ [])

end CitySearch

namespace GeoCore

/-! ## Lemmas on the inverse computation -/

theorem eps_pos : 0 < eps := by
  unfold eps; norm_num

/-- On the fast path a non-singular transform has non-zero pixel sizes. -/
theorem pixel_sizes_ne_zero (g : GeoTransform) (h2 : |g.c2| < eps) (h4 : |g.c4| < eps)
    (hd : eps ≤ |det g|) : g.c1 ≠ 0 ∧ g.c5 ≠ 0 := by
  have hprod : |g.c2 * g.c4| < eps := by
    rw [abs_mul]
    have h1 : |g.c2| * |g.c4| ≤ eps * eps :=
      mul_le_mul h2.le h4.le (abs_nonneg _) eps_pos.le
    have h3 : eps * eps < eps := by unfold eps; norm_num
    exact lt_of_le_of_lt h1 h3
  constructor
  · intro h0
    have : det g = -(g.c2 * g.c4) := by unfold det; rw [h0]; ring
    rw [this, abs_neg] at hd
    exact absurd hd (not_le.mpr hprod)
  · intro h0
    have : det g = -(g.c2 * g.c4) := by unfold det; rw [h0]; ring
    rw [this, abs_neg] at hd
    exact absurd hd (not_le.mpr hprod)

theorem det_ne_zero_of_eps_le (g : GeoTransform) (hd : eps ≤ |det g|) : det g ≠ 0 := by
  intro h0
  rw [h0, abs_zero] at hd
  exact absurd hd (not_le.mpr eps_pos)

theorem fdiv_of_ne_zero (a b : ℚ) (hb : b ≠ 0) : fdiv a b = some (a / b) := by
  unfold fdiv; rw [if_neg hb]

/-! ## Values of the double arithmetic -/

/-- Known values of the rounding: the doubles `0.1` and `1e-10`; a tie goes to
the even neighbour (`1 + 2^-53` to `1`, `1 + 3 * 2^-53` to `1 + 2^-51`); the
largest double is kept, the midpoint above it overflows; the smallest
subnormal is kept and half of it goes to zero. -/
theorem binary64_rounding_examples :
    Binary64.lit (1 / 10) = 3602879701896397 / 36028797018963968 ∧
    Binary64.eps = .finite (7737125245533627 / 77371252455336267181195264) ∧
    Binary64.roundNearestEven (1 + 1 / 2 ^ 53) = .finite 1 ∧
    Binary64.roundNearestEven (1 + 3 / 2 ^ 53) = .finite (1 + 1 / 2 ^ 51) ∧
    Binary64.roundNearestEven (2 ^ 1024 - 2 ^ 971) = .finite (2 ^ 1024 - 2 ^ 971) ∧
    Binary64.roundNearestEven (2 ^ 1024 - 2 ^ 970) = .inf false ∧
    Binary64.roundNearestEven (1 / 2 ^ 1074) = .finite (1 / 2 ^ 1074) ∧
    Binary64.roundNearestEven (1 / 2 ^ 1075) = .finite 0 ∧
    Binary64.add (.finite (1 / 2)) (.finite (1 / 4)) = .finite (3 / 4) ∧
    Binary64.div (.finite 1) (.finite 3) = .finite (6004799503160661 / 18014398509481984) := by
  refine ⟨?_, ?_, ?_, ?_, ?_, ?_, ?_, ?_, ?_, ?_⟩ <;> decide!

/-! ## Lemmas on the marker removal and the branches of the jump -/

/-- The marker removal leaves the members that the jump reads afterwards as
they are. -/
theorem removeCoordinateMarker_fields (s : MainWindow) :
    (removeCoordinateMarker s).primaryUsable = s.primaryUsable ∧
    (removeCoordinateMarker s).gdalGeoTransform = s.gdalGeoTransform ∧
    (removeCoordinateMarker s).geoTIFFSize = s.geoTIFFSize ∧
    (removeCoordinateMarker s).currentImageItem = s.currentImageItem ∧
    (removeCoordinateMarker s).geoTIFFItem = s.geoTIFFItem := by
  unfold removeCoordinateMarker
  split <;> exact ⟨rfl, rfl, rfl, rfl, rfl⟩

/-- With live marker members the marker removal resets them, and no undefined
behaviour occurs. -/
theorem removeCoordinateMarker_of_live (s : MainWindow) (hlive : s.markersLive = true) :
    removeCoordinateMarker s =
      { s with
        coordinateMarker := none, coordinateTextItem := none, currentCrosshairItems := []
        markerDeleted := false, crosshairDeleted := false } ∧
    (removeCoordinateMarker s).useAfterFree = false := by
  simp only [MainWindow.markersLive, Bool.and_eq_true, Bool.not_eq_true'] at hlive
  unfold removeCoordinateMarker
  rw [if_neg (by simp [hlive.2])]
  exact ⟨rfl, hlive.1⟩

/-- With a marker member that points to a deleted item, or after undefined
behaviour, the marker removal is undefined behaviour. -/
theorem removeCoordinateMarker_of_not_live (s : MainWindow) (hstale : s.markersLive = false) :
    (removeCoordinateMarker s).useAfterFree = true := by
  unfold removeCoordinateMarker
  by_cases h : s.staleMarker = true
  · rw [if_pos h]
  · rw [if_neg h]
    simp only [MainWindow.markersLive, Bool.and_eq_false_imp, Bool.not_eq_true',
      Bool.not_eq_false'] at hstale
    by_cases hu : s.useAfterFree = true
    · exact hu
    · exact absurd (hstale (by simpa using hu)) h

/-- On a window with its view set up, a jump with a stale marker member ends in
undefined behaviour, whatever is loaded. -/
theorem jumpToLocationWith_stale (inverse : GeoTransform → ℚ → ℚ → PixelResult)
    (s : MainWindow) (lon lat : ℚ) (hview : s.mapView = true) (hscene : s.mapScene = true)
    (hstale : s.markersLive = false) :
    (jumpToLocationWith inverse s lon lat).2 = .undefinedBehaviour := by
  have hub := removeCoordinateMarker_of_not_live s hstale
  simp only [jumpToLocationWith, hview, hscene, hub]
  simp

/-- The singular exit of the jump: with the view set up, live marker members
and the primary guard (4165) passed, a singular inverse ends the call with the
singular-transform error, the old marker removed and no new one placed. -/
theorem jumpToLocationWith_singular (inverse : GeoTransform → ℚ → ℚ → PixelResult)
    (s : MainWindow) (lon lat : ℚ) (hview : s.mapView = true) (hscene : s.mapScene = true)
    (hlive : s.markersLive = true) (hprim : s.primaryUsable = true)
    (hinv : inverse s.gdalGeoTransform lon lat = .singular) :
    jumpToLocationWith inverse s lon lat = (removeCoordinateMarker s, .singularTransform) := by
  obtain ⟨hp, hg, _, _, _⟩ := removeCoordinateMarker_fields s
  have hub := (removeCoordinateMarker_of_live s hlive).2
  rw [← hp] at hprim
  rw [← hg] at hinv
  simp only [jumpToLocationWith, hview, hscene, hub, hprim, hinv]
  simp

/-- The georeferenced branch of the jump: with the view set up, live marker
members and the primary guard (4165) passed, a pixel `(x, y)` from the inverse
is the scene point; the in-bounds flag is the test of 4204-4205 on it, and the
marker is built at it. -/
theorem jumpToLocationWith_pixel (inverse : GeoTransform → ℚ → ℚ → PixelResult)
    (s : MainWindow) (lon lat : ℚ) (x y : Dbl)
    (hview : s.mapView = true) (hscene : s.mapScene = true)
    (hlive : s.markersLive = true) (hprim : s.primaryUsable = true)
    (hinv : inverse s.gdalGeoTransform lon lat = .pixel x y) :
    jumpToLocationWith inverse s lon lat =
      (placeJumpMarker (removeCoordinateMarker s) x y,
        .jumped x y
          (x.inPixelRange s.geoTIFFSize.width && y.inPixelRange s.geoTIFFSize.height) true) := by
  obtain ⟨hp, hg, hsz, _, _⟩ := removeCoordinateMarker_fields s
  have hub := (removeCoordinateMarker_of_live s hlive).2
  rw [← hp] at hprim
  rw [← hg] at hinv
  simp only [jumpToLocationWith, hview, hscene, hub, hprim, hinv, hsz]
  simp

/-- The plain-image branch of the jump (4225-4238). -/
theorem jumpToLocationWith_plain (inverse : GeoTransform → ℚ → ℚ → PixelResult)
    (s : MainWindow) (lon lat : ℚ) (item : GraphicsItem)
    (hview : s.mapView = true) (hscene : s.mapScene = true)
    (hlive : s.markersLive = true) (hnoprim : s.primaryUsable = false)
    (himg : s.currentImageItem = some item) :
    jumpToLocationWith inverse s lon lat =
      (placeJumpMarker (removeCoordinateMarker s) (some lon) (some lat),
        .jumped (some lon) (some lat)
          (decide (lon ≥ item.boundingRect.left) && decide (lon ≤ item.boundingRect.right) &&
            decide (lat ≥ item.boundingRect.top) && decide (lat ≤ item.boundingRect.bottom))
          false) := by
  obtain ⟨hp, _, _, hi, _⟩ := removeCoordinateMarker_fields s
  have hub := (removeCoordinateMarker_of_live s hlive).2
  rw [← hp] at hnoprim
  rw [← hi] at himg
  simp only [jumpToLocationWith, hview, hscene, hub, hnoprim, himg]
  simp

/-- The no-data exit of the jump (4239-4242): with the view set up and live
marker members, no usable primary raster and no current image item, the call
ends with the no-data error, the old marker removed and no new one placed. -/
theorem jumpToLocationWith_noImageLoaded (inverse : GeoTransform → ℚ → ℚ → PixelResult)
    (s : MainWindow) (lon lat : ℚ) (hview : s.mapView = true) (hscene : s.mapScene = true)
    (hlive : s.markersLive = true) (hnoprim : s.primaryUsable = false)
    (hnoimg : s.currentImageItem = none) :
    jumpToLocationWith inverse s lon lat = (removeCoordinateMarker s, .noImageLoaded) := by
  obtain ⟨hp, _, _, hi, _⟩ := removeCoordinateMarker_fields s
  have hub := (removeCoordinateMarker_of_live s hlive).2
  rw [← hp] at hnoprim
  rw [← hi] at hnoimg
  simp only [jumpToLocationWith, hview, hscene, hub, hnoprim, hnoimg]
  simp

/-! ## C1 -/

/-- C1 (as stated, refuted), in two ways. In exact arithmetic: the transform
`gSkew` is non-singular (determinant 1), yet the inverse of `forward(0, 1)` is
the pixel `(5e-8, 1)`: the fast path drops the coefficient `c2 = 5e-11`, and
the first coordinate is off by `5e-8`, more than the relative tolerance `1e-9`
allows. In the double arithmetic of the code: the transform
`gLarge = (500000.3, 0.1, 0, 5000000.7, 0, -0.1)` has `c2 = c4 = 0` exactly and
determinant `-0.01`, yet the forward image of the pixel `(1, 1)`,
`(500000.39999999997, 5000000.600000001)`, is inverted to
`(1 - 2^-32, 1 - 2^-28)`: the second coordinate is off by `2^-28`, about
`3.7e-9`. -/
theorem C1_roundTrip_fails :
    (eps ≤ |det gSkew| ∧
      geoToPixel gSkew (forward gSkew 0 1).1 (forward gSkew 0 1).2
        = .pixel (some (1 / 20000000)) (some 1) ∧
      ¬ RoundTripWithin gSkew 0 1) ∧
    (gLarge.c2 = 0 ∧ gLarge.c4 = 0 ∧ eps ≤ |det gLarge| ∧
      Binary64.forward gLarge 1 1
        = (some (8589941463947673 / 17179869184), some (5368709764245095 / 1073741824)) ∧
      Binary64.geoToPixel gLarge (8589941463947673 / 17179869184) (5368709764245095 / 1073741824)
        = .pixel (some (4294967295 / 4294967296)) (some (268435455 / 268435456)) ∧
      ¬ Binary64.RoundTripWithin gLarge 1 1) := by
  have hval : geoToPixel gSkew (forward gSkew 0 1).1 (forward gSkew 0 1).2
      = .pixel (some (1 / 20000000)) (some 1) := by
    norm_num [geoToPixel, isAxisAligned, fastPath, fdiv, forward, gSkew, eps, abs_lt]
  have hfwd : Binary64.forward gLarge 1 1
      = (some (8589941463947673 / 17179869184), some (5368709764245095 / 1073741824)) := by
    decide!
  have hinv : Binary64.geoToPixel gLarge (8589941463947673 / 17179869184)
      (5368709764245095 / 1073741824)
      = .pixel (some (4294967295 / 4294967296)) (some (268435455 / 268435456)) := by
    decide!
  refine ⟨⟨by norm_num [det, gSkew, eps], hval, ?_⟩,
    ⟨rfl, rfl, by decide!, hfwd, hinv, ?_⟩⟩
  · rintro ⟨x, y, hxy, hx, _⟩
    rw [hval] at hxy
    injection hxy with h1 h2
    injection h1 with h1
    subst h1
    norm_num [relTol, abs_le] at hx
  · rintro ⟨geoX, geoY, x, y, hf, hxy, _, hy⟩
    rw [hfwd] at hf
    injection hf with h1 h2
    injection h1 with h1
    injection h2 with h2
    subst h1 h2
    rw [hinv] at hxy
    injection hxy with h3 h4
    injection h4 with h4
    subst h4
    norm_num [relTol, abs_le] at hy

/-- C1 (amended): in exact arithmetic, for every non-singular transform and
every pixel coordinate the inverse of the forward image is a finite pixel: it is
`(px + py*c2/c1, py + px*c4/c5)` on the fast path and `(px, py)` on the general
path. Hence the round trip is exact, and within the tolerance, whenever the
transform takes the general path or has `c2 = 0` and `c4 = 0`. -/
theorem C1_roundTrip_exact_arithmetic (g : GeoTransform) (px py : ℚ)
    (hd : eps ≤ |det g|) :
    geoToPixel g (forward g px py).1 (forward g px py).2 =
        (if isAxisAligned g then
          .pixel (some (px + py * g.c2 / g.c1)) (some (py + px * g.c4 / g.c5))
        else .pixel (some px) (some py)) ∧
    ((isAxisAligned g = false ∨ (g.c2 = 0 ∧ g.c4 = 0)) →
      geoToPixel g (forward g px py).1 (forward g px py).2 = .pixel (some px) (some py) ∧
      RoundTripWithin g px py) := by
  have hmain : geoToPixel g (forward g px py).1 (forward g px py).2 =
      (if isAxisAligned g then
        .pixel (some (px + py * g.c2 / g.c1)) (some (py + px * g.c4 / g.c5))
      else .pixel (some px) (some py)) := by
    by_cases hax : isAxisAligned g = true
    · have hax2 := hax
      simp only [isAxisAligned, Bool.and_eq_true, decide_eq_true_eq] at hax2
      obtain ⟨h1, h5⟩ := pixel_sizes_ne_zero g hax2.1 hax2.2 hd
      simp only [geoToPixel, hax, if_true, fastPath, forward]
      rw [fdiv_of_ne_zero _ _ h1, fdiv_of_ne_zero _ _ h5]
      congr 2
      · field_simp; ring
      · field_simp; ring
    · have hdet := det_ne_zero_of_eps_le g hd
      simp only [geoToPixel, hax, generalPath, forward, if_false, not_lt.mpr hd, Bool.false_eq_true]
      rw [fdiv_of_ne_zero _ _ hdet, fdiv_of_ne_zero _ _ hdet]
      congr 2
      · rw [div_eq_iff hdet]; unfold det; ring
      · rw [div_eq_iff hdet]; unfold det; ring
  refine ⟨hmain, ?_⟩
  intro hcase
  have hexact : geoToPixel g (forward g px py).1 (forward g px py).2
      = .pixel (some px) (some py) := by
    rw [hmain]
    rcases hcase with hgen | ⟨h2, h4⟩
    · simp [hgen]
    · simp [h2, h4]
  refine ⟨hexact, px, py, hexact, ?_, ?_⟩
  · rw [sub_self, abs_zero]
    exact mul_nonneg (by unfold relTol; norm_num) (le_trans zero_le_one (le_max_left _ _))
  · rw [sub_self, abs_zero]
    exact mul_nonneg (by unfold relTol; norm_num) (le_trans zero_le_one (le_max_left _ _))

/-- C1 witness: the rotated scenario `c = (0, 1, 0.5, 0, 0.5, 1)` (determinant
0.75, general path) at the pixel `(10, 20)`. -/
theorem C1_roundTrip_exact_arithmetic_witness :
    eps ≤ |det gRot| ∧
    geoToPixel gRot (forward gRot 10 20).1 (forward gRot 10 20).2
      = .pixel (some 10) (some 20) ∧
    RoundTripWithin gRot 10 20 :=
  have hd : eps ≤ |det gRot| := by norm_num [det, gRot, eps, le_abs]
  ⟨hd, (C1_roundTrip_exact_arithmetic gRot 10 20 hd).2
    (Or.inl (by norm_num [isAxisAligned, gRot, eps, abs_lt]))⟩

/-! ## C2 -/

/-- No fast-path result is the singular exit, and the general path takes the
singular exit exactly when its determinant test fires: in exact arithmetic. -/
theorem geoToPixel_singular_iff (g : GeoTransform) (lon lat : ℚ) :
    geoToPixel g lon lat = .singular ↔ isAxisAligned g = false ∧ |det g| < eps := by
  unfold geoToPixel
  by_cases hax : isAxisAligned g = true
  · simp [hax, fastPath]
  · have hax2 : isAxisAligned g = false := by simpa using hax
    by_cases hd : |det g| < eps
    · simp [hax2, generalPath, hd]
    · simp [hax2, generalPath, hd]

/-- The same in the double arithmetic of the code: the singular exit is taken
exactly on the general path with `fabs(det) < 1e-10` for the computed
determinant. -/
theorem binary64_geoToPixel_singular_iff (g : GeoTransform) (lon lat : ℚ) :
    Binary64.geoToPixel g lon lat = .singular ↔
      Binary64.isAxisAligned g = false ∧
      Binary64.lt (Binary64.abs (Binary64.det g)) Binary64.eps = true := by
  unfold Binary64.geoToPixel
  by_cases hax : Binary64.isAxisAligned g = true
  · simp [hax, Binary64.fastPath]
  · have hax2 : Binary64.isAxisAligned g = false := by simpa using hax
    by_cases hd : Binary64.lt (Binary64.abs (Binary64.det g)) Binary64.eps = true
    · simp [hax2, Binary64.generalPath, hd]
    · simp [hax2, Binary64.generalPath, hd]

/-- The primary step of `geographicToSceneCoords` on a singular inverse
(4487-4490): the empty point is returned. -/
theorem geographicToSceneCoordsWith_singular (inverse : GeoTransform → ℚ → ℚ → PixelResult)
    (s : MainWindow) (lon lat : ℚ)
    (hguard : (s.isGeoTIFFLoaded && s.hasGeoTransform && s.gdalDataset.isSome) = true)
    (hsing : inverse s.gdalGeoTransform lon lat = .singular) :
    geographicToSceneCoordsWith inverse s lon lat = QPointF.null := by
  simp only [geographicToSceneCoordsWith, hguard, hsing]
  simp

/-- The three-flag guard of `geographicToSceneCoords` follows from the
four-flag guard of `jumpToLocation`. -/
theorem guard_of_primaryUsable (s : MainWindow) (hprim : s.primaryUsable = true) :
    (s.isGeoTIFFLoaded && s.hasGeoTransform && s.gdalDataset.isSome) = true := by
  simp only [MainWindow.primaryUsable, Bool.and_eq_true] at hprim
  simp [hprim.1.1.1, hprim.1.1.2, hprim.1.2]

/-- C2 (as stated, refuted), in four ways. (1) The axis-aligned transform
`gFine` has determinant `1e-12`, below `1e-10`, yet no singular-transform exit
is taken: the fast path makes no determinant test, and for `(lon, lat) = (1, 1)`
`jumpToLocation` places its marker at the pixel `(1000000, 1000000)` and
`geographicToSceneCoords` returns that point. (2) The general-path transform
`gNearSingular` has the exact determinant `9 * c5 < 1e-10`, but the code
computes the double `1e-10` for it, its test `fabs(det) < 1e-10` fails, and the
jump completes at the pixel `(-9999999999.88889, 90000000000)`. (3) After
`loadRasterFile` has made the singular transform `c1=2, c2=4, c4=1, c5=2`
primary in a fresh window, the jump ends with the no-data error, not the
singular-transform error. (4) After a jump has placed a marker and
`onOpenGeoTIFF` has then opened a file with that singular transform, clearing
the scene, the next jump frees the deleted marker items before it reaches the
determinant test. -/
theorem C2_singular_not_always_rejected :
    (|det gFine| < eps ∧
      geoToPixel gFine 1 1 = .pixel (some 1000000) (some 1000000) ∧
      (jumpToLocation (primaryWindow gFine 100 100) 1 1).2
        = .jumped (some 1000000) (some 1000000) false true ∧
      geographicToSceneCoords (primaryWindow gFine 100 100) 1 1
        = ⟨some 1000000, some 1000000⟩) ∧
    (|det gNearSingular| < eps ∧
      Binary64.isAxisAligned gNearSingular = false ∧
      Binary64.det gNearSingular = Binary64.eps ∧
      (jumpToLocationWith Binary64.geoToPixel (primaryWindow gNearSingular 100 100) 1 1).2
        = .jumped (some (-2621439999970873 / 262144)) (some 90000000000) false true) ∧
    (firstLoadSingularWindow.isGeoTIFFLoaded = true ∧
      firstLoadSingularWindow.hasGeoTransform = true ∧
      firstLoadSingularWindow.gdalGeoTransform = gSing 0 0 ∧
      det (gSing 0 0) = 0 ∧
      (jumpToLocationWith Binary64.geoToPixel firstLoadSingularWindow 1 1).2
        = .noImageLoaded) ∧
    (reopenedSingularWindow.primaryUsable = true ∧
      reopenedSingularWindow.gdalGeoTransform = gSing 0 0 ∧
      reopenedSingularWindow.markersLive = false ∧
      (jumpToLocationWith Binary64.geoToPixel reopenedSingularWindow 1 1).2
        = .undefinedBehaviour) := by
  have hval : geoToPixel gFine 1 1 = .pixel (some 1000000) (some 1000000) := by
    norm_num [geoToPixel, isAxisAligned, fastPath, fdiv, gFine, eps]
  refine ⟨⟨by norm_num [det, gFine, eps, abs_lt], hval, by decide!, ?_⟩,
    ⟨by decide!, by decide!, by decide!, by decide!⟩,
    ⟨by decide!, by decide!, by decide!, by norm_num [det, gSing], by decide!⟩,
    ⟨by decide!, by decide!, by decide!, by decide!⟩⟩
  simp only [geographicToSceneCoords, primaryWindow, hval]
  simp [originItem]

/-- C2 (amended): the singular exit belongs to the general path and to the
determinant as the code computes it. Whenever the inline inverse takes the
singular exit on the primary transform, `jumpToLocation`, on a window with its
view set up, live marker items and the primary guard (4165) passed, ends with
the singular-transform error, having only removed the old marker, and
`geographicToSceneCoords` returns the empty point. The inverse takes that exit
exactly when the transform is on the general path and the determinant test
fires: on the double `fl(fl(c1*c5) - fl(c2*c4))` in the code, on
`c1*c5 - c2*c4` in exact arithmetic. The fast path never takes it. -/
theorem C2_singular_exit_on_general_path (inverse : GeoTransform → ℚ → ℚ → PixelResult)
    (s : MainWindow) (lon lat : ℚ)
    (hview : s.mapView = true ∧ s.mapScene = true) (hlive : s.markersLive = true)
    (hprim : s.primaryUsable = true)
    (hsing : inverse s.gdalGeoTransform lon lat = .singular) :
    jumpToLocationWith inverse s lon lat = (removeCoordinateMarker s, .singularTransform) ∧
    geographicToSceneCoordsWith inverse s lon lat = QPointF.null ∧
    (∀ (g : GeoTransform) (x y : ℚ),
      Binary64.geoToPixel g x y = .singular ↔
        Binary64.isAxisAligned g = false ∧
        Binary64.lt (Binary64.abs (Binary64.det g)) Binary64.eps = true) ∧
    (∀ (g : GeoTransform) (x y : ℚ),
      geoToPixel g x y = .singular ↔ isAxisAligned g = false ∧ |det g| < eps) :=
  ⟨jumpToLocationWith_singular inverse s lon lat hview.1 hview.2 hlive hprim hsing,
    geographicToSceneCoordsWith_singular inverse s lon lat (guard_of_primaryUsable s hprim) hsing,
    binary64_geoToPixel_singular_iff, geoToPixel_singular_iff⟩

/-- C2 witness: the usable primary transform `c1=2, c2=4, c4=1, c5=2` (general
path, computed determinant 0) is rejected by both functions in the double
arithmetic of the code. -/
theorem C2_singular_exit_on_general_path_witness :
    (jumpToLocationWith Binary64.geoToPixel (primaryWindow (gSing 0 0) 100 100) 1 1).2
      = .singularTransform ∧
    geographicToSceneCoordsWith Binary64.geoToPixel (primaryWindow (gSing 0 0) 100 100) 1 1
      = QPointF.null :=
  have h := C2_singular_exit_on_general_path Binary64.geoToPixel
    (primaryWindow (gSing 0 0) 100 100) 1 1 ⟨rfl, rfl⟩ rfl rfl (by decide!)
  ⟨congrArg Prod.snd h.1, h.2.1⟩

/-! ## C3 -/

/-- C3 (the code at the failing input): `loadRasterFile` loads, into a fresh
window, the 100 x 100 GeoTIFF "a" whose transform has `c1=2, c2=4, c4=1, c5=2`
(determinant 0) and makes it the primary raster: the primary flags, the dataset
and the transform are set. The item is stored neither in `geoTIFFItem` nor in
`currentImageItem`, so the guard at 4165 fails, and `jumpToLocation(lon, lat)`
ends, for every `(lon, lat)` and whatever arithmetic computes the inverse, with
the no-data error and not with the singular-transform error. -/
theorem C3_first_load_singular_reports_no_data :
    (loadRasterFile freshWindow (geoRasterFile "a" (gSing 0 0) 100 100)).2 = .loaded ∧
    firstLoadSingularWindow.isGeoTIFFLoaded = true ∧
    firstLoadSingularWindow.hasGeoTransform = true ∧
    firstLoadSingularWindow.gdalDataset.isSome = true ∧
    firstLoadSingularWindow.gdalGeoTransform = gSing 0 0 ∧
    det (gSing 0 0) = 0 ∧
    firstLoadSingularWindow.geoTIFFItem.isSome = false ∧
    firstLoadSingularWindow.currentImageItem.isSome = false ∧
    (∀ (inverse : GeoTransform → ℚ → ℚ → PixelResult) (lon lat : ℚ),
      (jumpToLocationWith inverse firstLoadSingularWindow lon lat).2 = .noImageLoaded) ∧
    (∀ lon lat : ℚ, (jumpToLocation firstLoadSingularWindow lon lat).2 ≠ .singularTransform) := by
  have hjump : ∀ (inverse : GeoTransform → ℚ → ℚ → PixelResult) (lon lat : ℚ),
      (jumpToLocationWith inverse firstLoadSingularWindow lon lat).2 = .noImageLoaded := by
    intro inverse lon lat
    have h := jumpToLocationWith_noImageLoaded inverse firstLoadSingularWindow lon lat
      (by decide!) (by decide!) (by decide!) (by decide!)
      (by
        have hnone : firstLoadSingularWindow.currentImageItem.isSome = false := by decide!
        cases hc : firstLoadSingularWindow.currentImageItem with
        | none => rfl
        | some item => rw [hc] at hnone; exact absurd hnone (by simp))
    rw [h]
  refine ⟨by decide!, by decide!, by decide!, by decide!, by decide!,
    by norm_num [det, gSing], by decide!, by decide!, hjump, ?_⟩
  intro lon lat h
  have h2 := hjump geoToPixel lon lat
  unfold jumpToLocation at h
  rw [h2] at h
  exact absurd h (by decide)

/-! ## C4 -/

/-- C6: whenever `jumpToLocation` resolves through the primary raster (the view
is set up, the marker items are live, the guard at 4165 passes, and the inline
inverse, in whatever arithmetic it is computed, gives the pixel
`(pixelX, pixelY)`), the jump completes at that pixel and its in-bounds flag is
true exactly when both coordinates are finite, `0 <= pixelX < width` and
`0 <= pixelY < height`. -/
theorem C6_inBounds_iff (inverse : GeoTransform → ℚ → ℚ → PixelResult)
    (s : MainWindow) (lon lat : ℚ) (pixelX pixelY : Dbl)
    (hview : s.mapView = true ∧ s.mapScene = true) (hlive : s.markersLive = true)
    (hprim : s.primaryUsable = true)
    (hpix : inverse s.gdalGeoTransform lon lat = .pixel pixelX pixelY) :
    ∃ withinBounds : Bool,
      (jumpToLocationWith inverse s lon lat).2 = .jumped pixelX pixelY withinBounds true ∧
      (withinBounds = true ↔
        ∃ x y : ℚ, pixelX = some x ∧ pixelY = some y ∧
          0 ≤ x ∧ x < (s.geoTIFFSize.width : ℚ) ∧
          0 ≤ y ∧ y < (s.geoTIFFSize.height : ℚ)) := by
  refine ⟨pixelX.inPixelRange s.geoTIFFSize.width && pixelY.inPixelRange s.geoTIFFSize.height,
    ?_, ?_⟩
  · rw [jumpToLocationWith_pixel inverse s lon lat pixelX pixelY hview.1 hview.2 hlive hprim hpix]
  · cases pixelX with
    | none => simp [Dbl.inPixelRange]
    | some x =>
      cases pixelY with
      | none => simp [Dbl.inPixelRange]
      | some y =>
        simp only [Dbl.inPixelRange, Bool.and_eq_true, decide_eq_true_eq, Option.some.injEq]
        constructor
        · rintro ⟨⟨h1, h2⟩, h3, h4⟩
          exact ⟨x, y, rfl, rfl, h1, h2, h3, h4⟩
        · rintro ⟨x2, y2, hx, hy, h1, h2, h3, h4⟩
          subst hx hy
          exact ⟨⟨h1, h2⟩, h3, h4⟩

/-- C6 witness: the 100 x 100 primary raster with `c = (0, 0.1, 0, 50, 0, -0.5)`,
jumping to `(10, 25)`. In the double arithmetic of the code the pixel is
`(100, 50)` and the flag is false; in exact arithmetic the first coordinate is
`10 / 0.1 < 100`, for the double `0.1`, and the flag is true. -/
theorem C6_inBounds_iff_witness :
    (jumpToLocationWith Binary64.geoToPixel (primaryWindow gEdge 100 100) 10 25).2
      = .jumped (some 100) (some 50) false true ∧
    (jumpToLocation (primaryWindow gEdge 100 100) 10 25).2
      = .jumped (some (360287970189639680 / 3602879701896397)) (some 50) true true := by
  obtain ⟨withinBounds, hjump, hiff⟩ :=
    C6_inBounds_iff Binary64.geoToPixel (primaryWindow gEdge 100 100) 10 25 (some 100) (some 50)
      ⟨rfl, rfl⟩ rfl rfl (by decide!)
  have hflag : withinBounds = false := by
    rw [← Bool.not_eq_true]
    intro h
    obtain ⟨x, y, hx, _, _, hlt, _, _⟩ := hiff.mp h
    injection hx with hx
    subst hx
    norm_num [primaryWindow] at hlt
  rw [hflag] at hjump
  exact ⟨hjump, by decide!⟩

/-! ## C7 -/

/-- C7 (the code at the failing input): `loadRasterFile` has loaded the 100 x 100
GeoTIFF "a" with the non-singular transform `gAxis` into a fresh window and made
it the primary raster. The inverse pixel of `(1000, 1000)` is `(1980, -1900)`,
outside the image, in exact and in double arithmetic. `jumpToLocation(1000,
1000)` does not complete with an out-of-bounds result: the guard at 4165 fails
because `geoTIFFItem` was never stored, and the call ends with the no-data
error, with no scene point and no marker. -/
theorem C7_first_load_out_of_bounds_fails :
    firstLoadWindow.isGeoTIFFLoaded = true ∧
    firstLoadWindow.hasGeoTransform = true ∧
    firstLoadWindow.gdalDataset.isSome = true ∧
    firstLoadWindow.gdalGeoTransform = gAxis ∧
    firstLoadWindow.geoTIFFSize = ⟨100, 100⟩ ∧
    eps ≤ |det gAxis| ∧
    geoToPixel gAxis 1000 1000 = .pixel (some 1980) (some (-1900)) ∧
    Binary64.geoToPixel gAxis 1000 1000 = .pixel (some 1980) (some (-1900)) ∧
    (∀ inverse : GeoTransform → ℚ → ℚ → PixelResult,
      (jumpToLocationWith inverse firstLoadWindow 1000 1000).2 = .noImageLoaded ∧
      (jumpToLocationWith inverse firstLoadWindow 1000 1000).1.coordinateMarker = none) := by
  refine ⟨by decide!, by decide!, by decide!, by decide!, by decide!, by decide!, by decide!,
    by decide!, ?_⟩
  intro inverse
  have h := jumpToLocationWith_noImageLoaded inverse firstLoadWindow 1000 1000
    (by decide!) (by decide!) (by decide!) (by decide!)
    (by
      have hnone : firstLoadWindow.currentImageItem.isSome = false := by decide!
      cases hc : firstLoadWindow.currentImageItem with
      | none => rfl
      | some item => rw [hc] at hnone; exact absurd hnone (by simp))
  rw [h]
  exact ⟨rfl, by decide!⟩

/-! ## C8 -/

/-- C8 (the code at the failing input): on a plain 100 x 100 image
`jumpToLocation(10, 10)` places its marker; `clearCurrentImage` then clears the
scene, deleting the marker items, and leaves `coordinateMarker`,
`coordinateTextItem` and `currentCrosshairItems` pointing to them. Now neither
a primary raster nor a plain image is present, but a further `jumpToLocation`
does not end with the no-data error: for every `(lon, lat)` the marker removal
at 4157 frees the deleted items again, which is undefined behaviour, before the
no-data exit is reached. -/
theorem C8_jump_after_clear_is_undefined :
    (jumpToLocation (plainWindow 100 100) 10 10).2 = .jumped (some 10) (some 10) true false ∧
    clearedAfterJumpWindow.primaryUsable = false ∧
    clearedAfterJumpWindow.isGeoTIFFLoaded = false ∧
    clearedAfterJumpWindow.currentImageItem.isSome = false ∧
    clearedAfterJumpWindow.coordinateMarker = some (.ellipse (some (-10)) (some (-10)) 40 40) ∧
    clearedAfterJumpWindow.currentCrosshairItems.length = 6 ∧
    clearedAfterJumpWindow.markerDeleted = true ∧
    clearedAfterJumpWindow.crosshairDeleted = true ∧
    (∀ (inverse : GeoTransform → ℚ → ℚ → PixelResult) (lon lat : ℚ),
      (jumpToLocationWith inverse clearedAfterJumpWindow lon lat).2 = .undefinedBehaviour) ∧
    (∀ lon lat : ℚ, (jumpToLocation clearedAfterJumpWindow lon lat).2 ≠ .noImageLoaded) := by
  have hjump : ∀ (inverse : GeoTransform → ℚ → ℚ → PixelResult) (lon lat : ℚ),
      (jumpToLocationWith inverse clearedAfterJumpWindow lon lat).2 = .undefinedBehaviour :=
    fun inverse lon lat => jumpToLocationWith_stale inverse clearedAfterJumpWindow lon lat
      (by decide!) (by decide!) (by decide!)
  refine ⟨by decide!, by decide!, by decide!, by decide!, by decide!, by decide!, by decide!,
    by decide!, hjump, ?_⟩
  intro lon lat h
  have h2 := hjump geoToPixel lon lat
  unfold jumpToLocation at h
  rw [h2] at h
  exact absurd h (by decide)

/-! ## C9 -/

/-- C9 (the code at the failing input): with no primary raster and a plain
100 x 100 image, `jumpToLocation(100, 50)` and `jumpToLocation(100, 100)` use
`(lon, lat)` unchanged as the scene point and report it within bounds, although
`100` is not below the width `100`: the plain-image test uses `<=` on the right
and bottom edges. -/
theorem C9_plain_image_edge_reported_inside :
    (jumpToLocation (plainWindow 100 100) 100 50).2
      = .jumped (some 100) (some 50) true false ∧
    (jumpToLocation (plainWindow 100 100) 100 100).2
      = .jumped (some 100) (some 100) true false ∧
    ¬ ((100 : ℚ) < (originItem 100 100).boundingRect.width) := by
  refine ⟨?_, ?_, ?_⟩
  · decide!
  · decide!
  · norm_num [originItem]

/-! ## C10 -/

/-- C14 (the code at the failing input): after `loadRasterFile` has loaded one
plain image (no geo information) into a fresh window, no primary raster is
usable and the only registered raster has no transform; yet
`geographicToSceneCoords(35, 25)` does not return the empty point: the fallback
runs because the registry is not empty, and with its bounds still at
`±DBL_MAX` both coordinates overflow to non-finite values. With nothing loaded
the empty point is returned. -/
theorem C14_fallback_without_any_transform :
    ((loadRasterFile freshWindow (plainRasterFile "photo" 100 100)).1.georeferencedImagesInfo.map
      (fun info => info.hasTransform)) = [false] ∧
    (loadRasterFile freshWindow (plainRasterFile "photo" 100 100)).1.isGeoTIFFLoaded = false ∧
    geographicToSceneCoords
      (loadRasterFile freshWindow (plainRasterFile "photo" 100 100)).1 35 25 = ⟨none, none⟩ ∧
    geographicToSceneCoords freshWindow 35 25 = QPointF.null := by
  have hload : (loadRasterFile freshWindow (plainRasterFile "photo" 100 100)).1 =
      { freshWindow with
        georeferencedImagesInfo := [plainEntry 100 100]
        loadedLayers := [⟨"photo", .raster, some (originItem 100 100)⟩] } := by
    simp [loadRasterFile, freshWindow, plainRasterFile, plainEntry]
  refine ⟨?_, ?_, ?_, ?_⟩
  · rw [hload]; rfl
  · rw [hload]; rfl
  · rw [hload]
    simp only [geographicToSceneCoords, freshWindow, scanRegistry, tryEntry, plainEntry,
      geoBounds]
    norm_num [toDbl, dblMax, abs_le]
  · simp [geographicToSceneCoords, freshWindow, scanRegistry, QPointF.null]

/-! ## C15 -/

/-- After the first item the loop unites each further bounding rectangle. -/
theorem combineLayerBounds_later (layers : List LayerInfo) (acc : QRectF) :
    (combineLayerBounds layers (acc, false)).1 = (layerRects layers).foldl QRectF.united acc := by
  induction layers generalizing acc with
  | nil => rfl
  | cons layer rest ih =>
    cases hitem : layer.graphicsItem with
    | none =>
      simp only [combineLayerBounds, hitem, layerRects, List.filterMap_cons, Option.map_none']
      exact ih acc
    | some item =>
      simp only [combineLayerBounds, hitem, layerRects, List.filterMap_cons, Option.map_some',
        List.foldl_cons, Bool.false_eq_true, if_false]
      exact ih _

/-- The loop of the extent computation computes the union of the layer
rectangles. -/
theorem combineLayerBounds_union (layers : List LayerInfo) :
    (combineLayerBounds layers (⟨0, 0, 0, 0⟩, true)).1 = unionOfRects (layerRects layers) := by
  induction layers with
  | nil => rfl
  | cons layer rest ih =>
    cases hitem : layer.graphicsItem with
    | none =>
      simp only [combineLayerBounds, hitem, layerRects, List.filterMap_cons, Option.map_none']
      exact ih
    | some item =>
      simp only [combineLayerBounds, hitem, layerRects, List.filterMap_cons, Option.map_some',
        if_true, unionOfRects]
      exact combineLayerBounds_later rest item.boundingRect

/-- The branches of `updateExtentsDisplay`, in their order. (1) With a usable
primary raster (the four members of the guard at 3982 set) the result is the
geographic extent, whatever image or layers are also present. (2) Otherwise, with a current image item, it is the
scene extent `(0,0)-(width,height)` of that image, whatever layers are present.
(3) Otherwise, with loaded layers, it is the union of the bounding rectangles
of their items ("No bounds" when that union is empty). (4) Otherwise it is the
empty "No data loaded" result. -/
theorem updateExtentsDisplay_branches (s : MainWindow) :
    (s.primaryUsable = true →
      updateExtentsDisplay s =
        .geographic s.gdalGeoTransform.c0 s.gdalGeoTransform.c3
          (forward s.gdalGeoTransform s.geoTIFFSize.width s.geoTIFFSize.height).1
          (forward s.gdalGeoTransform s.geoTIFFSize.width s.geoTIFFSize.height).2) ∧
    (s.primaryUsable = false → ∀ item, s.currentImageItem = some item →
      updateExtentsDisplay s = .scene item.boundingRect.width item.boundingRect.height) ∧
    (s.primaryUsable = false → s.currentImageItem = none → s.loadedLayers ≠ [] →
      updateExtentsDisplay s =
        if (unionOfRects (layerRects s.loadedLayers)).isEmpty then .noBounds
        else .layers (unionOfRects (layerRects s.loadedLayers))) ∧
    (s.primaryUsable = false → s.currentImageItem = none → s.loadedLayers = [] →
      updateExtentsDisplay s = .noData) := by
  have hguard : (s.isGeoTIFFLoaded && s.gdalDataset.isSome && s.hasGeoTransform
      && s.geoTIFFItem.isSome) = s.primaryUsable := by
    unfold MainWindow.primaryUsable
    cases s.isGeoTIFFLoaded <;> cases s.gdalDataset.isSome <;> cases s.hasGeoTransform <;> rfl
  refine ⟨?_, ?_, ?_, ?_⟩
  · intro hprim
    simp only [updateExtentsDisplay, hguard, hprim, if_true, forward]
  · intro hprim item himg
    simp only [updateExtentsDisplay, hguard, hprim, himg, Bool.false_eq_true, if_false]
  · intro hprim himg hlayers
    have hne : s.loadedLayers.isEmpty = false := by
      cases hl : s.loadedLayers with
      | nil => exact absurd hl hlayers
      | cons a b => rfl
    simp only [updateExtentsDisplay, hguard, hprim, himg, hne, combineLayerBounds_union,
      Bool.false_eq_true, if_false, Bool.not_false, if_true]
    cases (unionOfRects (layerRects s.loadedLayers)).isEmpty <;> simp
  · intro hprim himg hlayers
    simp only [updateExtentsDisplay, hguard, hprim, himg, hlayers, List.isEmpty_nil,
      Bool.false_eq_true, if_false, Bool.not_true]

/-- Examples of the branches: a usable primary raster together with a current
image item gives the geographic extent `TL(10, 50) BR(60, 0)`; a plain
100 x 100 image together with a vector layer gives the scene extent of the
image; two vector layers alone give the union of their rectangles. -/
theorem updateExtentsDisplay_branches_examples :
    updateExtentsDisplay (primaryWindow gAxis 100 100) = .geographic 10 50 60 0 ∧
    updateExtentsDisplay imageAndLayerWindow = .scene 100 100 ∧
    updateExtentsDisplay twoLayerWindow = .layers ⟨0, 5, 15, 15⟩ := by
  refine ⟨?_, ?_, ?_⟩
  · rw [(updateExtentsDisplay_branches (primaryWindow gAxis 100 100)).1 rfl]
    norm_num [primaryWindow, forward, gAxis]
  · rw [(updateExtentsDisplay_branches imageAndLayerWindow).2.1 rfl (originItem 100 100) rfl]
    rfl
  · rw [(updateExtentsDisplay_branches twoLayerWindow).2.2.1 rfl rfl (by simp [twoLayerWindow])]
    have hu : unionOfRects (layerRects twoLayerWindow.loadedLayers) = ⟨0, 5, 15, 15⟩ := by
      simp only [twoLayerWindow, layerRects, vectorLayer, List.filterMap_cons, Option.map_some',
        List.filterMap_nil, unionOfRects, List.foldl_cons, List.foldl_nil]
      norm_num [QRectF.united, QRectF.isNull]
    rw [hu]
    norm_num [QRectF.isEmpty]

/-- C15 (the code at the failing input): `loadRasterFile` has loaded the
100 x 100 GeoTIFF "a" with the transform `gAxis` into a fresh window and made
it the primary raster, with its flags, dataset, transform and size set.
`updateExtentsDisplay` does not report the geographic extent of that raster:
its guard at 3982 also asks for `geoTIFFItem`, which the load never stored, no
current image item is set, and the result is the scene rectangle
`(0, 0)-(100, 100)` of the layer list, the third source of the priority order.
`getCurrentExtentsString`, whose guard at 4977 asks for the two flags only,
reports the geographic extent `TL(10, 50) BR(60, 0)` in the same state. -/
theorem C15_first_load_extent_not_geographic :
    firstLoadWindow.isGeoTIFFLoaded = true ∧
    firstLoadWindow.hasGeoTransform = true ∧
    firstLoadWindow.gdalDataset.isSome = true ∧
    firstLoadWindow.gdalGeoTransform = gAxis ∧
    firstLoadWindow.geoTIFFSize = ⟨100, 100⟩ ∧
    firstLoadWindow.geoTIFFItem.isSome = false ∧
    updateExtentsDisplay firstLoadWindow = .layers ⟨0, 0, 100, 100⟩ ∧
    getCurrentExtentsString firstLoadWindow = .geographic 10 50 60 0 := by
  refine ⟨?_, ?_, ?_, ?_, ?_, ?_, ?_, ?_⟩ <;> decide!

/-! ## C16 -/

/-- C16: in a session with no primary raster flagged loaded, no current image
item and no loaded layers, the extent computation returns the empty
"No data loaded" result, which carries no coordinates; `getCurrentExtentsString`
likewise returns its empty result. -/
theorem C16_empty_extent (s : MainWindow)
    (hnoprim : s.isGeoTIFFLoaded = false) (hnoimg : s.currentImageItem = none)
    (hnolayers : s.loadedLayers = []) :
    updateExtentsDisplay s = .noData ∧ getCurrentExtentsString s = .noData := by
  constructor
  · simp only [updateExtentsDisplay, hnoprim, hnoimg, hnolayers, Bool.false_and,
      List.isEmpty_nil, Bool.false_eq_true, if_false, Bool.not_true]
  · simp only [getCurrentExtentsString, hnoprim, hnoimg, Bool.false_and, Bool.false_eq_true,
      if_false]

/-- C16 witness: the window as constructed, with its view set up. -/
theorem C16_empty_extent_witness :
    updateExtentsDisplay freshWindow = .noData ∧ getCurrentExtentsString freshWindow = .noData :=
  C16_empty_extent freshWindow rfl rfl rfl

/-! ## C17 -/

/-- C17 (as stated, refuted): for the usable primary raster with transform
`c = (0, 1, -0.5, 0, 0.5, 1)` and size 100 x 100 the reported extent is
`TL(0, 0) BR(50, 150)`, the images of the corners `(0,0)` and `(100,100)`; the
transformed corner `forward(100, 0) = (100, 50)` lies outside the rectangle
these two points span. -/
theorem C17_corner_outside_reported_extent :
    updateExtentsDisplay (primaryWindow gShear 100 100) = .geographic 0 0 50 150 ∧
    forward gShear 100 0 = (100, 50) ∧
    ¬ inSpan 0 0 50 150 (forward gShear 100 0) := by
  have hf : forward gShear 100 0 = (100, 50) := by norm_num [forward, gShear]
  refine ⟨?_, hf, ?_⟩
  · simp only [updateExtentsDisplay, primaryWindow]
    norm_num [gShear]
  · rw [hf]
    unfold inSpan
    norm_num

/-- C17 (amended): for every usable primary raster the reported top-left is
`forward(0, 0)` and the reported bottom-right is `forward(W, H)`; no minimum or
maximum over the four corners is taken. When `c2 = 0` and `c4 = 0` (either
sign of `c1` and `c5`, any `W`, `H`) each of the four forward-transformed
corners lies in the rectangle spanned by the two reported points, and
`getCurrentExtentsString` reports the same two points. -/
theorem C17_extent_is_two_corners (s : MainWindow) (hprim : s.primaryUsable = true) :
    updateExtentsDisplay s =
      .geographic (forward s.gdalGeoTransform 0 0).1 (forward s.gdalGeoTransform 0 0).2
        (forward s.gdalGeoTransform s.geoTIFFSize.width s.geoTIFFSize.height).1
        (forward s.gdalGeoTransform s.geoTIFFSize.width s.geoTIFFSize.height).2 ∧
    (s.gdalGeoTransform.c2 = 0 → s.gdalGeoTransform.c4 = 0 →
      getCurrentExtentsString s = updateExtentsDisplay s ∧
      ∀ corner ∈ [forward s.gdalGeoTransform 0 0,
          forward s.gdalGeoTransform s.geoTIFFSize.width 0,
          forward s.gdalGeoTransform 0 s.geoTIFFSize.height,
          forward s.gdalGeoTransform s.geoTIFFSize.width s.geoTIFFSize.height],
        inSpan (forward s.gdalGeoTransform 0 0).1 (forward s.gdalGeoTransform 0 0).2
          (forward s.gdalGeoTransform s.geoTIFFSize.width s.geoTIFFSize.height).1
          (forward s.gdalGeoTransform s.geoTIFFSize.width s.geoTIFFSize.height).2 corner) := by
  have hp := hprim
  simp only [MainWindow.primaryUsable, Bool.and_eq_true] at hp
  obtain ⟨⟨⟨h1, h2⟩, h3⟩, h4⟩ := hp
  have hext : updateExtentsDisplay s =
      .geographic (forward s.gdalGeoTransform 0 0).1 (forward s.gdalGeoTransform 0 0).2
        (forward s.gdalGeoTransform s.geoTIFFSize.width s.geoTIFFSize.height).1
        (forward s.gdalGeoTransform s.geoTIFFSize.width s.geoTIFFSize.height).2 := by
    simp only [updateExtentsDisplay, h1, h2, h3, h4, Bool.and_self, if_true, forward]
    norm_num
  refine ⟨hext, ?_⟩
  intro hc2 hc4
  constructor
  · rw [hext]
    simp only [getCurrentExtentsString, h1, h2, Bool.and_self, if_true, forward, hc2, hc4]
    norm_num
  · intro corner hmem
    simp only [List.mem_cons, List.mem_singleton, List.not_mem_nil, or_false] at hmem
    rcases hmem with h | h | h | h <;> subst h <;>
      simp [inSpan, forward, hc2, hc4]

/-- C17 witness: the axis-aligned scenario raster (negative `c5`): the extent
is `TL(10, 50) BR(60, 0)` and the corner `forward(100, 0) = (60, 50)` lies in
the rectangle spanned by the two reported points. -/
theorem C17_extent_is_two_corners_witness :
    updateExtentsDisplay (primaryWindow gAxis 100 100) = .geographic 10 50 60 0 ∧
    inSpan 10 50 60 0 (60, 50) := by
  have h := C17_extent_is_two_corners (primaryWindow gAxis 100 100) rfl
  have hf00 : forward (primaryWindow gAxis 100 100).gdalGeoTransform 0 0 = (10, 50) := by
    norm_num [primaryWindow, forward, gAxis]
  have hfWH : forward (primaryWindow gAxis 100 100).gdalGeoTransform
      (primaryWindow gAxis 100 100).geoTIFFSize.width
      (primaryWindow gAxis 100 100).geoTIFFSize.height = (60, 0) := by
    norm_num [primaryWindow, forward, gAxis]
  have hfW0 : forward (primaryWindow gAxis 100 100).gdalGeoTransform
      (primaryWindow gAxis 100 100).geoTIFFSize.width 0 = (60, 50) := by
    norm_num [primaryWindow, forward, gAxis]
  have h2 := (h.2 rfl rfl).2 _ (List.mem_cons_of_mem _ (List.mem_cons_self _ _))
  rw [hf00, hfWH, hfW0] at h2
  have h1 := h.1
  rw [hf00, hfWH] at h1
  exact ⟨h1, h2⟩

/-! ## C18 -/

/-- Once `isGeoTIFFLoaded` is set, `loadRasterFile` leaves the primary members
as they are, whatever the file. -/
theorem loadRasterFile_keeps_primary (s : MainWindow) (f : RasterFile)
    (hloaded : s.isGeoTIFFLoaded = true) :
    (loadRasterFile s f).1.isGeoTIFFLoaded = true ∧
    (loadRasterFile s f).1.hasGeoTransform = s.hasGeoTransform ∧
    (loadRasterFile s f).1.gdalGeoTransform = s.gdalGeoTransform ∧
    (loadRasterFile s f).1.geoTIFFSize = s.geoTIFFSize ∧
    (loadRasterFile s f).1.gdalDataset = s.gdalDataset := by
  unfold loadRasterFile
  cases f.pixmap with
  | none => exact ⟨hloaded, rfl, rfl, rfl, rfl⟩
  | some size =>
    simp only [hloaded, Bool.not_true, Bool.and_false, Bool.false_eq_true, if_false]
    split <;> simp [hloaded]

/-- A sequence of `loadRasterFile` calls keeps the primary members once
`isGeoTIFFLoaded` is set. -/
theorem loadAll_keeps_primary (files : List RasterFile) (s : MainWindow)
    (hloaded : s.isGeoTIFFLoaded = true) :
    (loadAll s files).isGeoTIFFLoaded = true ∧
    (loadAll s files).gdalGeoTransform = s.gdalGeoTransform ∧
    (loadAll s files).geoTIFFSize = s.geoTIFFSize := by
  induction files generalizing s with
  | nil => exact ⟨hloaded, rfl, rfl⟩
  | cons f rest ih =>
    obtain ⟨h1, _, h3, h4, _⟩ := loadRasterFile_keeps_primary s f hloaded
    obtain ⟨i1, i2, i3⟩ := ih (loadRasterFile s f).1 h1
    exact ⟨i1, i2.trans h3, i3.trans h4⟩

/-- The first georeferenced `loadRasterFile` of a session writes the primary
members from the file. -/
theorem loadRasterFile_sets_primary (s : MainWindow) (f : RasterFile) (size : QSize)
    (hfresh : s.isGeoTIFFLoaded = false) (hf : f.georeferencedFor s size) :
    (loadRasterFile s f).2 = .loaded ∧
    (loadRasterFile s f).1.isGeoTIFFLoaded = true ∧
    (loadRasterFile s f).1.hasGeoTransform = true ∧
    (loadRasterFile s f).1.gdalGeoTransform = f.transform ∧
    (loadRasterFile s f).1.geoTIFFSize = size ∧
    (loadRasterFile s f).1.gdalDataset = f.dataset := by
  obtain ⟨hpix, hclash, htif, hds, hok⟩ := hf
  unfold loadRasterFile
  simp only [hpix, hclash, htif, hds, hok, hfresh, Bool.not_false, Bool.and_self,
    Bool.false_eq_true, if_false, if_true, Bool.and_true, Bool.true_and]
  split <;> simp

/-- A call of `loadRasterFile` leaves the scene and view pointers as they are. -/
theorem loadRasterFile_view (s : MainWindow) (f : RasterFile) :
    (loadRasterFile s f).1.mapView = s.mapView ∧
    (loadRasterFile s f).1.mapScene = s.mapScene := by
  unfold loadRasterFile
  cases f.pixmap with
  | none => exact ⟨rfl, rfl⟩
  | some size =>
    simp only
    split
    · exact ⟨rfl, rfl⟩
    · split <;> split <;> exact ⟨rfl, rfl⟩

/-- A successful `onOpenGeoTIFF` overwrites the primary members with those of
the opened file, whatever they were. -/
theorem onOpenGeoTIFF_replaces_primary (s : MainWindow) (f : GeoTIFFFile)
    (hf : f.opens) (hscene : s.mapScene = true) :
    (onOpenGeoTIFF s f).2 = .opened ∧
    (onOpenGeoTIFF s f).1.isGeoTIFFLoaded = true ∧
    (onOpenGeoTIFF s f).1.hasGeoTransform = f.transformOk ∧
    (onOpenGeoTIFF s f).1.gdalGeoTransform = f.transform ∧
    (onOpenGeoTIFF s f).1.geoTIFFSize = f.size ∧
    (onOpenGeoTIFF s f).1.gdalDataset = f.dataset := by
  obtain ⟨hchosen, hds, hbands, himg, hpix⟩ := hf
  unfold onOpenGeoTIFF
  cases hd : f.dataset with
  | none => rw [hd] at hds; exact absurd hds (by simp)
  | some ds =>
    simp only [hchosen, not_lt.mpr hbands, himg, hpix, hscene, Bool.not_true,
      Bool.false_eq_true, if_false, if_true]
    split <;> simp [MainWindow.sceneCleared]

/-- C18 (as stated, refuted): `loadRasterFile` loads the georeferenced raster
"a" (transform `gAxis`, 100 x 100) into a fresh window, making it primary; with
no clear in between, `onOpenGeoTIFF` then opens "b" (transform `gRot`,
50 x 50) successfully, and the primary transform and size are those of "b". -/
theorem C18_onOpenGeoTIFF_replaces_primary :
    firstLoadWindow.gdalGeoTransform = gAxis ∧
    firstLoadWindow.geoTIFFSize = ⟨100, 100⟩ ∧
    (onOpenGeoTIFF firstLoadWindow (geoTIFFFile "b" gRot 50 50)).2 = .opened ∧
    (onOpenGeoTIFF firstLoadWindow (geoTIFFFile "b" gRot 50 50)).1.gdalGeoTransform = gRot ∧
    (onOpenGeoTIFF firstLoadWindow (geoTIFFFile "b" gRot 50 50)).1.geoTIFFSize = ⟨50, 50⟩ ∧
    gRot ≠ gAxis := by
  have hfirst := loadRasterFile_sets_primary freshWindow (geoRasterFile "a" gAxis 100 100)
    ⟨100, 100⟩ rfl ⟨rfl, rfl, rfl, rfl, rfl⟩
  have hscene : firstLoadWindow.mapScene = true :=
    (loadRasterFile_view freshWindow (geoRasterFile "a" gAxis 100 100)).2
  have hopen := onOpenGeoTIFF_replaces_primary firstLoadWindow (geoTIFFFile "b" gRot 50 50)
    ⟨rfl, rfl, by norm_num [geoTIFFFile], rfl, rfl⟩ hscene
  refine ⟨hfirst.2.2.2.1, hfirst.2.2.2.2.1, hopen.1, hopen.2.2.2.1, hopen.2.2.2.2.1, ?_⟩
  intro h
  have h1 : gRot.c1 = gAxis.c1 := by rw [h]
  norm_num [gRot, gAxis] at h1

/-- C18 (amended): starting from a session without a primary raster, after
`loadRasterFile` has loaded a georeferenced raster, every later sequence of
`loadRasterFile` calls leaves the primary transform and size those of that
first raster. `onOpenGeoTIFF`, in contrast, overwrites the primary transform
and size on every successful call. After `clearAllImages` the primary flag is
reset and the next georeferenced raster loaded by `loadRasterFile` gives the
primary transform and size. -/
theorem C18_primary_kept_by_loadRasterFile (s : MainWindow) (f : RasterFile) (size : QSize)
    (later : List RasterFile)
    (hfresh : s.isGeoTIFFLoaded = false) (hf : f.georeferencedFor s size) :
    (loadAll (loadRasterFile s f).1 later).isGeoTIFFLoaded = true ∧
    (loadAll (loadRasterFile s f).1 later).gdalGeoTransform = f.transform ∧
    (loadAll (loadRasterFile s f).1 later).geoTIFFSize = size ∧
    (∀ g : GeoTIFFFile, g.opens → s.mapScene = true →
      (onOpenGeoTIFF (loadAll (loadRasterFile s f).1 later) g).1.gdalGeoTransform = g.transform ∧
      (onOpenGeoTIFF (loadAll (loadRasterFile s f).1 later) g).1.geoTIFFSize = g.size) ∧
    (clearAllImages (loadAll (loadRasterFile s f).1 later)).isGeoTIFFLoaded = false ∧
    (∀ (f2 : RasterFile) (size2 : QSize),
      f2.georeferencedFor (clearAllImages (loadAll (loadRasterFile s f).1 later)) size2 →
      (loadRasterFile (clearAllImages (loadAll (loadRasterFile s f).1 later)) f2).1.gdalGeoTransform
        = f2.transform ∧
      (loadRasterFile (clearAllImages (loadAll (loadRasterFile s f).1 later)) f2).1.geoTIFFSize
        = size2) := by
  obtain ⟨_, h1, _, h3, h4, _⟩ := loadRasterFile_sets_primary s f size hfresh hf
  obtain ⟨k1, k2, k3⟩ := loadAll_keeps_primary later (loadRasterFile s f).1 h1
  have hscene : ∀ (files : List RasterFile) (st : MainWindow),
      (loadAll st files).mapScene = st.mapScene := by
    intro files
    induction files with
    | nil => intro st; rfl
    | cons a rest ih =>
      intro st
      exact (ih (loadRasterFile st a).1).trans (loadRasterFile_view st a).2
  refine ⟨k1, k2.trans h3, k3.trans h4, ?_, rfl, ?_⟩
  · intro g hg hsc
    have hsc2 : (loadAll (loadRasterFile s f).1 later).mapScene = true := by
      rw [hscene later, (loadRasterFile_view s f).2, hsc]
    obtain ⟨_, _, _, o4, o5, _⟩ := onOpenGeoTIFF_replaces_primary _ g hg hsc2
    exact ⟨o4, o5⟩
  · intro f2 size2 hf2
    obtain ⟨_, _, _, p4, p5, _⟩ := loadRasterFile_sets_primary _ f2 size2 rfl hf2
    exact ⟨p4, p5⟩

/-- C18 witness: into a fresh window `loadRasterFile` loads "a" (`gAxis`,
100 x 100), then "b" (`gRot`, 50 x 50) and a plain image "c": the primary
transform and size are still those of "a". -/
theorem C18_primary_kept_by_loadRasterFile_witness :
    (loadAll (loadRasterFile freshWindow (geoRasterFile "a" gAxis 100 100)).1
      [geoRasterFile "b" gRot 50 50, plainRasterFile "c" 20 20]).gdalGeoTransform = gAxis ∧
    (loadAll (loadRasterFile freshWindow (geoRasterFile "a" gAxis 100 100)).1
      [geoRasterFile "b" gRot 50 50, plainRasterFile "c" 20 20]).geoTIFFSize = ⟨100, 100⟩ :=
  have h := C18_primary_kept_by_loadRasterFile freshWindow (geoRasterFile "a" gAxis 100 100)
    ⟨100, 100⟩ [geoRasterFile "b" gRot 50 50, plainRasterFile "c" 20 20] rfl
    ⟨rfl, rfl, rfl, rfl, rfl⟩
  ⟨h.2.1, h.2.2.1⟩

/-! ## C19 -/

/-- With no primary item and an empty registry `geographicToSceneCoords`
returns the empty point for every input: the primary step has no item to map
through, the loop has no entry, and the fallback is not taken. -/
theorem geographicToSceneCoords_null_of_no_item (s : MainWindow) (lon lat : ℚ)
    (hitem : s.geoTIFFItem = none) (hreg : s.georeferencedImagesInfo = []) :
    geographicToSceneCoords s lon lat = QPointF.null := by
  unfold geographicToSceneCoords
  simp only [hitem, hreg, scanRegistry, List.isEmpty_nil, Bool.not_true, Bool.false_eq_true,
    if_false]
  split
  · rename_i r hr
    split at hr
    · split at hr
      · injection hr with hr
        exact hr.symm
      · exact absurd hr (by simp)
    · exact absurd hr (by simp)
  · rfl

/-- In a session with no primary raster and an empty registry, `loadRasterFile`
never stores the new item in `geoTIFFItem` or `currentImageItem`: the position
it asks `geographicToSceneCoords` for is always the null point, so the branch
at 2452-2462 is skipped. -/
theorem loadRasterFile_first_load_item_unset (s : MainWindow) (f : RasterFile)
    (hitem : s.geoTIFFItem = none) (hreg : s.georeferencedImagesInfo = []) :
    (loadRasterFile s f).1.geoTIFFItem = none ∧
    (loadRasterFile s f).1.currentImageItem = s.currentImageItem := by
  have hnull : ∀ s1 : MainWindow, s1.geoTIFFItem = none → s1.georeferencedImagesInfo = [] →
      (geographicToSceneCoords s1 f.transform.c0 f.transform.c3).isNull = true := by
    intro s1 h1 h2
    rw [geographicToSceneCoords_null_of_no_item s1 _ _ h1 h2]
    rfl
  unfold loadRasterFile
  cases f.pixmap with
  | none => exact ⟨hitem, rfl⟩
  | some size =>
    simp only
    split
    · exact ⟨hitem, rfl⟩
    · by_cases hmain : (f.isGeoTIFF && f.dataset.isSome && f.transformOk
          && !s.isGeoTIFFLoaded) = true
      · simp only [hmain, if_true]
        rw [hnull _ (id hitem : ({ s with
          isGeoTIFFLoaded := true
          hasGeoTransform := true
          gdalGeoTransform := f.transform
          geoTIFFSize := size
          gdalDataset := f.dataset } : MainWindow).geoTIFFItem = none) hreg]
        simp [hitem]
      · simp only [hmain, Bool.false_eq_true, if_false]
        rw [hnull s hitem hreg]
        simp [hitem]

/-- With live marker items, without a usable primary raster and without a
current image item, `jumpToLocation` ends with the no-data error. -/
theorem jumpToLocation_noImageLoaded (s : MainWindow) (lon lat : ℚ)
    (hview : s.mapView = true) (hscene : s.mapScene = true) (hlive : s.markersLive = true)
    (hnoprim : s.primaryUsable = false) (hnoimg : s.currentImageItem = none) :
    (jumpToLocation s lon lat).2 = .noImageLoaded := by
  unfold jumpToLocation
  rw [jumpToLocationWith_noImageLoaded geoToPixel s lon lat hview hscene hlive hnoprim hnoimg]

/-- C19 (the code at the failing input): `loadRasterFile` successfully loads
the 100 x 100 GeoTIFF "a" with the non-singular transform `gAxis` into a fresh
window. The primary flags, transform and size are set from it, but the item is
stored neither in `geoTIFFItem` nor in `currentImageItem`, so the primary
raster is not usable and `jumpToLocation(35, 25)` ends with the no-data error
instead of resolving the pixel `(50, 50)`. -/
theorem C19_first_load_primary_not_usable :
    (loadRasterFile freshWindow (geoRasterFile "a" gAxis 100 100)).2 = .loaded ∧
    eps ≤ |det gAxis| ∧
    firstLoadWindow.isGeoTIFFLoaded = true ∧
    firstLoadWindow.gdalGeoTransform = gAxis ∧
    firstLoadWindow.geoTIFFItem.isSome = false ∧
    firstLoadWindow.currentImageItem.isSome = false ∧
    firstLoadWindow.primaryUsable = false ∧
    geoToPixel firstLoadWindow.gdalGeoTransform 35 25 = .pixel (some 50) (some 50) ∧
    (jumpToLocation firstLoadWindow 35 25).2 = .noImageLoaded := by
  have hfirst := loadRasterFile_sets_primary freshWindow (geoRasterFile "a" gAxis 100 100)
    ⟨100, 100⟩ rfl ⟨rfl, rfl, rfl, rfl, rfl⟩
  have hunset := loadRasterFile_first_load_item_unset freshWindow
    (geoRasterFile "a" gAxis 100 100) rfl rfl
  have hview := loadRasterFile_view freshWindow (geoRasterFile "a" gAxis 100 100)
  have hitem : firstLoadWindow.geoTIFFItem = none := hunset.1
  have himg : firstLoadWindow.currentImageItem = none := hunset.2
  have hg : firstLoadWindow.gdalGeoTransform = gAxis := hfirst.2.2.2.1
  have hnoprim : firstLoadWindow.primaryUsable = false := by
    unfold MainWindow.primaryUsable
    rw [hitem]
    simp
  refine ⟨hfirst.1, by norm_num [det, gAxis, eps, le_abs], hfirst.2.1, hg, ?_, ?_, hnoprim,
    ?_, ?_⟩
  · rw [hitem]; rfl
  · rw [himg]; rfl
  · rw [hg]
    norm_num [geoToPixel, isAxisAligned, fastPath, fdiv, gAxis, eps]
  · exact jumpToLocation_noImageLoaded firstLoadWindow 35 25 hview.1 hview.2 (by decide!)
      hnoprim himg

/-! ## C20 -/

/-- After `clearAllImages` the registry is empty, no primary raster is
designated, `sceneToGeographicCoords` returns the sentinel for every point and
`jumpToLocation`, when no marker item was deleted with the scene, ends with the
no-data error. -/
theorem clearAllImages_unregisters (s : MainWindow) (scenePoint : PointF) (lon lat : ℚ)
    (hview : s.mapView = true) (hscene : s.mapScene = true)
    (hlive : (clearAllImages s).markersLive = true) :
    (clearAllImages s).georeferencedImagesInfo = [] ∧
    (clearAllImages s).isGeoTIFFLoaded = false ∧
    sceneToGeographicCoords (clearAllImages s) scenePoint = QPointF.nan ∧
    (jumpToLocation (clearAllImages s) lon lat).2 = .noImageLoaded := by
  refine ⟨rfl, rfl, ?_, ?_⟩
  · simp [sceneToGeographicCoords, clearAllImages, scanContaining]
  · exact jumpToLocation_noImageLoaded (clearAllImages s) lon lat hview hscene hlive
      (by simp [MainWindow.primaryUsable, clearAllImages])
      (by simp [clearAllImages, hscene])

/-- A georeferenced `loadRasterFile` into a session with no primary item and an
empty registry registers the raster with the item as constructed. -/
theorem loadRasterFile_first_load_registry (s : MainWindow) (f : RasterFile) (size : QSize)
    (hitem : s.geoTIFFItem = none) (hreg : s.georeferencedImagesInfo = [])
    (hf : f.georeferencedFor s size) :
    (loadRasterFile s f).1.georeferencedImagesInfo =
      [{ imageItem := some f.pixmapItem, hasTransform := true, imageSize := size,
         geoTransform := f.transform }] := by
  obtain ⟨hpix, hclash, htif, hds, hok⟩ := hf
  have hnull : ∀ s1 : MainWindow, s1.geoTIFFItem = none → s1.georeferencedImagesInfo = [] →
      (geographicToSceneCoords s1 f.transform.c0 f.transform.c3).isNull = true := by
    intro s1 h1 h2
    rw [geographicToSceneCoords_null_of_no_item s1 _ _ h1 h2]
    rfl
  unfold loadRasterFile
  simp only [hpix, hclash, htif, hds, hok, Bool.and_self, Bool.false_eq_true, if_false,
    Bool.true_and]
  by_cases hmain : (!s.isGeoTIFFLoaded) = true
  · simp only [hmain, if_true]
    rw [hnull _ (id hitem : ({ s with
      isGeoTIFFLoaded := true
      hasGeoTransform := true
      gdalGeoTransform := f.transform
      geoTIFFSize := size
      gdalDataset := f.dataset } : MainWindow).geoTIFFItem = none) hreg]
    simp [hreg]
  · simp only [hmain, Bool.false_eq_true, if_false]
    rw [hnull s hitem hreg]
    simp [hreg]

/-- C20 (the code at the failing input): in the session that has loaded the
georeferenced raster "a", `clearCurrentImage` (the operation behind "new
project" and "clear image") resets the primary flags but leaves the registry
with its entry, so `sceneToGeographicCoords` still resolves the scene point
`(60, 60)` through the cleared raster, to `(40, 20)`, instead of returning the
sentinel. `jumpToLocation` does end with the no-data error, and
`clearAllImages` leaves an empty registry. -/
theorem C20_clearCurrentImage_keeps_registry :
    (∀ s : MainWindow,
      (clearCurrentImage s).georeferencedImagesInfo = s.georeferencedImagesInfo) ∧
    (clearCurrentImage firstLoadWindow).georeferencedImagesInfo.length = 1 ∧
    (clearCurrentImage firstLoadWindow).isGeoTIFFLoaded = false ∧
    sceneToGeographicCoords (clearCurrentImage firstLoadWindow) ⟨60, 60⟩
      = ⟨some 40, some 20⟩ ∧
    (jumpToLocation (clearCurrentImage firstLoadWindow) 35 25).2 = .noImageLoaded ∧
    (clearAllImages firstLoadWindow).georeferencedImagesInfo = [] := by
  have hreg : firstLoadWindow.georeferencedImagesInfo =
      [{ imageItem := some (originItem 100 100), hasTransform := true, imageSize := ⟨100, 100⟩,
         geoTransform := gAxis }] :=
    loadRasterFile_first_load_registry freshWindow (geoRasterFile "a" gAxis 100 100)
      ⟨100, 100⟩ rfl rfl ⟨rfl, rfl, rfl, rfl, rfl⟩
  have hreg2 : (clearCurrentImage firstLoadWindow).georeferencedImagesInfo =
      [{ imageItem := some (originItem 100 100), hasTransform := true, imageSize := ⟨100, 100⟩,
         geoTransform := gAxis }] := hreg
  have hview := loadRasterFile_view freshWindow (geoRasterFile "a" gAxis 100 100)
  have hv : firstLoadWindow.mapView = true := hview.1
  have hs : firstLoadWindow.mapScene = true := hview.2
  refine ⟨fun s => rfl, ?_, rfl, ?_, ?_, rfl⟩
  · rw [hreg2]; rfl
  · unfold sceneToGeographicCoords
    rw [hreg2]
    simp only [scanContaining]
    norm_num [originItem, clampedForward, qBound, forward, gAxis]
  · exact jumpToLocation_noImageLoaded (clearCurrentImage firstLoadWindow) 35 25 hv hs
      (by decide!)
      (by simp [MainWindow.primaryUsable, clearCurrentImage])
      (by simp [clearCurrentImage, hs])

/-! ## C21 -/

/-- A failed `loadRasterFile` returns the state it was given. -/
theorem loadRasterFile_failure_unchanged (s : MainWindow) (f : RasterFile)
    (hfail : (loadRasterFile s f).2 ≠ .loaded) : (loadRasterFile s f).1 = s := by
  unfold loadRasterFile at hfail ⊢
  cases hp : f.pixmap with
  | none => rfl
  | some size =>
    rw [hp] at hfail
    simp only at hfail ⊢
    split
    · rfl
    · rename_i hclash
      rw [if_neg hclash] at hfail
      exact absurd rfl hfail

/-- C21 (the code at the failing input): in the session that has opened the
GeoTIFF "a" (transform `gAxis`, 100 x 100, dataset handle 8), `onOpenGeoTIFF`
fails on a file without raster bands, and on a file that cannot be opened. In
the first case the primary transform and size have already been overwritten
with those of the failing file and the dataset handle is null; in the second
the dataset handle is null. In both the flag `isGeoTIFFLoaded` stays set. A
failing `loadRasterFile` leaves the state unchanged. -/
theorem C21_failed_open_changes_primary :
    openedWindow.gdalGeoTransform = gAxis ∧
    openedWindow.geoTIFFSize = ⟨100, 100⟩ ∧
    openedWindow.gdalDataset = some 8 ∧
    (onOpenGeoTIFF openedWindow noBandsFile).2 = .noBands ∧
    (onOpenGeoTIFF openedWindow noBandsFile).1.gdalGeoTransform = gRot ∧
    (onOpenGeoTIFF openedWindow noBandsFile).1.geoTIFFSize = ⟨50, 50⟩ ∧
    (onOpenGeoTIFF openedWindow noBandsFile).1.gdalDataset = none ∧
    (onOpenGeoTIFF openedWindow noBandsFile).1.isGeoTIFFLoaded = true ∧
    (onOpenGeoTIFF openedWindow unopenableFile).2 = .openFailed ∧
    (onOpenGeoTIFF openedWindow unopenableFile).1.gdalDataset = none ∧
    (onOpenGeoTIFF openedWindow unopenableFile).1.isGeoTIFFLoaded = true ∧
    (loadRasterFile openedWindow unreadableFile).2 = .cannotLoad ∧
    (loadRasterFile openedWindow unreadableFile).1 = openedWindow := by
  have hopen := onOpenGeoTIFF_replaces_primary freshWindow (geoTIFFFile "a" gAxis 100 100)
    ⟨rfl, rfl, by norm_num [geoTIFFFile], rfl, rfl⟩ rfl
  obtain ⟨_, hloaded, _, hg, hsize, hds⟩ := hopen
  have hloaded2 : openedWindow.isGeoTIFFLoaded = true := hloaded
  have hnb : onOpenGeoTIFF openedWindow noBandsFile =
      ({ openedWindow with
          gdalDataset := none
          hasGeoTransform := true
          gdalGeoTransform := gRot
          geoTIFFSize := ⟨50, 50⟩ }, .noBands) := by
    simp [onOpenGeoTIFF, noBandsFile, geoTIFFFile]
  have hun : onOpenGeoTIFF openedWindow unopenableFile =
      ({ openedWindow with gdalDataset := none }, .openFailed) := by
    simp [onOpenGeoTIFF, unopenableFile, geoTIFFFile]
  have hload : (loadRasterFile openedWindow unreadableFile).2 = .cannotLoad := by
    simp [loadRasterFile, unreadableFile, plainRasterFile]
  refine ⟨hg, hsize, hds, ?_, ?_, ?_, ?_, ?_, ?_, ?_, ?_, hload, ?_⟩
  · rw [hnb]
  · rw [hnb]
  · rw [hnb]
  · rw [hnb]
  · rw [hnb]; exact hloaded2
  · rw [hun]
  · rw [hun]
  · rw [hun]; exact hloaded2
  · exact loadRasterFile_failure_unchanged _ _ (by rw [hload]; simp)

/-! ## C22 -/

/-- The call of `removeLayer` leaves the registry and the primary members as
they are. -/
theorem removeLayer_keeps_registry (s : MainWindow) (layerName : String) :
    (removeLayer s layerName).georeferencedImagesInfo = s.georeferencedImagesInfo ∧
    (removeLayer s layerName).isGeoTIFFLoaded = s.isGeoTIFFLoaded ∧
    (removeLayer s layerName).hasGeoTransform = s.hasGeoTransform ∧
    (removeLayer s layerName).gdalDataset = s.gdalDataset ∧
    (removeLayer s layerName).gdalGeoTransform = s.gdalGeoTransform ∧
    (removeLayer s layerName).geoTIFFItem = s.geoTIFFItem :=
  ⟨rfl, rfl, rfl, rfl, rfl, rfl⟩

/-- A georeferenced `loadRasterFile` into a session without a primary raster
appends the layer, typed "geotiff", under the file name. -/
theorem loadRasterFile_first_load_layer_names (s : MainWindow) (f : RasterFile) (size : QSize)
    (hfresh : s.isGeoTIFFLoaded = false) (hf : f.georeferencedFor s size) :
    (loadRasterFile s f).1.loadedLayers.map (fun layer => (layer.name, layer.type)) =
      s.loadedLayers.map (fun layer => (layer.name, layer.type)) ++ [(f.layerName, .geotiff)] := by
  obtain ⟨hpix, hclash, htif, hds, hok⟩ := hf
  unfold loadRasterFile
  simp only [hpix, hclash, htif, hds, hok, hfresh, Bool.not_false, Bool.and_self,
    Bool.false_eq_true, if_false, if_true, Bool.and_true, Bool.true_and]
  split <;> simp

/-- C22 (the code at the failing input): in the session that has loaded the
georeferenced raster "a", `removeLayer("a")` takes the layer out of
`loadedLayers` (no layer is left) but leaves the registry with its entry for
that raster; `geographicToSceneCoords(35, 25)` and
`sceneToGeographicCoords((60, 60))` still resolve through the removed raster's
transform. -/
theorem C22_removeLayer_keeps_registry_entry :
    firstLoadWindow.loadedLayers.map (fun layer => layer.name) = ["a"] ∧
    (removeLayer firstLoadWindow "a").loadedLayers.map (fun layer => layer.name) = [] ∧
    (removeLayer firstLoadWindow "a").georeferencedImagesInfo.length = 1 ∧
    (removeLayer firstLoadWindow "a").georeferencedImagesInfo.map
      (fun info => info.geoTransform) = [gAxis] ∧
    geographicToSceneCoords (removeLayer firstLoadWindow "a") 35 25 = ⟨some 50, some 50⟩ ∧
    sceneToGeographicCoords (removeLayer firstLoadWindow "a") ⟨60, 60⟩ = ⟨some 40, some 20⟩ := by
  have hreg : firstLoadWindow.georeferencedImagesInfo =
      [{ imageItem := some (originItem 100 100), hasTransform := true, imageSize := ⟨100, 100⟩,
         geoTransform := gAxis }] :=
    loadRasterFile_first_load_registry freshWindow (geoRasterFile "a" gAxis 100 100)
      ⟨100, 100⟩ rfl rfl ⟨rfl, rfl, rfl, rfl, rfl⟩
  have hreg2 : (removeLayer firstLoadWindow "a").georeferencedImagesInfo =
      [{ imageItem := some (originItem 100 100), hasTransform := true, imageSize := ⟨100, 100⟩,
         geoTransform := gAxis }] := hreg
  have hnames : firstLoadWindow.loadedLayers.map (fun layer => (layer.name, layer.type))
      = [("a", .geotiff)] :=
    loadRasterFile_first_load_layer_names freshWindow (geoRasterFile "a" gAxis 100 100)
      ⟨100, 100⟩ rfl ⟨rfl, rfl, rfl, rfl, rfl⟩
  have hfirst := loadRasterFile_sets_primary freshWindow (geoRasterFile "a" gAxis 100 100)
    ⟨100, 100⟩ rfl ⟨rfl, rfl, rfl, rfl, rfl⟩
  have hunset := loadRasterFile_first_load_item_unset freshWindow
    (geoRasterFile "a" gAxis 100 100) rfl rfl
  have hval : geoToPixel gAxis 35 25 = .pixel (some 50) (some 50) := by
    norm_num [geoToPixel, isAxisAligned, fastPath, fdiv, gAxis, eps]
  have hlayers : ∃ item, firstLoadWindow.loadedLayers = [⟨"a", .geotiff, item⟩] := by
    cases hl : firstLoadWindow.loadedLayers with
    | nil => rw [hl] at hnames; simp at hnames
    | cons a rest =>
      rw [hl] at hnames
      simp only [List.map_cons, List.cons.injEq, Prod.mk.injEq, List.map_eq_nil_iff] at hnames
      obtain ⟨⟨h1, h2⟩, h3⟩ := hnames
      subst h3
      exact ⟨a.graphicsItem, by cases a; simp_all⟩
  obtain ⟨item, hl⟩ := hlayers
  refine ⟨?_, ?_, ?_, ?_, ?_, ?_⟩
  · rw [hl]; rfl
  · simp [removeLayer, hl, removeFirstNamed]
  · rw [hreg2]; rfl
  · rw [hreg2]; rfl
  · have hguard : ((removeLayer firstLoadWindow "a").isGeoTIFFLoaded
        && (removeLayer firstLoadWindow "a").hasGeoTransform
        && (removeLayer firstLoadWindow "a").gdalDataset.isSome) = true := by
      show (firstLoadWindow.isGeoTIFFLoaded && firstLoadWindow.hasGeoTransform
        && firstLoadWindow.gdalDataset.isSome) = true
      have h1 : firstLoadWindow.isGeoTIFFLoaded = true := hfirst.2.1
      have h2 : firstLoadWindow.hasGeoTransform = true := hfirst.2.2.1
      have h3 : firstLoadWindow.gdalDataset = some 7 := hfirst.2.2.2.2.2
      rw [h1, h2, h3]; rfl
    have hg : (removeLayer firstLoadWindow "a").gdalGeoTransform = gAxis := hfirst.2.2.2.1
    have hitem : (removeLayer firstLoadWindow "a").geoTIFFItem = none := hunset.1
    have htry : tryEntry 35 25
        { imageItem := some (originItem 100 100), hasTransform := true, imageSize := ⟨100, 100⟩,
          geoTransform := gAxis } = some ⟨some 50, some 50⟩ := by
      simp only [tryEntry, hval, if_true]
      norm_num [Dbl.inPixelRange, originItem]
    simp only [geographicToSceneCoords, hguard, hg, hval, hitem, hreg2, scanRegistry, htry,
      if_true]
  · unfold sceneToGeographicCoords
    rw [hreg2]
    simp only [scanContaining]
    norm_num [originItem, clampedForward, qBound, forward, gAxis]

/-! ## C23 -/

/-- When `jumpToLocation` places a marker, the state afterwards is the old one
with the previous marker removed and the new marker built: its crosshair list
holds the six items of the new marker and no other. -/
theorem jumpToLocation_marker_state (s : MainWindow) (lon lat : ℚ) (x y : Dbl)
    (withinBounds isGeographic : Bool)
    (hjump : (jumpToLocation s lon lat).2 = .jumped x y withinBounds isGeographic) :
    (jumpToLocation s lon lat).1 = placeJumpMarker (removeCoordinateMarker s) x y ∧
    (jumpToLocation s lon lat).1.currentCrosshairItems.length = 6 := by
  have hstate : (jumpToLocation s lon lat).1 = placeJumpMarker (removeCoordinateMarker s) x y
      ∧ (removeCoordinateMarker s).currentCrosshairItems = [] := by
    unfold jumpToLocation jumpToLocationWith at hjump ⊢
    split at hjump
    · simp at hjump
    · rename_i hview
      rw [if_neg hview]
      simp only at hjump ⊢
      split at hjump
      · simp at hjump
      · rename_i hub
        rw [if_neg hub]
        have hlist : (removeCoordinateMarker s).currentCrosshairItems = [] := by
          unfold removeCoordinateMarker at hub ⊢
          split
          · rename_i hst
            rw [if_pos hst] at hub
            exact absurd rfl hub
          · rfl
        refine ⟨?_, hlist⟩
        split at hjump
        · rename_i hprim
          rw [if_pos hprim]
          split at hjump
          · simp at hjump
          · rename_i px py hpix
            simp only [hpix]
            simp only [JumpOutcome.jumped.injEq] at hjump
            rw [hjump.1, hjump.2.1]
        · rename_i hprim
          rw [if_neg hprim]
          split at hjump
          · rename_i item himg
            simp only [himg]
            simp only [JumpOutcome.jumped.injEq] at hjump
            rw [hjump.1, hjump.2.1]
          · simp at hjump
  refine ⟨hstate.1, ?_⟩
  rw [hstate.1]
  simp [placeJumpMarker, hstate.2]

/-- C23 (the code at the failing input): after `jumpToLocation(35, 25)` on the
scenario raster the marker state holds the jump marker at `(50, 50)` with its
six crosshair items. A following `addCoordinateMarker((10, 10))` replaces the
outer circle and the text label by those of the new marker, but
`currentCrosshairItems` still holds the six items of the previous marker, among
them its inner circle at `(42, 42)`. -/
theorem C23_addCoordinateMarker_keeps_old_crosshair :
    jumpedWindow.currentCrosshairItems.length = 6 ∧
    (addCoordinateMarker jumpedWindow ⟨10, 10⟩).coordinateMarker
      = some (.ellipse (some 2) (some 2) 16 16) ∧
    (addCoordinateMarker jumpedWindow ⟨10, 10⟩).coordinateTextItem
      = some (.text (some 20) (some (-10))) ∧
    (addCoordinateMarker jumpedWindow ⟨10, 10⟩).currentCrosshairItems
      = jumpedWindow.currentCrosshairItems ∧
    SceneItem.ellipse (some 42) (some 42) 16 16
      ∈ (addCoordinateMarker jumpedWindow ⟨10, 10⟩).currentCrosshairItems := by
  refine ⟨?_, ?_, ?_, ?_, ?_⟩ <;> decide!

/-! ## C24 -/

/-- C24 (the code at the failing input): a marker is requested at time 0 and a
second one at time 4000. At time 4000 the window holds the second marker, at
`(20, 20)`, and two expiry callbacks are pending, due at 5000 and 9000. When
the time reaches 5000 the callback of the first marker runs and removes the
second marker and its label, 1000 ms after that marker was created; the second
marker's own expiry is still pending. -/
theorem C24_stale_expiry_removes_newer_marker :
    twoClicks.now = 4000 ∧
    twoClicks.pending = [5000, 9000] ∧
    twoClicks.window.coordinateMarker = some (.ellipse (some 12) (some 12) 16 16) ∧
    (twoClicks.advanceTo 5000).now = 5000 ∧
    (twoClicks.advanceTo 5000).pending = [9000] ∧
    (twoClicks.advanceTo 5000).window.coordinateMarker = none ∧
    (twoClicks.advanceTo 5000).window.coordinateTextItem = none := by
  refine ⟨?_, ?_, ?_, ?_, ?_, ?_, ?_⟩ <;> decide!

/-! ## C25 -/

/-- C25: for every transform that takes the general path and has
`|c1*c5 - c2*c4| >= 1e-10`, and every pixel coordinate `(px, py)`, the Cramer
quotients applied to `forward(px, py)` give exactly `(px, py)` in exact
arithmetic, and so do the general-path branch and the whole inverse
computation. -/
theorem C25_general_path_exact_inverse (g : GeoTransform) (px py : ℚ)
    (hgen : isAxisAligned g = false) (hd : eps ≤ |det g|) :
    (g.c5 * ((forward g px py).1 - g.c0) - g.c2 * ((forward g px py).2 - g.c3)) / det g = px ∧
    (g.c1 * ((forward g px py).2 - g.c3) - g.c4 * ((forward g px py).1 - g.c0)) / det g = py ∧
    generalPath g (forward g px py).1 (forward g px py).2 = .pixel (some px) (some py) ∧
    geoToPixel g (forward g px py).1 (forward g px py).2 = .pixel (some px) (some py) := by
  have hdet := det_ne_zero_of_eps_le g hd
  have hx : (g.c5 * ((forward g px py).1 - g.c0) - g.c2 * ((forward g px py).2 - g.c3))
      / det g = px := by
    rw [div_eq_iff hdet]; simp only [forward, det]; ring
  have hy : (g.c1 * ((forward g px py).2 - g.c3) - g.c4 * ((forward g px py).1 - g.c0))
      / det g = py := by
    rw [div_eq_iff hdet]; simp only [forward, det]; ring
  have hgp : generalPath g (forward g px py).1 (forward g px py).2
      = .pixel (some px) (some py) := by
    simp only [generalPath, not_lt.mpr hd, if_false]
    rw [fdiv_of_ne_zero _ _ hdet, fdiv_of_ne_zero _ _ hdet, hx, hy]
  refine ⟨hx, hy, hgp, ?_⟩
  simp only [geoToPixel, hgen, Bool.false_eq_true, if_false]
  exact hgp

/-- C25 witness: the rotated scenario `c = (0, 1, 0.5, 0, 0.5, 1)` at the pixel
`(10, 20)`: the forward image is `(20, 25)` and the general path returns
`(10, 20)`. -/
theorem C25_general_path_exact_inverse_witness :
    isAxisAligned gRot = false ∧ eps ≤ |det gRot| ∧
    forward gRot 10 20 = (20, 25) ∧
    generalPath gRot 20 25 = .pixel (some 10) (some 20) := by
  have hgen : isAxisAligned gRot = false := by
    norm_num [isAxisAligned, gRot, eps, abs_lt]
  have hd : eps ≤ |det gRot| := by norm_num [det, gRot, eps, le_abs]
  have hf : forward gRot 10 20 = (20, 25) := by norm_num [forward, gRot]
  have h := (C25_general_path_exact_inverse gRot 10 20 hgen hd).2.2.1
  rw [hf] at h
  exact ⟨hgen, hd, hf, h⟩

/-! ## C26 -/

/-- Rounding an integer value gives that integer. -/
theorem qRound_intCast (n : ℤ) : qRound (n : ℚ) = n := by
  unfold qRound
  split
  · rw [Int.floor_eq_iff]
    constructor <;> linarith
  · rw [Int.ceil_eq_iff]
    constructor <;> linarith

/-- C26 (as stated, refuted): the same raster (transform `gAxis`, 100 x 100, at
the scene origin) once as primary raster and once as registered raster; the
scene point `(60.4, 60)` resolves to `(40, 20)` through the primary fallback,
which rounds to the pixel `(60, 60)`, and to `(40.2, 20)` through the registry
path. -/
theorem C26_primary_fallback_rounds :
    sceneToGeographicCoords (primaryWindow gAxis 100 100) ⟨302 / 5, 60⟩
      = ⟨some 40, some 20⟩ ∧
    sceneToGeographicCoords registryOnlyWindow ⟨302 / 5, 60⟩
      = ⟨some (201 / 5), some 20⟩ ∧
    roundedClampedForward gAxis ⟨100, 100⟩ ⟨302 / 5, 60⟩
      ≠ clampedForward gAxis ⟨100, 100⟩ ⟨302 / 5, 60⟩ := by
  have hx : qRound (302 / 5) = 60 := by
    unfold qRound
    rw [if_pos (by norm_num), Int.floor_eq_iff]
    constructor <;> norm_num
  have hy : qRound 60 = 60 := by
    have := qRound_intCast 60
    simpa using this
  have hr : roundedClampedForward gAxis ⟨100, 100⟩ ⟨302 / 5, 60⟩ = ⟨some 40, some 20⟩ := by
    simp only [roundedClampedForward, hx, hy]
    norm_num [qBound, forward, gAxis]
  have hc : clampedForward gAxis ⟨100, 100⟩ ⟨302 / 5, 60⟩ = ⟨some (201 / 5), some 20⟩ := by
    norm_num [clampedForward, qBound, forward, gAxis]
  refine ⟨?_, ?_, ?_⟩
  · simp only [sceneToGeographicCoords, primaryWindow, scanContaining]
    have hin : (originItem ((100 : ℤ) : ℚ) ((100 : ℤ) : ℚ)).contains ⟨302 / 5, 60⟩ = true := by
      norm_num [originItem]
    simp only [Bool.and_self, Option.isSome_some, if_true, hin]
    exact hr
  · unfold sceneToGeographicCoords
    have hreg : registryOnlyWindow.georeferencedImagesInfo = [entryAt gAxis 0 0 100 100] := rfl
    rw [hreg]
    have hcov : ((entryAt gAxis 0 0 100 100).hasTransform &&
        (translatedItem 0 0 100 100).contains ⟨302 / 5, 60⟩) = true := by
      norm_num [entryAt, translatedItem]
    simp only [scanContaining, entryAt]
    norm_num [clampedForward, qBound, forward, gAxis]
  · rw [hr, hc]
    intro h
    have h1 := congrArg QPointF.x h
    norm_num at h1

/-- C26 (amended): the primary fallback is the registry path applied to the
rounded point: for the same transform and size it returns
`forward(clamp(round(x), 0, W-1), clamp(round(y), 0, H-1))`, where the registry
path returns `forward(clamp(x, 0, W-1), clamp(y, 0, H-1))`. The two agree
whenever the raster-relative point has integer coordinates. -/
theorem C26_primary_fallback_is_registry_path_after_rounding (g : GeoTransform)
    (size : QSize) (itemPos : PointF) :
    roundedClampedForward g size itemPos =
      clampedForward g size ⟨(qRound itemPos.x : ℚ), (qRound itemPos.y : ℚ)⟩ ∧
    (∀ n m : ℤ, itemPos.x = n → itemPos.y = m →
      roundedClampedForward g size itemPos = clampedForward g size itemPos) := by
  have hmain : ∀ p : PointF, roundedClampedForward g size p =
      clampedForward g size ⟨(qRound p.x : ℚ), (qRound p.y : ℚ)⟩ := by
    intro p
    simp only [roundedClampedForward, clampedForward, qBound]
    push_cast
    rfl
  refine ⟨hmain itemPos, ?_⟩
  intro n m hx hy
  rw [hmain itemPos, hx, hy, qRound_intCast, qRound_intCast]
  cases itemPos
  simp only at hx hy
  rw [hx, hy]

/-- C26 witness: the integer point `(60, 60)` on the scenario raster resolves
alike on both paths. -/
theorem C26_primary_fallback_is_registry_path_after_rounding_witness :
    roundedClampedForward gAxis ⟨100, 100⟩ ⟨60, 60⟩ = clampedForward gAxis ⟨100, 100⟩ ⟨60, 60⟩ :=
  (C26_primary_fallback_is_registry_path_after_rounding gAxis ⟨100, 100⟩ ⟨60, 60⟩).2 60 60
    (by norm_num) (by norm_num)

/-! ## C27 -/

/-- Every entry that `loadRasterFile` registers has its item set: the invariant
assumed of the registry is kept by the one operation that appends to it. -/
theorem loadRasterFile_entries_have_items (s : MainWindow) (f : RasterFile)
    (hitems : ∀ e ∈ s.georeferencedImagesInfo, e.imageItem ≠ none) :
    ∀ e ∈ (loadRasterFile s f).1.georeferencedImagesInfo, e.imageItem ≠ none := by
  unfold loadRasterFile
  cases f.pixmap with
  | none => exact hitems
  | some size =>
    simp only
    split
    · exact hitems
    · intro e he
      have he2 : e ∈ s.georeferencedImagesInfo ∨ e.imageItem ≠ none := by
        split at he <;> split at he <;>
          simp only [List.mem_append, List.mem_singleton] at he <;>
          rcases he with h | h
        all_goals first
          | exact Or.inl h
          | (right; rw [h]; simp)
      rcases he2 with h | h
      · exact hitems e h
      · exact h

/-! ## C28 -/

end GeoCore

namespace CitySearch

/-! ## Lemmas on strings -/

theorem isSpace_commaChar : isSpace commaChar = false := by decide

theorem isSpace_space : isSpace 32 = true := by decide

/-- Dropping a prefix keeps the count of a character that is not dropped. -/
theorem count_dropWhile (p : ℕ → Bool) (c : ℕ) (hp : p c = false) (l : List ℕ) :
    (l.dropWhile p).count c = l.count c := by
  induction l with
  | nil => rfl
  | cons a rest ih =>
    by_cases ha : p a = true
    · have hne : a ≠ c := by
        intro h
        rw [h, hp] at ha
        exact absurd ha (by simp)
      rw [List.dropWhile_cons_of_pos ha, ih, List.count_cons_of_ne hne.symm]
    · rw [List.dropWhile_cons_of_neg ha]

/-- Trimming keeps every comma. -/
theorem count_comma_trimmed (s : QString) :
    (trimmed s).count commaChar = s.count commaChar := by
  unfold trimmed
  rw [List.count_reverse, count_dropWhile isSpace commaChar isSpace_commaChar,
    List.count_reverse, count_dropWhile isSpace commaChar isSpace_commaChar]

/-- Trimming adds no character. -/
theorem mem_of_mem_trimmed (s : QString) (c : ℕ) (h : c ∈ trimmed s) : c ∈ s := by
  unfold trimmed at h
  rw [List.mem_reverse] at h
  have h1 := (List.dropWhile_sublist isSpace).subset h
  rw [List.mem_reverse] at h1
  exact (List.dropWhile_sublist isSpace).subset h1

/-- What is left after dropping a prefix of spaces does not start with a
space. -/
theorem head_dropWhile_not_space (l : List ℕ) (c : ℕ)
    (h : (l.dropWhile isSpace).head? = some c) : isSpace c = false := by
  induction l with
  | nil => simp at h
  | cons a rest ih =>
    by_cases ha : isSpace a = true
    · rw [List.dropWhile_cons_of_pos ha] at h
      exact ih h
    · rw [List.dropWhile_cons_of_neg ha] at h
      simp only [List.head?_cons, Option.some.injEq] at h
      rw [← h]
      exact Bool.eq_false_iff.mpr ha

/-- Dropping a prefix of a non-empty remainder keeps the last element. -/
theorem getLast_dropWhile (p : ℕ → Bool) (l : List ℕ) (c : ℕ)
    (h : (l.dropWhile p).getLast? = some c) : l.getLast? = some c := by
  induction l with
  | nil => simp at h
  | cons a rest ih =>
    by_cases ha : p a = true
    · rw [List.dropWhile_cons_of_pos ha] at h
      have hr := ih h
      cases rest with
      | nil => simp at hr
      | cons b bs => rw [List.getLast?_cons_cons]; exact hr
    · rw [List.dropWhile_cons_of_neg ha] at h
      exact h

/-- A trimmed string has no whitespace at either end. -/
theorem isTrimmed_trimmed (s : QString) : IsTrimmed (trimmed s) := by
  unfold IsTrimmed trimmed
  constructor
  · intro c hc
    rw [List.head?_reverse] at hc
    have h1 := getLast_dropWhile isSpace _ c hc
    rw [List.getLast?_reverse] at h1
    exact head_dropWhile_not_space s c h1
  · intro c hc
    rw [List.getLast?_reverse] at hc
    exact head_dropWhile_not_space _ c hc

/-! ## C30 -/

/-- The splitter yields one field more than there are commas outside quotes. -/
theorem splitLoop_length (l : List ℕ) (inQuotes : Bool) (cur : QString) (fields : List QString) :
    (splitLoop l inQuotes cur fields).length
      = fields.length + commasOutsideQuotes l inQuotes + 1 := by
  induction l generalizing inQuotes cur fields with
  | nil => simp [splitLoop, commasOutsideQuotes]
  | cons c rest ih =>
    by_cases hq : c = quoteChar
    · simp only [splitLoop, commasOutsideQuotes, hq, if_true]
      exact ih _ _ _
    · by_cases hc : c = commaChar ∧ inQuotes = false
      · obtain ⟨hc1, hc2⟩ := hc
        subst hc1
        subst hc2
        simp only [splitLoop, commasOutsideQuotes, hq, if_false, if_true, and_self]
        rw [ih]
        simp only [List.length_append, List.length_singleton]
        omega
      · simp only [splitLoop, commasOutsideQuotes, hq, hc, if_false]
        exact ih _ _ _

/-- No field of the splitter contains a double quote. -/
theorem splitLoop_no_quote (l : List ℕ) (inQuotes : Bool) (cur : QString)
    (fields : List QString)
    (hfields : ∀ f ∈ fields, quoteChar ∉ f) (hcur : quoteChar ∉ cur) :
    ∀ f ∈ splitLoop l inQuotes cur fields, quoteChar ∉ f := by
  have hpush : ∀ (fs : List QString) (x : QString), (∀ f ∈ fs, quoteChar ∉ f) → quoteChar ∉ x →
      ∀ f ∈ fs ++ [trimmed x], quoteChar ∉ f := by
    intro fs x hfs hx f hf
    rw [List.mem_append, List.mem_singleton] at hf
    rcases hf with h | h
    · exact hfs f h
    · rw [h]
      exact fun hm => hx (mem_of_mem_trimmed x _ hm)
  induction l generalizing inQuotes cur fields with
  | nil =>
    simp only [splitLoop]
    exact hpush fields cur hfields hcur
  | cons c rest ih =>
    by_cases hq : c = quoteChar
    · simp only [splitLoop, hq, if_true]
      exact ih _ _ _ hfields hcur
    · by_cases hc : c = commaChar ∧ inQuotes = false
      · obtain ⟨hc1, hc2⟩ := hc
        subst hc1
        subst hc2
        simp only [splitLoop, hq, if_false, if_true, and_self]
        exact ih _ _ _ (hpush fields cur hfields hcur) (by simp)
      · simp only [splitLoop, hq, hc, if_false]
        apply ih _ _ _ hfields
        intro hm
        rw [List.mem_append, List.mem_singleton] at hm
        rcases hm with h | h
        · exact hcur h
        · exact hq h.symm

/-- Every comma of the line is either a separator outside quotes or is kept in
a field. -/
theorem splitLoop_commas (l : List ℕ) (inQuotes : Bool) (cur : QString)
    (fields : List QString) :
    ((splitLoop l inQuotes cur fields).map (List.count commaChar)).sum
        + commasOutsideQuotes l inQuotes
      = (fields.map (List.count commaChar)).sum + cur.count commaChar + l.count commaChar := by
  induction l generalizing inQuotes cur fields with
  | nil =>
    simp [splitLoop, commasOutsideQuotes, count_comma_trimmed]
  | cons c rest ih =>
    by_cases hq : c = quoteChar
    · have hne : c ≠ commaChar := by rw [hq]; decide
      simp only [splitLoop, commasOutsideQuotes, hq, if_true]
      rw [ih, hq.symm, List.count_cons_of_ne hne.symm]
    · by_cases hc : c = commaChar ∧ inQuotes = false
      · obtain ⟨hc1, hc2⟩ := hc
        subst hc1
        subst hc2
        simp only [splitLoop, commasOutsideQuotes, hq, if_false, if_true, and_self]
        have h := ih false [] (fields ++ [trimmed cur])
        simp only [List.map_append, List.sum_append, List.map_cons, List.map_nil,
          List.sum_cons, List.sum_nil, count_comma_trimmed, List.count_nil, add_zero] at h
        rw [List.count_cons_self]
        omega
      · simp only [splitLoop, commasOutsideQuotes, hq, hc, if_false]
        rw [ih, List.count_append]
        by_cases hcc : c = commaChar
        · rw [hcc, List.count_cons_self]
          simp only [List.count_cons_self, List.count_nil]
          omega
        · have hcc2 : commaChar ≠ c := fun h => hcc h.symm
          simp only [List.count_cons_of_ne hcc2, List.count_nil]
          omega

/-- Every field of the splitter is whitespace-trimmed. -/
theorem splitLoop_trimmed (l : List ℕ) (inQuotes : Bool) (cur : QString)
    (fields : List QString) (hfields : ∀ f ∈ fields, IsTrimmed f) :
    ∀ f ∈ splitLoop l inQuotes cur fields, IsTrimmed f := by
  have hpush : ∀ (fs : List QString) (x : QString), (∀ f ∈ fs, IsTrimmed f) →
      ∀ f ∈ fs ++ [trimmed x], IsTrimmed f := by
    intro fs x hfs f hf
    rw [List.mem_append, List.mem_singleton] at hf
    rcases hf with h | h
    · exact hfs f h
    · rw [h]
      exact isTrimmed_trimmed x
  induction l generalizing inQuotes cur fields with
  | nil =>
    simp only [splitLoop]
    exact hpush fields cur hfields
  | cons c rest ih =>
    by_cases hq : c = quoteChar
    · simp only [splitLoop, hq, if_true]
      exact ih _ _ _ hfields
    · by_cases hc : c = commaChar ∧ inQuotes = false
      · obtain ⟨hc1, hc2⟩ := hc
        subst hc1
        subst hc2
        simp only [splitLoop, hq, if_false, if_true, and_self]
        exact ih _ _ _ (hpush fields cur hfields)
      · simp only [splitLoop, hq, hc, if_false]
        exact ih _ _ _ hfields

/-- A string without whitespace at its ends is left as it is by trimming. -/
theorem trimmed_eq_self (s : QString) (h : IsTrimmed s) : trimmed s = s := by
  have hdrop : ∀ l : List ℕ, (∀ c, l.head? = some c → isSpace c = false) →
      l.dropWhile isSpace = l := by
    intro l hl
    cases l with
    | nil => rfl
    | cons a rest =>
      have ha := hl a rfl
      rw [List.dropWhile_cons_of_neg (by simp [ha])]
  unfold trimmed
  rw [hdrop s h.1, hdrop s.reverse (by rw [List.head?_reverse]; exact h.2), List.reverse_reverse]

/-- Removing a character that does not occur changes nothing. -/
theorem removeChar_eq_self (c : ℕ) (s : QString) (h : c ∉ s) : removeChar c s = s := by
  unfold removeChar
  rw [List.filter_eq_self]
  intro a ha
  have hne : a ≠ c := fun hac => h (hac ▸ ha)
  simp [hne]

/-- The fields give a city exactly when there are at least four of them, the
third and the fourth parse as numbers and the trimmed, quote-free first field
is not empty; the city is made of these values. -/
theorem cityOfFields_eq_some_iff (toDouble : QString → Option ℚ) (fields : List QString)
    (city : CityData) :
    cityOfFields toDouble fields = some city ↔
      ∃ f0 f1 f2 f3 rest, fields = f0 :: f1 :: f2 :: f3 :: rest
        ∧ toDouble f2 = some city.latitude ∧ toDouble f3 = some city.longitude
        ∧ city.name = trimmed (removeChar quoteChar f0) ∧ city.name ≠ []
        ∧ city.country = trimmed (removeChar quoteChar f1) := by
  constructor
  · intro h
    match fields, h with
    | f0 :: f1 :: f2 :: f3 :: rest, h =>
      refine ⟨f0, f1, f2, f3, rest, rfl, ?_⟩
      simp only [cityOfFields] at h
      cases h2 : toDouble f2 with
      | none => simp [h2] at h
      | some latitude =>
        cases h3 : toDouble f3 with
        | none => simp [h2, h3] at h
        | some longitude =>
          simp only [h2, h3] at h
          by_cases hname : trimmed (removeChar quoteChar f0) = []
          · simp [hname] at h
          · simp only [ne_eq, hname, not_false_eq_true, if_true, Option.some.injEq] at h
            subst h
            exact ⟨rfl, rfl, rfl, hname, rfl⟩
  · rintro ⟨f0, f1, f2, f3, rest, hfields, h2, h3, hname, hne, hcountry⟩
    subst hfields
    rw [hname] at hne
    cases city with
    | mk name country latitude longitude =>
      simp only at h2 h3 hname hcountry
      simp only [cityOfFields, h2, h3, ne_eq, hne, not_false_eq_true, if_true, hname, hcountry]

/-! ## C29 -/

/-- Strings of different lengths are not equal ignoring case, whatever the case
folding of the characters. -/
theorem equalsIgnoreCase_of_length_ne (fold : ℕ → ℕ) (a b : QString)
    (h : a.length ≠ b.length) : equalsIgnoreCase fold a b = false := by
  unfold equalsIgnoreCase
  rw [decide_eq_false_iff_not]
  intro heq
  apply h
  have := congrArg List.length heq
  simpa using this

/-- After `map[key] = value` the key holds the value. -/
theorem mapLookup_mapInsert_self (key : QString) (value : CityData)
    (m : List (QString × CityData)) : mapLookup key (mapInsert key value m) = some value := by
  induction m with
  | nil => simp [mapInsert, mapLookup]
  | cons kv rest ih =>
    obtain ⟨k, v⟩ := kv
    by_cases h1 : key = k
    · simp [mapInsert, mapLookup, h1]
    · by_cases h2 : keyLt key k = true
      · simp [mapInsert, mapLookup, h1, h2]
      · simp [mapInsert, mapLookup, h1, h2, ih]

/-- After `map[key] = value` every other key holds what it held. -/
theorem mapLookup_mapInsert_other (key other : QString) (value : CityData)
    (m : List (QString × CityData)) (hne : other ≠ key) :
    mapLookup other (mapInsert key value m) = mapLookup other m := by
  induction m with
  | nil => simp [mapInsert, mapLookup, hne]
  | cons kv rest ih =>
    obtain ⟨k, v⟩ := kv
    by_cases h1 : key = k
    · subst h1
      simp [mapInsert, mapLookup, hne]
    · by_cases h2 : keyLt key k = true
      · simp [mapInsert, mapLookup, h1, h2, hne]
      · simp [mapInsert, mapLookup, h1, h2, ih]

/-- An entry of the map after `map[key] = value` is the new entry or an old
one. -/
theorem mem_mapInsert (key : QString) (value : CityData) (m : List (QString × CityData))
    (kv : QString × CityData) (h : kv ∈ mapInsert key value m) :
    kv = (key, value) ∨ kv ∈ m := by
  induction m with
  | nil =>
    simp only [mapInsert, List.mem_singleton] at h
    exact Or.inl h
  | cons e rest ih =>
    obtain ⟨k, v⟩ := e
    by_cases h1 : key = k
    · subst h1
      simp only [mapInsert, if_true, List.mem_cons] at h
      rcases h with h | h
      · exact Or.inl h
      · exact Or.inr (List.mem_cons_of_mem _ h)
    · by_cases h2 : keyLt key k = true
      · simp only [mapInsert, h1, h2, if_false, if_true, List.mem_cons] at h
        rcases h with h | h | h
        · exact Or.inl h
        · exact Or.inr (by rw [h]; exact List.mem_cons_self _ _)
        · exact Or.inr (List.mem_cons_of_mem _ h)
      · simp only [mapInsert, h1, h2, Bool.false_eq_true, if_false, List.mem_cons] at h
        cases h with
        | inl h => exact Or.inr (by rw [h]; exact List.mem_cons_self _ _)
        | inr h =>
          cases ih h with
          | inl h3 => exact Or.inl h3
          | inr h3 => exact Or.inr (List.mem_cons_of_mem _ h3)

/-- A value found under a key is an entry of the map. -/
theorem mem_of_mapLookup (key : QString) (value : CityData) (m : List (QString × CityData))
    (h : mapLookup key m = some value) : (key, value) ∈ m := by
  induction m with
  | nil => simp [mapLookup] at h
  | cons e rest ih =>
    obtain ⟨k, v⟩ := e
    by_cases h1 : key = k
    · subst h1
      simp only [mapLookup, if_true, Option.some.injEq] at h
      rw [h]
      exact List.mem_cons_self _ _
    · simp only [mapLookup, h1, if_false] at h
      exact List.mem_cons_of_mem _ (ih h)

/-- Storing a city with a non-empty name and trimmed strings keeps the stores
well formed. -/
theorem wellFormed_storeCity (w : CitySearchWidget) (city : CityData) (hw : WellFormed w)
    (hname : city.name ≠ []) (htn : IsTrimmed city.name) (htc : IsTrimmed city.country) :
    WellFormed (storeCity w city) := by
  constructor
  · intro c hc
    simp only [storeCity, List.mem_append, List.mem_singleton] at hc
    rcases hc with hc | hc
    · obtain ⟨h1, h2, h3, v, hv⟩ := hw.1 c hc
      refine ⟨h1, h2, h3, ?_⟩
      by_cases hkey : c.getSearchString = city.getSearchString
      · exact ⟨city, by simp only [storeCity]; rw [hkey]; exact mapLookup_mapInsert_self _ _ _⟩
      · exact ⟨v, by simp only [storeCity]; rw [mapLookup_mapInsert_other _ _ _ _ hkey]; exact hv⟩
    · subst hc
      exact ⟨hname, htn, htc, c, mapLookup_mapInsert_self _ _ _⟩
  · intro kv hkv
    simp only [storeCity] at hkv
    rcases mem_mapInsert _ _ _ _ hkv with h | h
    · rw [h]
      exact ⟨rfl, hname⟩
    · exact hw.2 kv h

/-- One line of the file keeps the stores well formed. -/
theorem wellFormed_processLine (toDouble : QString → Option ℚ) (w : CitySearchWidget)
    (rawLine : QString) (hw : WellFormed w) : WellFormed (processLine toDouble w rawLine) := by
  unfold processLine
  by_cases hempty : trimmed rawLine = []
  · simp only [hempty, if_true]
    exact hw
  · simp only [hempty, if_false]
    cases hcity : cityOfFields toDouble (splitFields (trimmed rawLine)) with
    | none => exact hw
    | some city =>
      obtain ⟨f0, f1, f2, f3, rest, _, _, _, hname, hne, hcountry⟩ :=
        (cityOfFields_eq_some_iff toDouble _ city).mp hcity
      exact wellFormed_storeCity w city hw hne (hname ▸ isTrimmed_trimmed _)
        (hcountry ▸ isTrimmed_trimmed _)

/-- The stores are well formed after every load. -/
theorem wellFormed_loadCitiesFromCSV (toDouble : QString → Option ℚ) (w : CitySearchWidget)
    (lines : List QString) : WellFormed (loadCitiesFromCSV toDouble w (some lines)).1 := by
  have hfold : ∀ (ls : List QString) (w0 : CitySearchWidget), WellFormed w0 →
      WellFormed (ls.foldl (processLine toDouble) w0) := by
    intro ls
    induction ls with
    | nil => intro w0 h0; exact h0
    | cons l rest ih =>
      intro w0 h0
      exact ih _ (wellFormed_processLine toDouble w0 l h0)
  have hempty : WellFormed ({} : CitySearchWidget) := by
    constructor
    · intro c hc
      simp at hc
    · intro kv hkv
      simp at hkv
  exact hfold _ _ hempty

/-- The search string of a city with a non-empty name and a non-empty country,
both trimmed, is left as it is by trimming. -/
theorem trimmed_getSearchString (c : CityData) (hname : c.name ≠ []) (hcountry : c.country ≠ [])
    (htn : IsTrimmed c.name) (htc : IsTrimmed c.country) :
    trimmed c.getSearchString = c.getSearchString := by
  apply trimmed_eq_self
  unfold CityData.getSearchString
  constructor
  · intro x hx
    apply htn.1 x
    cases hn : c.name with
    | nil => exact absurd hn hname
    | cons a rest =>
      rw [hn] at hx
      simpa using hx
  · intro x hx
    apply htc.2 x
    rw [List.getLast?_append_of_ne_nil _ hcountry] at hx
    exact hx

/-- In well-formed stores every city with a non-empty country is found by its
own search string: `findCity` returns a city with that search string and a
non-empty name. -/
theorem findCity_of_country (fold : ℕ → ℕ) (w : CitySearchWidget) (c : CityData)
    (hw : WellFormed w) (hc : c ∈ w.cities) (hcountry : c.country ≠ []) :
    (findCity fold w c.getSearchString).getSearchString = c.getSearchString
      ∧ (findCity fold w c.getSearchString).name ≠ [] := by
  obtain ⟨hname, htn, htc, v, hv⟩ := hw.1 c hc
  have hentry := hw.2 _ (mem_of_mapLookup _ _ _ hv)
  unfold findCity
  simp only [trimmed_getSearchString c hname hcountry htn htc, hv]
  exact hentry

/-- In well-formed stores `findCity` returns a city with an empty name only
when none of its three stages matches. -/
theorem findCity_empty_name (fold : ℕ → ℕ) (w : CitySearchWidget) (searchText : QString)
    (hw : WellFormed w) (hempty : (findCity fold w searchText).name = []) :
    mapLookup (trimmed searchText) w.cityMap = none
      ∧ w.cityMap.find? (fun kv => equalsIgnoreCase fold kv.1 (trimmed searchText)) = none
      ∧ w.cities.find? (fun city => equalsIgnoreCase fold city.name (trimmed searchText)) = none := by
  unfold findCity at hempty
  cases h1 : mapLookup (trimmed searchText) w.cityMap with
  | some v =>
    simp only [h1] at hempty
    exact absurd hempty (hw.2 _ (mem_of_mapLookup _ _ _ h1)).2
  | none =>
    simp only [h1] at hempty
    cases h2 : w.cityMap.find? (fun kv => equalsIgnoreCase fold kv.1 (trimmed searchText)) with
    | some kv =>
      simp only [h2] at hempty
      exact absurd hempty (hw.2 kv (List.mem_of_find?_eq_some h2)).2
    | none =>
      simp only [h2] at hempty
      cases h3 : w.cities.find?
          (fun city => equalsIgnoreCase fold city.name (trimmed searchText)) with
      | some city =>
        simp only [h3] at hempty
        exact absurd hempty (hw.1 city (List.mem_of_find?_eq_some h3)).1
      | none => exact ⟨rfl, rfl, rfl⟩

/-- C29. A city without a country is not found by its own search string. The
load of a file with the line `Paris,,48.85,2.35` stores the city Paris with an
empty country under the key "Paris, " and offers that string to the completer;
`findCity` trims the search text "Paris, " to "Paris,", which is no key of the
map, equals no key and no city name ignoring case (whatever the case folding),
and so the empty city is returned. -/
theorem C29_city_without_country_not_found (fold : ℕ → ℕ) :
    loadCitiesFromCSV sampleToDouble {} (some parisFile) = (parisWidget, true)
    ∧ parisWidget.cities = [paris]
    ∧ parisWidget.cityMap = [(qs "Paris, ", paris)]
    ∧ parisWidget.cityNames = [qs "Paris, "]
    ∧ paris.name ≠ [] ∧ paris.country = []
    ∧ paris.getSearchString = qs "Paris, "
    ∧ trimmed paris.getSearchString = qs "Paris,"
    ∧ findCity fold parisWidget paris.getSearchString = CityData.empty
    ∧ (findCity fold parisWidget paris.getSearchString).getSearchString
        ≠ paris.getSearchString := by
  have hcities : parisWidget.cities = [paris] := rfl
  have hmap : parisWidget.cityMap = [(qs "Paris, ", paris)] := rfl
  have hnames : parisWidget.cityNames = [qs "Paris, "] := rfl
  have hkey : paris.getSearchString = qs "Paris, " := by decide
  have htrim : trimmed paris.getSearchString = qs "Paris," := by decide
  have hfind : findCity fold parisWidget paris.getSearchString = CityData.empty := by
    have hlookup : mapLookup (qs "Paris,") [(qs "Paris, ", paris)] = none := by
      simp only [mapLookup]
      rw [if_neg (by decide)]
    have hk : equalsIgnoreCase fold (qs "Paris, ") (qs "Paris,") = false :=
      equalsIgnoreCase_of_length_ne fold _ _ (by decide)
    have hn : equalsIgnoreCase fold paris.name (qs "Paris,") = false :=
      equalsIgnoreCase_of_length_ne fold _ _ (by decide)
    unfold findCity
    simp only [htrim, hmap, hcities, hlookup, List.find?_cons, hk, hn, List.find?_nil]
  refine ⟨rfl, hcities, hmap, hnames, by decide, rfl, hkey, htrim, hfind, ?_⟩
  rw [hfind, hkey]
  decide

/-! ## C30 -/

/-- Removing the double quotes keeps every comma. -/
theorem count_comma_removeChar (s : QString) :
    (removeChar quoteChar s).count commaChar = s.count commaChar := by
  unfold removeChar
  induction s with
  | nil => rfl
  | cons a rest ih =>
    by_cases ha : a = quoteChar
    · have hne : commaChar ≠ a := by rw [ha]; decide
      rw [List.filter_cons_of_neg (by simp [ha]), ih, List.count_cons_of_ne hne]
    · rw [List.filter_cons_of_pos (by simp [ha])]
      by_cases hc : a = commaChar
      · rw [hc, List.count_cons_self, List.count_cons_self, ih]
      · have hne : commaChar ≠ a := fun h => hc h.symm
        rw [List.count_cons_of_ne hne, List.count_cons_of_ne hne, ih]

/-- What trimming takes away is whitespace at the two ends. -/
theorem trimmed_decomposition (s : QString) :
    ∃ before after : QString, s = before ++ trimmed s ++ after ∧
      (∀ c ∈ before, isSpace c = true) ∧ (∀ c ∈ after, isSpace c = true) := by
  refine ⟨s.takeWhile isSpace, ((s.dropWhile isSpace).reverse.takeWhile isSpace).reverse,
    ?_, ?_, ?_⟩
  · unfold trimmed
    rw [List.append_assoc, ← List.reverse_append, List.takeWhile_append_dropWhile,
      List.reverse_reverse, List.takeWhile_append_dropWhile]
  · intro c hc
    exact List.mem_takeWhile_imp hc
  · intro c hc
    rw [List.mem_reverse] at hc
    exact List.mem_takeWhile_imp hc

/-- The character loop of the splitter, in terms of the cut of the line: the
running field is completed by the first piece, and every further piece gives
one field. -/
theorem splitLoop_eq (l : List ℕ) (inQuotes : Bool) (cur : QString) (fields : List QString) :
    splitLoop l inQuotes cur fields =
      fields ++ trimmed (cur ++ removeChar quoteChar (cutAtCommas l inQuotes).1)
        :: (cutAtCommas l inQuotes).2.map fieldOfPiece := by
  induction l generalizing inQuotes cur fields with
  | nil => simp [splitLoop, cutAtCommas, removeChar]
  | cons c rest ih =>
    by_cases hq : c = quoteChar
    · have hnc : ¬ (c = commaChar ∧ inQuotes = false) := by
        rintro ⟨h, _⟩
        rw [hq] at h
        exact absurd h (by decide)
      simp only [splitLoop, cutAtCommas, hq, if_true, hnc, if_false]
      rw [hq] at hnc
      simp only [hnc, if_false]
      rw [ih]
      simp [removeChar]
    · by_cases hc : c = commaChar ∧ inQuotes = false
      · obtain ⟨hc1, hc2⟩ := hc
        subst hc1
        subst hc2
        simp only [splitLoop, cutAtCommas, hq, if_false, if_true, and_self]
        rw [ih]
        simp [removeChar, fieldOfPiece]
      · simp only [splitLoop, cutAtCommas, hq, hc, if_false]
        rw [ih]
        simp [removeChar, hq]

/-- The pieces, joined with commas, are the line. -/
theorem joinWithCommas_cutAtCommas (l : List ℕ) (inQuotes : Bool) :
    joinWithCommas ((cutAtCommas l inQuotes).1 :: (cutAtCommas l inQuotes).2) = l := by
  induction l generalizing inQuotes with
  | nil => rfl
  | cons c rest ih =>
    by_cases hc : c = commaChar ∧ inQuotes = false
    · simp only [cutAtCommas, hc, and_self, if_true, joinWithCommas, List.nil_append]
      rw [ih]
    · simp only [cutAtCommas, hc, if_false]
      have h := ih (if c = quoteChar then !inQuotes else inQuotes)
      cases hrest : (cutAtCommas rest (if c = quoteChar then !inQuotes else inQuotes)).2 with
      | nil =>
        rw [hrest] at h
        simp only [joinWithCommas] at h ⊢
        rw [h]
      | cons next more =>
        rw [hrest] at h
        simp only [joinWithCommas, List.cons_append] at h ⊢
        rw [h]

/-- There is one further piece for every comma outside quotes. -/
theorem length_cutAtCommas (l : List ℕ) (inQuotes : Bool) :
    (cutAtCommas l inQuotes).2.length = commasOutsideQuotes l inQuotes := by
  induction l generalizing inQuotes with
  | nil => rfl
  | cons c rest ih =>
    by_cases hq : c = quoteChar
    · have hnc : ¬ (c = commaChar ∧ inQuotes = false) := by
        rintro ⟨h, _⟩
        rw [hq] at h
        exact absurd h (by decide)
      simp only [cutAtCommas, commasOutsideQuotes, hq, if_true, hnc, if_false]
      rw [hq] at hnc
      simp only [hnc, if_false]
      exact ih _
    · by_cases hc : c = commaChar ∧ inQuotes = false
      · obtain ⟨hc1, hc2⟩ := hc
        subst hc1
        subst hc2
        simp only [cutAtCommas, commasOutsideQuotes, hq, and_self, if_true, if_false,
          List.length_cons]
        rw [ih]
      · simp only [cutAtCommas, commasOutsideQuotes, hq, hc, if_false]
        exact ih _

/-- The splitter gives one field for each piece of the line: the piece without
its double quotes, trimmed. -/
theorem splitFields_eq (line : QString) : splitFields line = (pieces line).map fieldOfPiece := by
  unfold splitFields pieces
  rw [splitLoop_eq]
  simp [fieldOfPiece]

/-- An example of the splitter on a line with a quoted comma. -/
theorem splitFields_quotedLine :
    pieces quotedLine
      = [[quoteChar] ++ qs "Washington, D.C." ++ [quoteChar] ++ qs " ", qs " USA", qs "38.9",
          qs "-77.0"] ∧
    splitFields quotedLine = [qs "Washington, D.C.", qs "USA", qs "38.9", qs "-77.0"] := by
  constructor <;> decide

/-- C30. CSV field splitting, for every non-empty line as the loop has it. The
line is cut at its commas outside double quotes into (number of those commas)
+ 1 pieces, which joined with commas give back the line; the splitter yields
one field for each piece, in order, and the field is the piece without its
double quotes, whitespace-trimmed (what trimming takes away is whitespace at
the two ends). So no field contains a double quote, every field has the commas
of its piece, the commas inside quotes, and every field is trimmed. The fields
give a city exactly when there are at least four of them, the third and the
fourth parse as numbers and the first, the name, is not empty; a line as read
whose trimmed text is this line then stores exactly that city, at the end of
the list, under its search string in the map (the other keys keep their
values) and in the completer list, and stores nothing otherwise. -/
theorem C30_csv_field_splitting (toDouble : QString → Option ℚ) (line : QString)
    (hne : line ≠ []) :
    (pieces line).length = commasOutsideQuotes line false + 1
    ∧ joinWithCommas (pieces line) = line
    ∧ splitFields line = (pieces line).map (fun piece => trimmed (removeChar quoteChar piece))
    ∧ (∀ s : QString, ∃ before after : QString, s = before ++ trimmed s ++ after ∧
        (∀ c ∈ before, isSpace c = true) ∧ (∀ c ∈ after, isSpace c = true))
    ∧ (splitFields line).length = commasOutsideQuotes line false + 1
    ∧ (∀ f ∈ splitFields line, quoteChar ∉ f)
    ∧ (splitFields line).map (List.count commaChar) = (pieces line).map (List.count commaChar)
    ∧ (∀ f ∈ splitFields line, IsTrimmed f)
    ∧ (∀ city, cityOfFields toDouble (splitFields line) = some city ↔
        ∃ f0 f1 f2 f3 rest, splitFields line = f0 :: f1 :: f2 :: f3 :: rest
          ∧ toDouble f2 = some city.latitude ∧ toDouble f3 = some city.longitude
          ∧ city.name = f0 ∧ city.name ≠ [] ∧ city.country = f1)
    ∧ (∀ (rawLine : QString) (w : CitySearchWidget) (city : CityData),
        trimmed rawLine = line → cityOfFields toDouble (splitFields line) = some city →
          (processLine toDouble w rawLine).cities = w.cities ++ [city]
          ∧ mapLookup city.getSearchString (processLine toDouble w rawLine).cityMap = some city
          ∧ (∀ other : QString, other ≠ city.getSearchString →
              mapLookup other (processLine toDouble w rawLine).cityMap
                = mapLookup other w.cityMap)
          ∧ (processLine toDouble w rawLine).cityNames
              = w.cityNames ++ [city.getSearchString])
    ∧ (∀ (rawLine : QString) (w : CitySearchWidget),
        trimmed rawLine = line → cityOfFields toDouble (splitFields line) = none →
          processLine toDouble w rawLine = w) := by
  have hquote := splitLoop_no_quote line false [] [] (by simp) (by simp)
  have htrim := splitLoop_trimmed line false [] [] (by simp)
  refine ⟨?_, joinWithCommas_cutAtCommas line false, splitFields_eq line, trimmed_decomposition,
    ?_, hquote, ?_, htrim, ?_, ?_, ?_⟩
  · simp [pieces, length_cutAtCommas]
  · have h := splitLoop_length line false [] []
    simpa [splitFields] using h
  · rw [splitFields_eq, List.map_map]
    apply List.map_congr_left
    intro piece _
    simp [fieldOfPiece, count_comma_trimmed, count_comma_removeChar]
  · intro city
    rw [cityOfFields_eq_some_iff]
    constructor
    · rintro ⟨f0, f1, f2, f3, rest, hfields, h2, h3, hname, hne, hcountry⟩
      have hm0 : f0 ∈ splitFields line := by rw [hfields]; simp
      have hm1 : f1 ∈ splitFields line := by rw [hfields]; simp
      rw [removeChar_eq_self _ _ (hquote f0 hm0), trimmed_eq_self _ (htrim f0 hm0)] at hname
      rw [removeChar_eq_self _ _ (hquote f1 hm1), trimmed_eq_self _ (htrim f1 hm1)] at hcountry
      exact ⟨f0, f1, f2, f3, rest, hfields, h2, h3, hname, hne, hcountry⟩
    · rintro ⟨f0, f1, f2, f3, rest, hfields, h2, h3, hname, hne, hcountry⟩
      have hm0 : f0 ∈ splitFields line := by rw [hfields]; simp
      have hm1 : f1 ∈ splitFields line := by rw [hfields]; simp
      refine ⟨f0, f1, f2, f3, rest, hfields, h2, h3, ?_, hne, ?_⟩
      · rw [removeChar_eq_self _ _ (hquote f0 hm0), trimmed_eq_self _ (htrim f0 hm0)]
        exact hname
      · rw [removeChar_eq_self _ _ (hquote f1 hm1), trimmed_eq_self _ (htrim f1 hm1)]
        exact hcountry
  · intro rawLine w city hraw hcity
    have hp : processLine toDouble w rawLine = storeCity w city := by
      unfold processLine
      simp only [hraw, hne, if_false, hcity]
    rw [hp]
    exact ⟨rfl, mapLookup_mapInsert_self _ _ _,
      fun other hother => mapLookup_mapInsert_other _ _ _ _ hother, rfl⟩
  · intro rawLine w hraw hcity
    unfold processLine
    simp only [hraw, hne, if_false, hcity]

/-- C30 witness: the line `"Paris",FR,48.85,2.35`, read with a blank before and
after it. -/
theorem C30_csv_field_splitting_witness :
    pieces parisLine
      = [[quoteChar] ++ qs "Paris" ++ [quoteChar], qs "FR", qs "48.85", qs "2.35"] ∧
    splitFields parisLine = [qs "Paris", qs "FR", qs "48.85", qs "2.35"] ∧
    cityOfFields sampleToDouble (splitFields parisLine) = some parisFR ∧
    (processLine sampleToDouble {} (qs " " ++ parisLine ++ qs " ")).cities = [parisFR] ∧
    (processLine sampleToDouble {} (qs " " ++ parisLine ++ qs " ")).cityNames
      = [qs "Paris, FR"] :=
  have h := C30_csv_field_splitting sampleToDouble parisLine (by decide)
  have hcity : cityOfFields sampleToDouble (splitFields parisLine) = some parisFR := by decide!
  have hstore := h.2.2.2.2.2.2.2.2.2.1 (qs " " ++ parisLine ++ qs " ") {} parisFR (by decide) hcity
  ⟨by decide, by rw [h.2.2.1]; decide, hcity, hstore.1, hstore.2.2.2⟩

end CitySearch
